import Mathlib

/-!
Breakout engine: a shallow embedding of `internal/breakout`

The Go package is embedded function by function.  Conventions:

* Go `int` is `Int`; the engine's counters stay far below the 64-bit range,
  so no wrap-around is modelled.  Integer division is `Int.tdiv`.
* Go `float64` is `ℚ`: comparisons, negation, clamping and the conversion
  `int(f)` are modelled exactly, sums and products without rounding.  The one
  float division, by half the paddle width, has a nonzero divisor for the
  widths 12 and 24 the package uses.
* `goInt` truncates exactly; `goInt64` is the conversion on 64 bits, which
  differs from it outside `[-2^63, 2^63)`, and `Ball.Move64` is `Ball.Move`
  with that conversion.  The two agree while the coordinates are in range.
* `F64` adds the infinities and NaN to the finite values; `FBall.SetDir` is
  `SetDir` on such values and agrees with `Ball.SetDir` on finite ones.
* `Breakout.CheckColisionCall` is `CheckColision` with the engine, the brick
  and the ball after the call among its results.
* `math.Cos(d*math.Pi/180)` and `math.Sin(d*math.Pi/180)` are library
  functions; they enter as the two fields of a `Trig` oracle.
* `rand.Intn` results enter as explicit arguments (`rx` for
  `rand.Intn(AREA_WIDTH)`, `rd` for `rand.Intn(2)`).
* Pointer receivers become state passing: a method returns the new value.
* `[][]*Brick` is `List (List (Option Brick))`, `nil` being `none`; the
  slots of a grid are distinct bricks, as in every grid the package builds.
* A run-time panic (index out of range) is the result `none`.
* The bodies of `Ball.Move` and `MoveBall` are cut into their successive
  statements, one definition each, composed in source order.
-/

namespace BreakoutGo

/-! ## Constants (breakout.go) -/

def AREA_WIDTH : Int := 182
def AREA_HEIGHT : Int := 240
def BRICKS_PER_ROW : Int := 14
def BRICK_ROWS : Int := 8
def TOP_OFFSET : Int := 32
def BRICK_HEIGHT : Int := 7

/-- Go conversion `int(f)` of a float: truncation toward zero. -/
def goInt (x : ℚ) : Int := if 0 ≤ x then ⌊x⌋ else ⌈x⌉

/-- Trigonometry oracle: `cos d` stands for `math.Cos(d*math.Pi/180)` and
`sin d` for `math.Sin(d*math.Pi/180)`, `d` in degrees. -/
structure Trig where
  cos : ℚ → ℚ
  sin : ℚ → ℚ

/-! ## Paddle (paddle.go) -/

structure Paddle where
  x : Int
  width : Int
  height : Int
deriving DecidableEq, Repr

def NewPaddle : Paddle :=
  { x := Int.tdiv AREA_WIDTH 2 - 12, width := 24, height := 4 }

def Paddle.GetX (p : Paddle) : Int := p.x
def Paddle.GetWidth (p : Paddle) : Int := p.width
def Paddle.GetHeight (p : Paddle) : Int := p.height

def Paddle.Shrink (p : Paddle) : Paddle :=
  if p.width > 12 then { p with width := 12 } else p

def Paddle.UnShrink (p : Paddle) : Paddle :=
  if p.width < 24 then { p with width := 24 } else p

def Paddle.MoveLeft (p : Paddle) : Paddle :=
  let p := if p.x ≥ 0 then { p with x := p.x - 3 } else p
  if p.x < 0 then { p with x := 0 } else p

def Paddle.MoveRight (p : Paddle) : Paddle :=
  let p := if p.x ≤ AREA_WIDTH - p.width then { p with x := p.x + 3 } else p
  if p.x > AREA_WIDTH - p.width then { p with x := AREA_WIDTH - p.width } else p

/-! ## Ball (ball.go) -/

structure Ball where
  x : ℚ
  y : ℚ
  radius : Int
  dir : ℚ
  speed : ℚ
  v_x : ℚ
  v_y : ℚ
deriving DecidableEq, Repr

def Ball.GetX (b : Ball) : Int := goInt b.x
def Ball.GetY (b : Ball) : Int := goInt b.y
def Ball.GetRadius (b : Ball) : Int := b.radius
def Ball.GetDir (b : Ball) : ℚ := b.dir

def Ball.SetDir (T : Trig) (b : Ball) (dir : ℚ) : Ball :=
  let b := { b with dir := dir }
  let b := { b with v_x := b.speed * T.cos dir }
  let b := { b with v_y := b.speed * T.sin dir }
  let b := if b.v_x > 10 then { b with v_x := 10 } else b
  let b := if b.v_x < -10 then { b with v_x := -10 } else b
  let b := if b.v_y > (BRICK_HEIGHT : ℚ) then { b with v_y := (BRICK_HEIGHT : ℚ) } else b
  if b.v_y < -(BRICK_HEIGHT : ℚ) then { b with v_y := -(BRICK_HEIGHT : ℚ) } else b

/-- Constructor `NewBall`; `rx` is the value of `rand.Intn(AREA_WIDTH)` and
`rd` the value of `rand.Intn(2)`. -/
def NewBall (T : Trig) (rx rd : Nat) : Ball :=
  let b : Ball :=
    { x := (((rx : Int) - 6 : Int) : ℚ) + 3
      y := ((Int.tdiv AREA_HEIGHT 2 : Int) : ℚ)
      radius := 2
      dir := 0
      speed := 3
      v_x := 0
      v_y := 0 }
  if rd = 0 then b.SetDir T 45 else b.SetDir T 135

/-- First two statements of `Ball.Move`: `b.x += b.v_x; b.y += b.v_y`. -/
def Ball.advance (b : Ball) : Ball :=
  let b := { b with x := b.x + b.v_x }
  { b with y := b.y + b.v_y }

/-- Left wall test of `Ball.Move`. -/
def Ball.bounceLeft (b : Ball) : Ball :=
  if goInt b.x ≤ b.radius then
    if b.v_x < 0 then { b with x := (b.radius : ℚ), v_x := -b.v_x } else b
  else b

/-- Right wall test of `Ball.Move`. -/
def Ball.bounceRight (b : Ball) : Ball :=
  if goInt b.x ≥ AREA_WIDTH - b.radius then
    if b.v_x > 0 then { b with x := ((AREA_WIDTH - b.radius : Int) : ℚ), v_x := -b.v_x } else b
  else b

/-- Top wall test of `Ball.Move`. -/
def Ball.bounceTop (b : Ball) : Ball :=
  if goInt b.y ≤ b.radius then
    if b.v_y < 0 then { b with y := (b.radius : ℚ), v_y := -b.v_y } else b
  else b

/-- Bottom test of `Ball.Move`, which ends the method: the ball and the
error, if any. -/
def Ball.bottom (b : Ball) : Ball × Option String :=
  if goInt b.y > AREA_HEIGHT - b.radius then
    let b :=
      if b.v_y > 0 then { b with y := ((AREA_HEIGHT - b.radius : Int) : ℚ), v_y := -b.v_y } else b
    (b, some "Ball is out of bounds")
  else (b, none)

/-- Method `Ball.Move`: the moved ball and the error, if any. -/
def Ball.Move (b : Ball) : Ball × Option String :=
  let b := b.advance
  let b := b.bounceLeft
  let b := b.bounceRight
  let b := b.bounceTop
  b.bottom

def Ball.ReverseVX (b : Ball) : Ball := { b with v_x := -b.v_x }
def Ball.ReverseVY (b : Ball) : Ball := { b with v_y := -b.v_y }

/-! ## Brick (brick.go) -/

structure Brick where
  row : Int
  col : Int
  cleared : Bool
  x : Int
  y : Int
  width : Int
  height : Int
deriving DecidableEq, Repr

def Brick.CalcWidth (b : Brick) : Int :=
  let realWidth : ℚ := (AREA_WIDTH : ℚ) / (BRICKS_PER_ROW : ℚ)
  let intWidth : Int := goInt realWidth
  let rest : Int := AREA_WIDTH - intWidth * BRICKS_PER_ROW
  if b.col = 0 then intWidth + Int.tdiv rest 2
  else if b.col = BRICKS_PER_ROW - 1 then
    AREA_WIDTH - (BRICKS_PER_ROW - 1) * intWidth - Int.tdiv rest 2
  else intWidth

def NewBrick (row col : Int) : Brick :=
  let br : Brick :=
    { row := row, col := col, cleared := false, x := 0, y := 0, width := 0, height := 0 }
  let br := { br with width := br.CalcWidth }
  let br := { br with height := BRICK_HEIGHT }
  let br := { br with y := TOP_OFFSET + (BRICK_ROWS - row - 1) * BRICK_HEIGHT }
  let br := { br with x := col * Int.tdiv AREA_WIDTH BRICKS_PER_ROW }
  if col > 0 then
    let realWidth : ℚ := (AREA_WIDTH : ℚ) / (BRICKS_PER_ROW : ℚ)
    let intWidth : Int := goInt realWidth
    let rest : Int := AREA_WIDTH - intWidth * BRICKS_PER_ROW
    { br with x := br.x + Int.tdiv rest 2 }
  else br

def Brick.IsCleared (b : Brick) : Bool := b.cleared
def Brick.SetCleared (b : Brick) (cleared : Bool) : Brick := { b with cleared := cleared }
def Brick.GetX (b : Brick) : Int := b.x
def Brick.GetY (b : Brick) : Int := b.y
def Brick.GetWidth (b : Brick) : Int := b.width
def Brick.GetHeight (b : Brick) : Int := b.height

def Brick.GetPoints (b : Brick) : Int :=
  if b.row = 0 ∨ b.row = 1 then 1
  else if b.row = 2 ∨ b.row = 3 then 3
  else if b.row = 4 ∨ b.row = 5 then 5
  else if b.row = 6 ∨ b.row = 7 then 7
  else 7

def Brick.GetRow (b : Brick) : Int := b.row
def Brick.SetRow (b : Brick) (row : Int) : Brick := { b with row := row }
def Brick.GetCol (b : Brick) : Int := b.col
def Brick.SetCol (b : Brick) (col : Int) : Brick := { b with col := col }

def Brick.GetColor (b : Brick) : String :=
  if b.row = 0 ∨ b.row = 1 then "yellow"
  else if b.row = 2 ∨ b.row = 3 then "green"
  else if b.row = 4 ∨ b.row = 5 then "orange"
  else if b.row = 6 ∨ b.row = 7 then "red"
  else "red"

structure BrickState where
  X : Int
  Y : Int
  Width : Int
  Height : Int
  Color : String
deriving DecidableEq, Repr

def Brick.GetState (b : Brick) : BrickState :=
  { X := b.x, Y := b.y, Width := b.width, Height := b.height, Color := b.GetColor }

/-! ## Engine (breakout.go) -/

structure Breakout where
  ball : Ball
  bricks : List (List (Option Brick))
  score : Int
  level : Int
  live : Int
  paddle : Paddle
  frameReward : Int
  gameOver : Bool
deriving DecidableEq, Repr

structure BreakoutState where
  BallX : Int
  BallY : Int
  BallRadius : Int
  Width : Int
  Height : Int
  PaddleX : Int
  PaddleWidth : Int
  PaddleHeight : Int
  Bricks : List BrickState
  Level : Int
  Score : Int
  Live : Int
  FrameReward : Int
  Done : Bool
deriving DecidableEq, Repr

/-- The grid built by the two nested loops of `NewBreakout` (and again by
`MoveBall` on a level clear): `bricks[i][j] = NewBrick(i, j)`. -/
def newBricks : List (List (Option Brick)) :=
  (List.range BRICK_ROWS.toNat).map fun i =>
    (List.range BRICKS_PER_ROW.toNat).map fun j => some (NewBrick (i : Int) (j : Int))

def NewBreakout (T : Trig) (rx rd : Nat) : Breakout :=
  let bricks := newBricks
  let paddle := NewPaddle
  { ball := NewBall T rx rd
    bricks := bricks
    paddle := paddle
    score := 0
    level := 1
    live := 1
    frameReward := 0
    gameOver := false }

/-- Body of the inner loop of `GetState` for the indices `i`, `j`: the list
`state.Bricks` after the step, or `none` when `b.bricks[i][j]` is out of range
(a run-time panic in Go). -/
def Breakout.stateCell (b : Breakout) (i j : Nat) (acc : List BrickState) :
    Option (List BrickState) :=
  match b.bricks[i]? with
  | none => none
  | some row =>
    match row[j]? with
    | none => none
    | some none => some acc
    | some (some br) => if br.IsCleared = false then some (acc ++ [br.GetState]) else some acc

/-- The two nested loops of `GetState`, `i` over `BRICK_ROWS` and `j` over
`BRICKS_PER_ROW`. -/
def Breakout.stateBricks (b : Breakout) : Option (List BrickState) :=
  (List.range BRICK_ROWS.toNat).foldlM
    (fun acc i => (List.range BRICKS_PER_ROW.toNat).foldlM (fun acc j => b.stateCell i j acc) acc)
    []

/-- Method `GetState`; `none` stands for the index-out-of-range panic. -/
def Breakout.GetState (b : Breakout) : Option BreakoutState :=
  let state : BreakoutState :=
    { BallX := b.ball.GetX
      BallY := b.ball.GetY
      BallRadius := b.ball.GetRadius
      Width := AREA_WIDTH
      Height := AREA_HEIGHT
      PaddleX := b.paddle.GetX
      PaddleWidth := b.paddle.GetWidth
      PaddleHeight := b.paddle.GetHeight
      Bricks := []
      Level := b.level
      Score := b.score
      Live := b.live
      Done := b.gameOver
      FrameReward := b.frameReward }
  match b.stateBricks with
  | none => none
  | some bricks => some { state with Bricks := bricks }

/-- Method `CheckColision`: the pair `(xrev, yrev)`.  The position is read
from the argument `bl`, the velocity from the engine's own ball. -/
def Breakout.CheckColision (b : Breakout) (br : Brick) (bl : Ball) : Bool × Bool :=
  if br.IsCleared then (false, false)
  else
    let blX := bl.GetX
    let blY := bl.GetY
    let blR := bl.GetRadius
    let brX := br.GetX
    let brY := br.GetY
    let brW := br.GetWidth
    let brH := br.GetHeight
    let xrev := false
    let yrev := false
    let xrev :=
      if blX + blR > brX ∧ blX - blR ≤ brX then
        let xrev :=
          if blY + blR > brY ∧ blY + blR ≤ brY + brH then
            (if b.ball.v_x > 0 then true else xrev)
          else xrev
        if blY - blR > brY ∧ blY - blR ≤ brY + brH then
          (if b.ball.v_x > 0 then true else xrev)
        else xrev
      else xrev
    let xrev :=
      if blX - blR < brX + brW ∧ blX + blR ≥ brX + brW then
        let xrev :=
          if blY + blR > brY ∧ blY + blR ≤ brY + brH then
            (if b.ball.v_x < 0 then true else xrev)
          else xrev
        if blY - blR > brY ∧ blY - blR ≤ brY + brH then
          (if b.ball.v_x < 0 then true else xrev)
        else xrev
      else xrev
    let yrev :=
      if blY + blR > brY ∧ blY - blR ≤ brY then
        let yrev :=
          if blX + blR > brX ∧ blX + blR ≤ brX + brW then
            (if b.ball.v_y > 0 then true else yrev)
          else yrev
        if blX - blR > brX ∧ blX - blR ≤ brX + brW then
          (if b.ball.v_y > 0 then true else yrev)
        else yrev
      else yrev
    let yrev :=
      if blY - blR < brY + brH ∧ blY + blR ≥ brY + brH then
        let yrev :=
          if blX + blR > brX ∧ blX + blR ≤ brX + brW then
            (if b.ball.v_y < 0 then true else yrev)
          else yrev
        if blX - blR > brX ∧ blX - blR ≤ brX + brW then
          (if b.ball.v_y < 0 then true else yrev)
        else yrev
      else yrev
    (xrev, yrev)

/-- Method `CheckPaddleColision`: the result `col` and the ball, whose
direction is reset on a hit. -/
def Breakout.CheckPaddleColision (T : Trig) (pa : Paddle) (bl : Ball) : Bool × Ball :=
  let blX := bl.GetX
  let blY := bl.GetY
  let blR := bl.GetRadius
  let paX := pa.GetX
  let paY := AREA_HEIGHT - pa.GetHeight
  let paW := pa.GetWidth
  let paH := pa.GetHeight
  let col := false
  let col :=
    if blY + blR ≥ paY ∧ blY < paY + paH then
      let col := if blX + blR ≥ paX ∧ blX + blR ≤ paX + paW then true else col
      if blX - blR ≥ paX ∧ blX - blR ≤ paX + paW then true else col
    else col
  if col then
    let xpaddle := paX + Int.tdiv paW 2
    let xball := blX
    let h : ℚ := ((xball - xpaddle : Int) : ℚ) / ((Int.tdiv paW 2 : Int) : ℚ)
    (col, bl.SetDir T (270 + h * 60 + 1))
  else (col, bl)

/-- Local variables of the brick loop of `MoveBall` together with the
score field it updates. -/
structure Scan where
  cleared : Int
  xrev : Bool
  yrev : Bool
  score : Int
deriving DecidableEq, Repr

/-- Body of the inner loop of `MoveBall` for one slot `b.bricks[i][j]`. -/
def Breakout.scanCell (b : Breakout) (s : Scan) : Option Brick → Scan × Option Brick
  | none => (s, none)
  | some br =>
    if br.IsCleared = false then
      if s.xrev = false ∧ s.yrev = false then
        let r := b.CheckColision br b.ball
        let xr := r.1
        let yr := r.2
        if xr = true ∨ yr = true then
          ({ cleared := s.cleared + 1
             xrev := s.xrev || xr
             yrev := s.yrev || yr
             score := s.score + br.GetPoints * b.level },
           some (br.SetCleared true))
        else
          ({ s with xrev := s.xrev || xr, yrev := s.yrev || yr }, some br)
      else (s, some br)
    else ({ s with cleared := s.cleared + 1 }, some br)

/-- Inner loop `for j := range b.bricks[i]`. -/
def Breakout.scanRow (b : Breakout) : Scan → List (Option Brick) → Scan × List (Option Brick)
  | s, [] => (s, [])
  | s, c :: cs =>
    let r := b.scanCell s c
    let r2 := b.scanRow r.1 cs
    (r2.1, r.2 :: r2.2)

/-- Outer loop `for i := range b.bricks`. -/
def Breakout.scanGrid (b : Breakout) :
    Scan → List (List (Option Brick)) → Scan × List (List (Option Brick))
  | s, [] => (s, [])
  | s, row :: rows =>
    let r := b.scanRow s row
    let r2 := b.scanGrid r.1 rows
    (r2.1, r.2 :: r2.2)

/-- Body of `MoveBall` under `if err != nil`, up to its `return`. -/
def Breakout.lifeLoss (T : Trig) (rx rd : Nat) (b : Breakout) : Breakout :=
  let b := { b with live := b.live + 1 }
  let b := if b.live > (5 : Int) then { b with gameOver := true } else b
  let b := { b with frameReward := -10 }
  let b := { b with ball := NewBall T rx rd }
  { b with paddle := NewPaddle }

/-- Brick loops of `MoveBall`: the engine with the bricks and score they
leave, and the final values of the locals `cleared`, `xrev`, `yrev`. -/
def Breakout.scanBricks (b : Breakout) : Breakout × Scan :=
  let r := b.scanGrid { cleared := 0, xrev := false, yrev := false, score := b.score } b.bricks
  ({ b with bricks := r.2, score := r.1.score }, r.1)

/-- The two statements `if xrev { ... }`, `if yrev { ... }` of `MoveBall`. -/
def Breakout.applyReversal (b : Breakout) (xrev yrev : Bool) : Breakout :=
  let b := if xrev then { b with ball := b.ball.ReverseVX } else b
  if yrev then { b with ball := b.ball.ReverseVY } else b

/-- Paddle test of `MoveBall` and the reward it sets. -/
def Breakout.paddleContact (T : Trig) (b : Breakout) : Breakout :=
  let p := Breakout.CheckPaddleColision T b.paddle b.ball
  let b := { b with ball := p.2 }
  if p.1 then { b with frameReward := 10 } else { b with frameReward := 0 }

/-- Last statement of `MoveBall`: the level is complete when the count of
cleared bricks equals `BRICKS_PER_ROW*BRICK_ROWS`. -/
def Breakout.levelCheck (T : Trig) (rx rd : Nat) (cleared : Int) (b : Breakout) : Breakout :=
  if cleared = BRICKS_PER_ROW * BRICK_ROWS then
    let b := { b with level := b.level + 1 }
    let b := { b with bricks := newBricks }
    let b := { b with ball := NewBall T rx rd }
    { b with paddle := NewPaddle }
  else b

/-- Method `MoveBall`; `rx`, `rd` are the random draws consumed if the call
builds a new ball. -/
def Breakout.MoveBall (T : Trig) (rx rd : Nat) (b : Breakout) : Breakout :=
  if b.gameOver then b
  else
    let m := b.ball.Move
    let b := { b with ball := m.1 }
    match m.2 with
    | some _ => b.lifeLoss T rx rd
    | none =>
      let r := b.scanBricks
      let b := r.1.applyReversal r.2.xrev r.2.yrev
      let b := b.paddleContact T
      b.levelCheck T rx rd r.2.cleared

def Breakout.PaddleRight (b : Breakout) : Breakout := { b with paddle := b.paddle.MoveRight }
def Breakout.PaddleLeft (b : Breakout) : Breakout := { b with paddle := b.paddle.MoveLeft }
def Breakout.PaddleShrink (b : Breakout) : Breakout := { b with paddle := b.paddle.Shrink }
def Breakout.PaddleUnShrink (b : Breakout) : Breakout := { b with paddle := b.paddle.UnShrink }

/-- State of the engine right after the call `b.ball.Move()` of `MoveBall`. -/
def Breakout.afterMove (b : Breakout) : Breakout := { b with ball := (b.ball.Move).1 }

/-! ## Command sequences -/

/-- One call of the engine's interface. -/
inductive Cmd where
  | tick (rx rd : Nat)
  | left
  | right
  | shrink
  | unshrink
deriving DecidableEq, Repr

def Breakout.step (T : Trig) (b : Breakout) : Cmd → Breakout
  | .tick rx rd => b.MoveBall T rx rd
  | .left => b.PaddleLeft
  | .right => b.PaddleRight
  | .shrink => b.PaddleShrink
  | .unshrink => b.PaddleUnShrink

def Breakout.run (T : Trig) (b : Breakout) : List Cmd → Breakout
  | [] => b
  | c :: cs => Breakout.run T (b.step T c) cs

/-- A tick is a life-loss event when the game is running and `Ball.Move`
returns its error. -/
def Breakout.lifeLost (b : Breakout) : Cmd → Bool
  | .tick _ _ => !b.gameOver && (b.ball.Move).2.isSome
  | _ => false

/-- Number of life-loss events while running `cs` from `b`. -/
def Breakout.lifeLosses (T : Trig) (b : Breakout) : List Cmd → Nat
  | [] => 0
  | c :: cs => (if b.lifeLost c then 1 else 0) + Breakout.lifeLosses T (b.step T c) cs

/-! ## Predicates used in the statements -/

/-- Number of slots of a row that hold a cleared brick. -/
def clearedInRow : List (Option Brick) → Int
  | [] => 0
  | none :: cs => clearedInRow cs
  | some br :: cs => (if br.cleared = true then 1 else 0) + clearedInRow cs

/-- Number of slots of a grid that hold a cleared brick. -/
def clearedInGrid : List (List (Option Brick)) → Int
  | [] => 0
  | row :: rows => clearedInRow row + clearedInGrid rows

/-- The collision test of the brick loop flags an axis for `br`. -/
def Breakout.hits (b : Breakout) (br : Brick) : Bool :=
  (b.CheckColision br b.ball).1 || (b.CheckColision br b.ball).2

/-- The slot is empty, or holds a cleared brick, or a brick the collision
test does not flag. -/
def Breakout.noHit (b : Breakout) : Option Brick → Bool
  | none => true
  | some br => br.cleared || !b.hits br

/-- No slot of the grid holds an uncleared brick that the collision test flags. -/
def Breakout.noHitGrid (b : Breakout) (g : List (List (Option Brick))) : Prop :=
  ∀ row ∈ g, ∀ c ∈ row, b.noHit c = true

/-- The grid has `BRICK_ROWS` rows of `BRICKS_PER_ROW` bricks, all cleared. -/
def allCleared (g : List (List (Option Brick))) : Bool :=
  g.length == BRICK_ROWS.toNat &&
  g.all fun row =>
    row.length == BRICKS_PER_ROW.toNat &&
    row.all fun c =>
      match c with
      | some br => br.cleared
      | none => false

/-- Snapshot record of a slot: the record of its brick when it holds an
uncleared one. -/
def activeRecord : Option Brick → Option BrickState
  | some br => if br.cleared = false then some br.GetState else none
  | none => none

/-- Records of the uncleared bricks of a grid, in row-major order. -/
def activeRecords (g : List (List (Option Brick))) : List BrickState :=
  g.flatten.filterMap activeRecord

/-- The grid has `BRICK_ROWS` rows of `BRICKS_PER_ROW` slots. -/
def gridShape (g : List (List (Option Brick))) : Bool :=
  g.length == BRICK_ROWS.toNat && g.all fun row => row.length == BRICKS_PER_ROW.toNat

/-- Every slot of the grid holds a brick. -/
def noNil (g : List (List (Option Brick))) : Bool :=
  g.all fun row => row.all Option.isSome

/-- The integer point `(px, py)` lies in the rectangle of the brick. -/
def Brick.covers (br : Brick) (px py : Int) : Prop :=
  br.x ≤ px ∧ px < br.x + br.width ∧ br.y ≤ py ∧ py < br.y + br.height

/-- The ball lies inside the arena: `radius ≤ x ≤ AREA_WIDTH - radius` and
`radius ≤ y < AREA_HEIGHT - radius + 1`. -/
def Ball.inArena (b : Ball) : Prop :=
  (b.radius : ℚ) ≤ b.x ∧ b.x ≤ ((AREA_WIDTH - b.radius : Int) : ℚ) ∧
  (b.radius : ℚ) ≤ b.y ∧ b.y < ((AREA_HEIGHT - b.radius + 1 : Int) : ℚ)

/-- The draw `rx` of a tick, if any, places a new ball at `x ≥ radius`. -/
def Cmd.drawInside : Cmd → Prop
  | .tick rx _ => 5 ≤ rx ∧ rx < 182
  | _ => True

/-! ## Sample inputs -/

/-- Bhaskara's rational approximation of the sine of an angle in degrees. -/
def bhaskaraSin (d : ℚ) : ℚ :=
  let r : ℚ := d - 360 * ((⌊d / 360⌋ : Int) : ℚ)
  if r ≤ 180 then 4 * r * (180 - r) / (40500 - r * (180 - r))
  else -(4 * (r - 180) * (360 - r) / (40500 - (r - 180) * (360 - r)))

/-- A sample oracle, for evaluating the engine on concrete inputs. -/
def sampleTrig : Trig :=
  { cos := fun d => bhaskaraSin (d + 90), sin := bhaskaraSin }

/-- A finished game: the sixth life reached and the flag set. -/
def finishedGame : Breakout :=
  { NewBreakout sampleTrig 100 1 with live := 6, score := 12, gameOver := true }

/-- A running game whose ball has fallen below the arena, as in the
repository's life-loss test. -/
def fallenBall : Breakout :=
  { NewBreakout sampleTrig 100 0 with
    ball := { NewBall sampleTrig 100 0 with y := ((AREA_HEIGHT + 1 : Int) : ℚ) } }

/-- A fresh game with the ball one step to the left of brick (1,1), moving
in `+x` at the brick's mid height. -/
def hitState : Breakout :=
  { NewBreakout sampleTrig 100 0 with
    ball := { x := 9, y := 77, radius := 2, dir := 0, speed := 3, v_x := 3, v_y := 0 } }

/-- The grid of a fresh game with every brick marked cleared. -/
def clearedBricks : List (List (Option Brick)) :=
  newBricks.map fun row => row.map fun c => c.map fun br => br.SetCleared true

/-- A running game with all 112 bricks cleared and the ball in mid air. -/
def clearedMidAir : Breakout :=
  { NewBreakout sampleTrig 100 0 with bricks := clearedBricks, score := 448 }

/-- A running game with all 112 bricks cleared and the ball at `y = 238`,
moving down. -/
def clearedAtBottom : Breakout :=
  { NewBreakout sampleTrig 100 0 with
    bricks := clearedBricks
    score := 448
    ball := { NewBall sampleTrig 100 0 with y := 238 } }

/-- A ball whose bounding square just touches the left end of the fresh paddle. -/
def edgeBall : Ball := { NewBall sampleTrig 80 0 with y := 236 }

/-- A ball of radius 2 with the given position and velocity. -/
def sampleBall (x y vx vy : ℚ) : Ball :=
  { x := x, y := y, radius := 2, dir := 0, speed := 3, v_x := vx, v_y := vy }

/-- A fresh engine carrying the given ball. -/
def sampleEngine (bl : Ball) : Breakout :=
  { NewBreakout sampleTrig 100 0 with ball := bl }

/-- A ball just above the bottom line, moving down. -/
def lowBall : Ball := sampleBall 100 237 0 2

/-- A ball of speed 20, as in the repository's speed-limit test. -/
def fastBall : Ball := { sampleBall 91 120 0 0 with speed := 20 }

/-! ## Further definitions and inputs -/

/-- State of the engine in `MoveBall` right before the paddle test: after
`Ball.Move`, the brick loops and the two reversal statements. -/
def Breakout.beforePaddle (b : Breakout) : Breakout :=
  b.afterMove.scanBricks.1.applyReversal b.afterMove.scanBricks.2.xrev
    b.afterMove.scanBricks.2.yrev

/-- A ball at the centre of the fresh paddle, one pixel above it. -/
def centreBall : Ball := sampleBall 91 235 1 2

/-- A fresh game whose ball is about to land on the centre of the paddle. -/
def paddleTick : Breakout := sampleEngine (sampleBall 91 233 0 2)

/-- Method `CalcWidth` read with the arena width as a parameter `W` in place
of the constant `AREA_WIDTH`. -/
def Brick.CalcWidthFor (W : Int) (b : Brick) : Int :=
  let realWidth : ℚ := (W : ℚ) / (BRICKS_PER_ROW : ℚ)
  let intWidth : Int := goInt realWidth
  let rest : Int := W - intWidth * BRICKS_PER_ROW
  if b.col = 0 then intWidth + Int.tdiv rest 2
  else if b.col = BRICKS_PER_ROW - 1 then
    W - (BRICKS_PER_ROW - 1) * intWidth - Int.tdiv rest 2
  else intWidth

/-- Constructor `NewBrick` read with the arena width as a parameter `W` in
place of the constant `AREA_WIDTH`. -/
def NewBrickFor (W : Int) (row col : Int) : Brick :=
  let br : Brick :=
    { row := row, col := col, cleared := false, x := 0, y := 0, width := 0, height := 0 }
  let br := { br with width := br.CalcWidthFor W }
  let br := { br with height := BRICK_HEIGHT }
  let br := { br with y := TOP_OFFSET + (BRICK_ROWS - row - 1) * BRICK_HEIGHT }
  let br := { br with x := col * Int.tdiv W BRICKS_PER_ROW }
  if col > 0 then
    let realWidth : ℚ := (W : ℚ) / (BRICKS_PER_ROW : ℚ)
    let intWidth : Int := goInt realWidth
    let rest : Int := W - intWidth * BRICKS_PER_ROW
    { br with x := br.x + Int.tdiv rest 2 }
  else br

/-- The grid of a fresh game with every brick but brick (1,1) marked cleared. -/
def lastBrickGrid : List (List (Option Brick)) :=
  newBricks.map fun row => row.map fun c => c.map fun br =>
    if br.row = 1 ∧ br.col = 1 then br else br.SetCleared true

/-- A running game at level 1 whose last uncleared brick is brick (1,1), with
the ball one step to the left of it, moving in `+x`. -/
def lastBrick : Breakout := { hitState with bricks := lastBrickGrid, score := 447 }

/-- Some slot of the grid holds an uncleared brick. -/
def hasUncleared (g : List (List (Option Brick))) : Bool :=
  g.any fun row =>
    row.any fun c =>
      match c with
      | some br => !br.cleared
      | none => false

/-- The ball has the radius and speed that `NewBall` gives it and a vertical
velocity of size at most 3. -/
def Ball.regular (b : Ball) : Prop :=
  b.radius = 2 ∧ b.speed = 3 ∧ -3 ≤ b.v_y ∧ b.v_y ≤ 3

/-- A fresh game whose ball is at `y = 237`, moving down, away from the paddle. -/
def missedBall : Breakout := sampleEngine (sampleBall 10 237 0 3)

/-- A ball inside the arena with a velocity far larger than the arena. -/
def wildBall : Ball := sampleBall 100 120 5000 (-7000)

/-! ## The conversion `int(f)` on 64-bit integers -/

/-- Go conversion `int(f)` as compiled for amd64: truncation toward zero when
the truncated value fits in 64 bits, the minimum integer `-2^63` otherwise.
It equals `goInt` on every value from `-2^63` up to, not including, `2^63`. -/
def goInt64 (x : ℚ) : Int :=
  if -(2 : Int) ^ 63 ≤ goInt x ∧ goInt x < (2 : Int) ^ 63 then goInt x else -(2 : Int) ^ 63

/-- Left wall test of `Ball.Move`, with the conversion on 64 bits. -/
def Ball.bounceLeft64 (b : Ball) : Ball :=
  if goInt64 b.x ≤ b.radius then
    if b.v_x < 0 then { b with x := (b.radius : ℚ), v_x := -b.v_x } else b
  else b

/-- Right wall test of `Ball.Move`, with the conversion on 64 bits. -/
def Ball.bounceRight64 (b : Ball) : Ball :=
  if goInt64 b.x ≥ AREA_WIDTH - b.radius then
    if b.v_x > 0 then { b with x := ((AREA_WIDTH - b.radius : Int) : ℚ), v_x := -b.v_x } else b
  else b

/-- Top wall test of `Ball.Move`, with the conversion on 64 bits. -/
def Ball.bounceTop64 (b : Ball) : Ball :=
  if goInt64 b.y ≤ b.radius then
    if b.v_y < 0 then { b with y := (b.radius : ℚ), v_y := -b.v_y } else b
  else b

/-- Bottom test of `Ball.Move`, with the conversion on 64 bits. -/
def Ball.bottom64 (b : Ball) : Ball × Option String :=
  if goInt64 b.y > AREA_HEIGHT - b.radius then
    let b :=
      if b.v_y > 0 then { b with y := ((AREA_HEIGHT - b.radius : Int) : ℚ), v_y := -b.v_y } else b
    (b, some "Ball is out of bounds")
  else (b, none)

/-- Method `Ball.Move` with every conversion `int(b.x)`, `int(b.y)` on 64
bits.  `Ball.Move` is the same method with exact truncation; the two agree
whenever the advanced coordinates are within the 64-bit range. -/
def Ball.Move64 (b : Ball) : Ball × Option String :=
  let b := b.advance
  let b := b.bounceLeft64
  let b := b.bounceRight64
  let b := b.bounceTop64
  b.bottom64

/-- A ball of radius 2 inside the arena with velocity `(10^19, 10^19)`. -/
def hugeBall : Ball := sampleBall 100 120 10000000000000000000 10000000000000000000

/-! ## float64 values with infinities and NaN (`SetDir`) -/

/-- A `float64` value: a finite number, read as a rational, an infinity or NaN. -/
inductive F64 where
  | fin (q : ℚ)
  | pinf
  | ninf
  | nan
deriving DecidableEq

/-- Result of an operation whose exact value is `q`: a value of size `2^1024`
or more overflows to an infinity. -/
def F64.ofExact (q : ℚ) : F64 :=
  if q ≥ 2 ^ 1024 then .pinf else if q ≤ -2 ^ 1024 then .ninf else .fin q

/-- Product `a * b` of two `float64` values. -/
def F64.mul : F64 → F64 → F64
  | .nan, _ => .nan
  | _, .nan => .nan
  | .fin a, .fin b => F64.ofExact (a * b)
  | .fin a, .pinf => if a = 0 then .nan else if 0 < a then .pinf else .ninf
  | .fin a, .ninf => if a = 0 then .nan else if 0 < a then .ninf else .pinf
  | .pinf, .fin b => if b = 0 then .nan else if 0 < b then .pinf else .ninf
  | .ninf, .fin b => if b = 0 then .nan else if 0 < b then .ninf else .pinf
  | .pinf, .pinf => .pinf
  | .pinf, .ninf => .ninf
  | .ninf, .pinf => .ninf
  | .ninf, .ninf => .pinf

/-- Comparison `a > b`, false when an operand is NaN. -/
def F64.gt : F64 → F64 → Bool
  | .nan, _ => false
  | _, .nan => false
  | .fin a, .fin b => decide (a > b)
  | .fin _, .pinf => false
  | .fin _, .ninf => true
  | .pinf, .pinf => false
  | .pinf, _ => true
  | .ninf, _ => false

/-- Comparison `a < b`, false when an operand is NaN. -/
def F64.lt (a b : F64) : Bool := F64.gt b a

/-- The test `-c ≤ a ≤ c` on a `float64` value, false for NaN. -/
def F64.within (a : F64) (c : ℚ) : Bool :=
  match a with
  | .fin q => decide (-c ≤ q ∧ q ≤ c)
  | _ => false

/-- The `float64` constant `math.Pi`. -/
def Pi64 : ℚ := 884279719003555 / 281474976710656

/-- Expression `math.Cos(dir*math.Pi/180)`: the oracle's value when `dir` is
finite and `dir*math.Pi` does not overflow; NaN otherwise, the cosine of NaN
and of an infinity being NaN. -/
def Trig.cos64 (T : Trig) (dir : F64) : F64 :=
  match dir, F64.mul dir (.fin Pi64) with
  | .fin d, .fin _ => .fin (T.cos d)
  | _, _ => .nan

/-- Expression `math.Sin(dir*math.Pi/180)`, as `Trig.cos64`. -/
def Trig.sin64 (T : Trig) (dir : F64) : F64 :=
  match dir, F64.mul dir (.fin Pi64) with
  | .fin d, .fin _ => .fin (T.sin d)
  | _, _ => .nan

/-- The struct `Ball` with its `float64` fields as `F64` values. -/
structure FBall where
  x : F64
  y : F64
  radius : Int
  dir : F64
  speed : F64
  v_x : F64
  v_y : F64
deriving DecidableEq

/-- Method `SetDir` on `float64` values with infinities and NaN. -/
def FBall.SetDir (T : Trig) (b : FBall) (dir : F64) : FBall :=
  let b := { b with dir := dir }
  let b := { b with v_x := F64.mul b.speed (T.cos64 dir) }
  let b := { b with v_y := F64.mul b.speed (T.sin64 dir) }
  let b := if F64.gt b.v_x (.fin 10) then { b with v_x := .fin 10 } else b
  let b := if F64.lt b.v_x (.fin (-10)) then { b with v_x := .fin (-10) } else b
  let b :=
    if F64.gt b.v_y (.fin (BRICK_HEIGHT : ℚ)) then { b with v_y := .fin (BRICK_HEIGHT : ℚ) } else b
  if F64.lt b.v_y (.fin (-(BRICK_HEIGHT : ℚ))) then { b with v_y := .fin (-(BRICK_HEIGHT : ℚ)) }
  else b

/-- The ball of the repository's speed-limit test (speed 20) as a `float64`
record. -/
def fastBall64 : FBall :=
  { x := .fin 91, y := .fin 120, radius := 2, dir := .fin 0, speed := .fin 20,
    v_x := .fin 0, v_y := .fin 0 }

/-! ## `CheckColision` as a call on its pointers -/

/-- The objects a call `b.CheckColision(br, bl)` reaches through its three
pointers: the engine `*b`, the brick `*br` and the ball `*bl`. -/
structure CallState where
  engine : Breakout
  brick : Brick
  ball : Ball
deriving DecidableEq

/-- Getter `IsCleared` in state-passing form: the result and the receiver
after the call. -/
def Brick.IsClearedCall (b : Brick) : Bool × Brick := (b.cleared, b)
/-- Getter `Brick.GetX` in state-passing form. -/
def Brick.GetXCall (b : Brick) : Int × Brick := (b.x, b)
/-- Getter `Brick.GetY` in state-passing form. -/
def Brick.GetYCall (b : Brick) : Int × Brick := (b.y, b)
/-- Getter `Brick.GetWidth` in state-passing form. -/
def Brick.GetWidthCall (b : Brick) : Int × Brick := (b.width, b)
/-- Getter `Brick.GetHeight` in state-passing form. -/
def Brick.GetHeightCall (b : Brick) : Int × Brick := (b.height, b)
/-- Getter `Ball.GetX` in state-passing form. -/
def Ball.GetXCall (b : Ball) : Int × Ball := (goInt b.x, b)
/-- Getter `Ball.GetY` in state-passing form. -/
def Ball.GetYCall (b : Ball) : Int × Ball := (goInt b.y, b)
/-- Getter `Ball.GetRadius` in state-passing form. -/
def Ball.GetRadiusCall (b : Ball) : Int × Ball := (b.radius, b)

/-- Method `CheckColision` in state-passing form: the pair `(xrev, yrev)` and
the engine, the brick and the ball after the call.  Every method call of the
body hands its receiver on to the next statement. -/
def Breakout.CheckColisionCall (b : Breakout) (br : Brick) (bl : Ball) :
    (Bool × Bool) × CallState :=
  let c := br.IsClearedCall
  let br := c.2
  if c.1 then ((false, false), { engine := b, brick := br, ball := bl })
  else
    let r := bl.GetXCall
    let blX := r.1
    let bl := r.2
    let r := bl.GetYCall
    let blY := r.1
    let bl := r.2
    let r := bl.GetRadiusCall
    let blR := r.1
    let bl := r.2
    let r := br.GetXCall
    let brX := r.1
    let br := r.2
    let r := br.GetYCall
    let brY := r.1
    let br := r.2
    let r := br.GetWidthCall
    let brW := r.1
    let br := r.2
    let r := br.GetHeightCall
    let brH := r.1
    let br := r.2
    let xrev := false
    let yrev := false
    let xrev :=
      if blX + blR > brX ∧ blX - blR ≤ brX then
        let xrev :=
          if blY + blR > brY ∧ blY + blR ≤ brY + brH then
            (if b.ball.v_x > 0 then true else xrev)
          else xrev
        if blY - blR > brY ∧ blY - blR ≤ brY + brH then
          (if b.ball.v_x > 0 then true else xrev)
        else xrev
      else xrev
    let xrev :=
      if blX - blR < brX + brW ∧ blX + blR ≥ brX + brW then
        let xrev :=
          if blY + blR > brY ∧ blY + blR ≤ brY + brH then
            (if b.ball.v_x < 0 then true else xrev)
          else xrev
        if blY - blR > brY ∧ blY - blR ≤ brY + brH then
          (if b.ball.v_x < 0 then true else xrev)
        else xrev
      else xrev
    let yrev :=
      if blY + blR > brY ∧ blY - blR ≤ brY then
        let yrev :=
          if blX + blR > brX ∧ blX + blR ≤ brX + brW then
            (if b.ball.v_y > 0 then true else yrev)
          else yrev
        if blX - blR > brX ∧ blX - blR ≤ brX + brW then
          (if b.ball.v_y > 0 then true else yrev)
        else yrev
      else yrev
    let yrev :=
      if blY - blR < brY + brH ∧ blY + blR ≥ brY + brH then
        let yrev :=
          if blX + blR > brX ∧ blX + blR ≤ brX + brW then
            (if b.ball.v_y < 0 then true else yrev)
          else yrev
        if blX - blR > brX ∧ blX - blR ≤ brX + brW then
          (if b.ball.v_y < 0 then true else yrev)
        else yrev
      else yrev
    ((xrev, yrev), { engine := b, brick := br, ball := bl })

/-! # Theorems -/

/-! ## The brick loop -/

theorem clearedInRow_append (xs ys : List (Option Brick)) :
    clearedInRow (xs ++ ys) = clearedInRow xs + clearedInRow ys := by
  induction xs with
  | nil => simp [clearedInRow]
  | cons c cs ih =>
    cases c with
    | none => simpa [clearedInRow] using ih
    | some br => rw [List.cons_append]; simp only [clearedInRow, ih]; ring

theorem clearedInGrid_append (xs ys : List (List (Option Brick))) :
    clearedInGrid (xs ++ ys) = clearedInGrid xs + clearedInGrid ys := by
  induction xs with
  | nil => simp [clearedInGrid]
  | cons c cs ih => rw [List.cons_append]; simp only [clearedInGrid, ih]; ring

theorem scanCell_done (b : Breakout) (s : Scan) (c : Option Brick)
    (h : s.xrev = true ∨ s.yrev = true) :
    b.scanCell s c = ({ s with cleared := s.cleared + clearedInRow [c] }, c) := by
  cases c with
  | none => simp [Breakout.scanCell, clearedInRow]
  | some br =>
    cases hc : br.cleared with
    | true => simp [Breakout.scanCell, clearedInRow, Brick.IsCleared, hc]
    | false =>
      have h2 : ¬ (s.xrev = false ∧ s.yrev = false) := by
        rintro ⟨h1, h2⟩
        rcases h with h | h
        · rw [h1] at h; exact Bool.false_ne_true h
        · rw [h2] at h; exact Bool.false_ne_true h
      simp [Breakout.scanCell, clearedInRow, Brick.IsCleared, hc, h2]

theorem scanCell_clean (b : Breakout) (s : Scan) (c : Option Brick)
    (hx : s.xrev = false) (hy : s.yrev = false) (hn : b.noHit c = true) :
    b.scanCell s c = ({ s with cleared := s.cleared + clearedInRow [c] }, c) := by
  cases c with
  | none => simp [Breakout.scanCell, clearedInRow]
  | some br =>
    cases hc : br.cleared with
    | true => simp [Breakout.scanCell, clearedInRow, Brick.IsCleared, hc]
    | false =>
      simp only [Breakout.noHit, hc, Bool.false_or, Bool.not_eq_true', Breakout.hits,
        Bool.or_eq_false_iff] at hn
      obtain ⟨h1, h2⟩ := hn
      cases s
      simp only at hx hy
      subst hx hy
      simp [Breakout.scanCell, clearedInRow, Brick.IsCleared, hc, h1, h2]

theorem scanCell_hit (b : Breakout) (s : Scan) (br : Brick)
    (hx : s.xrev = false) (hy : s.yrev = false)
    (hc : br.cleared = false) (hh : b.hits br = true) :
    b.scanCell s (some br) =
      ({ cleared := s.cleared + 1
         xrev := (b.CheckColision br b.ball).1
         yrev := (b.CheckColision br b.ball).2
         score := s.score + br.GetPoints * b.level }, some (br.SetCleared true)) := by
  simp only [Breakout.hits, Bool.or_eq_true] at hh
  simp [Breakout.scanCell, Brick.IsCleared, hc, hx, hy, hh]

theorem scanRow_done (b : Breakout) (s : Scan) (row : List (Option Brick))
    (h : s.xrev = true ∨ s.yrev = true) :
    b.scanRow s row = ({ s with cleared := s.cleared + clearedInRow row }, row) := by
  induction row generalizing s with
  | nil => simp [Breakout.scanRow, clearedInRow]
  | cons c cs ih =>
    simp only [Breakout.scanRow, scanCell_done b s c h]
    rw [ih { s with cleared := s.cleared + clearedInRow [c] } h]
    have : clearedInRow (c :: cs) = clearedInRow [c] + clearedInRow cs :=
      clearedInRow_append [c] cs
    simp only [this, add_assoc]

theorem scanRow_clean (b : Breakout) (s : Scan) (row : List (Option Brick))
    (hx : s.xrev = false) (hy : s.yrev = false) (hn : ∀ c ∈ row, b.noHit c = true) :
    b.scanRow s row = ({ s with cleared := s.cleared + clearedInRow row }, row) := by
  induction row generalizing s with
  | nil => simp [Breakout.scanRow, clearedInRow]
  | cons c cs ih =>
    simp only [Breakout.scanRow, scanCell_clean b s c hx hy (hn c (List.mem_cons_self _ _))]
    rw [ih { s with cleared := s.cleared + clearedInRow [c] } hx hy (fun c hc => hn c (List.mem_cons_of_mem _ hc))]
    have : clearedInRow (c :: cs) = clearedInRow [c] + clearedInRow cs :=
      clearedInRow_append [c] cs
    simp only [this, add_assoc]

theorem scanRow_hit (b : Breakout) (s : Scan) (pre post : List (Option Brick)) (br : Brick)
    (hx : s.xrev = false) (hy : s.yrev = false) (hn : ∀ c ∈ pre, b.noHit c = true)
    (hc : br.cleared = false) (hh : b.hits br = true) :
    b.scanRow s (pre ++ some br :: post) =
      ({ cleared := s.cleared + clearedInRow pre + 1 + clearedInRow post
         xrev := (b.CheckColision br b.ball).1
         yrev := (b.CheckColision br b.ball).2
         score := s.score + br.GetPoints * b.level },
       pre ++ some (br.SetCleared true) :: post) := by
  induction pre generalizing s with
  | nil =>
    simp only [List.nil_append, Breakout.scanRow, scanCell_hit b s br hx hy hc hh]
    have hd : (b.CheckColision br b.ball).1 = true ∨ (b.CheckColision br b.ball).2 = true := by
      simpa [Breakout.hits] using hh
    rw [scanRow_done b _ post hd]
    simp [clearedInRow]
  | cons c cs ih =>
    rw [List.cons_append]
    simp only [Breakout.scanRow,
      scanCell_clean b s c hx hy (hn c (List.mem_cons_self _ _))]
    rw [ih { s with cleared := s.cleared + clearedInRow [c] } hx hy (fun c hc => hn c (List.mem_cons_of_mem _ hc))]
    have : clearedInRow (c :: cs) = clearedInRow [c] + clearedInRow cs :=
      clearedInRow_append [c] cs
    simp only [this, add_assoc]
    rfl

theorem row_split (b : Breakout) (row : List (Option Brick)) :
    (∀ c ∈ row, b.noHit c = true) ∨
    ∃ pre br post, row = pre ++ some br :: post ∧ (∀ c ∈ pre, b.noHit c = true) ∧
      br.cleared = false ∧ b.hits br = true := by
  induction row with
  | nil => left; simp
  | cons c cs ih =>
    cases hn : b.noHit c with
    | true =>
      rcases ih with h | ⟨pre, br, post, h1, h2, h3, h4⟩
      · left
        intro d hd
        rcases List.mem_cons.mp hd with rfl | hd
        · exact hn
        · exact h d hd
      · right
        refine ⟨c :: pre, br, post, by simp [h1], ?_, h3, h4⟩
        intro d hd
        rcases List.mem_cons.mp hd with rfl | hd
        · exact hn
        · exact h2 d hd
    | false =>
      right
      cases c with
      | none => simp [Breakout.noHit] at hn
      | some br =>
        simp only [Breakout.noHit, Bool.or_eq_false_iff, Bool.not_eq_false'] at hn
        exact ⟨[], br, cs, rfl, by simp, hn.1, hn.2⟩

theorem scanGrid_done (b : Breakout) (s : Scan) (g : List (List (Option Brick)))
    (h : s.xrev = true ∨ s.yrev = true) :
    b.scanGrid s g = ({ s with cleared := s.cleared + clearedInGrid g }, g) := by
  induction g generalizing s with
  | nil => simp [Breakout.scanGrid, clearedInGrid]
  | cons row rows ih =>
    simp only [Breakout.scanGrid, scanRow_done b s row h]
    rw [ih { s with cleared := s.cleared + clearedInRow row } h]
    simp only [clearedInGrid, add_assoc]

theorem scanGrid_clean (b : Breakout) (s : Scan) (g : List (List (Option Brick)))
    (hx : s.xrev = false) (hy : s.yrev = false) (hn : b.noHitGrid g) :
    b.scanGrid s g = ({ s with cleared := s.cleared + clearedInGrid g }, g) := by
  induction g generalizing s with
  | nil => simp [Breakout.scanGrid, clearedInGrid]
  | cons row rows ih =>
    simp only [Breakout.scanGrid, scanRow_clean b s row hx hy (hn row (List.mem_cons_self _ _))]
    rw [ih { s with cleared := s.cleared + clearedInRow row } hx hy
      (fun r hr => hn r (List.mem_cons_of_mem _ hr))]
    simp only [clearedInGrid, add_assoc]

theorem scanGrid_hit (b : Breakout) (s : Scan) (R1 R2 : List (List (Option Brick)))
    (pre post : List (Option Brick)) (br : Brick)
    (hx : s.xrev = false) (hy : s.yrev = false) (hR : b.noHitGrid R1)
    (hn : ∀ c ∈ pre, b.noHit c = true)
    (hc : br.cleared = false) (hh : b.hits br = true) :
    b.scanGrid s (R1 ++ (pre ++ some br :: post) :: R2) =
      ({ cleared := s.cleared + clearedInGrid (R1 ++ (pre ++ some br :: post) :: R2) + 1
         xrev := (b.CheckColision br b.ball).1
         yrev := (b.CheckColision br b.ball).2
         score := s.score + br.GetPoints * b.level },
       R1 ++ (pre ++ some (br.SetCleared true) :: post) :: R2) := by
  have hbr : clearedInRow (pre ++ some br :: post) = clearedInRow pre + clearedInRow post := by
    rw [clearedInRow_append]
    simp [clearedInRow, hc]
  induction R1 generalizing s with
  | nil =>
    simp only [List.nil_append, Breakout.scanGrid, scanRow_hit b s pre post br hx hy hn hc hh]
    have hd : (b.CheckColision br b.ball).1 = true ∨ (b.CheckColision br b.ball).2 = true := by
      simpa [Breakout.hits] using hh
    rw [scanGrid_done b _ R2 hd]
    simp only [clearedInGrid, hbr, Prod.mk.injEq, Scan.mk.injEq, and_true]
    ring
  | cons row rows ih =>
    rw [List.cons_append]
    simp only [Breakout.scanGrid, scanRow_clean b s row hx hy (hR row (List.mem_cons_self _ _))]
    rw [ih { s with cleared := s.cleared + clearedInRow row } hx hy
      (fun r hr => hR r (List.mem_cons_of_mem _ hr))]
    simp only [clearedInGrid, add_assoc]
    rfl

theorem grid_split (b : Breakout) (g : List (List (Option Brick))) :
    b.noHitGrid g ∨
    ∃ R1 pre br post R2, g = R1 ++ (pre ++ some br :: post) :: R2 ∧ b.noHitGrid R1 ∧
      (∀ c ∈ pre, b.noHit c = true) ∧ br.cleared = false ∧ b.hits br = true := by
  induction g with
  | nil => left; intro r hr; simp at hr
  | cons row rows ih =>
    rcases row_split b row with hrow | ⟨pre, br, post, h1, h2, h3, h4⟩
    · rcases ih with h | ⟨R1, pre, br, post, R2, h1, h2, h3, h4, h5⟩
      · left
        intro r hr
        rcases List.mem_cons.mp hr with rfl | hr
        · exact hrow
        · exact h r hr
      · right
        refine ⟨row :: R1, pre, br, post, R2, by simp [h1], ?_, h3, h4, h5⟩
        intro r hr
        rcases List.mem_cons.mp hr with rfl | hr
        · exact hrow
        · exact h2 r hr
    · right
      exact ⟨[], pre, br, post, rows, by simp [h1], by intro r hr; simp at hr, h2, h3, h4⟩

/-! ## Gameover ticks -/

theorem MoveBall_of_gameOver (T : Trig) (rx rd : Nat) (b : Breakout)
    (h : b.gameOver = true) : b.MoveBall T rx rd = b := by
  simp [Breakout.MoveBall, h]

/-- C1: on an engine state whose `gameOver` flag is set, `MoveBall` is a
no-op: ball (position and velocity), paddle, brick grid, score, level, live,
frameReward and gameOver are the same before and after the call. -/
theorem C1_MoveBall_gameOver_noop (T : Trig) (rx rd : Nat) (b : Breakout)
    (h : b.gameOver = true) :
    (b.MoveBall T rx rd).ball = b.ball ∧ (b.MoveBall T rx rd).paddle = b.paddle ∧
    (b.MoveBall T rx rd).bricks = b.bricks ∧ (b.MoveBall T rx rd).score = b.score ∧
    (b.MoveBall T rx rd).level = b.level ∧ (b.MoveBall T rx rd).live = b.live ∧
    (b.MoveBall T rx rd).frameReward = b.frameReward ∧
    (b.MoveBall T rx rd).gameOver = b.gameOver := by
  rw [MoveBall_of_gameOver T rx rd b h]
  simp

theorem C1_MoveBall_gameOver_noop_witness :
    finishedGame.gameOver = true ∧
    (finishedGame.MoveBall sampleTrig 7 0).ball = finishedGame.ball ∧
    (finishedGame.MoveBall sampleTrig 7 0).paddle = finishedGame.paddle ∧
    (finishedGame.MoveBall sampleTrig 7 0).bricks = finishedGame.bricks ∧
    (finishedGame.MoveBall sampleTrig 7 0).score = finishedGame.score ∧
    (finishedGame.MoveBall sampleTrig 7 0).level = finishedGame.level ∧
    (finishedGame.MoveBall sampleTrig 7 0).live = finishedGame.live ∧
    (finishedGame.MoveBall sampleTrig 7 0).frameReward = finishedGame.frameReward ∧
    (finishedGame.MoveBall sampleTrig 7 0).gameOver = finishedGame.gameOver :=
  ⟨rfl, C1_MoveBall_gameOver_noop sampleTrig 7 0 finishedGame rfl⟩

/-! ## Ticks of a running game -/

theorem MoveBall_of_error (T : Trig) (rx rd : Nat) (b : Breakout)
    (hg : b.gameOver = false) (ho : (b.ball.Move).2.isSome = true) :
    b.MoveBall T rx rd =
      { b with
        live := b.live + 1
        gameOver := decide (b.live + 1 > 5)
        frameReward := -10
        ball := NewBall T rx rd
        paddle := NewPaddle } := by
  unfold Breakout.MoveBall
  cases hm : (b.ball.Move).2 with
  | none => rw [hm] at ho; simp at ho
  | some e =>
    simp only [hg, Bool.false_eq_true, if_false, Breakout.lifeLoss, hm]
    by_cases h5 : b.live + 1 > 5
    · simp [h5]
    · simp [h5, hg]

theorem MoveBall_of_ok (T : Trig) (rx rd : Nat) (b : Breakout)
    (hg : b.gameOver = false) (ho : (b.ball.Move).2 = none) :
    b.MoveBall T rx rd =
      Breakout.levelCheck T rx rd b.afterMove.scanBricks.2.cleared
        (Breakout.paddleContact T
          (Breakout.applyReversal b.afterMove.scanBricks.1
            b.afterMove.scanBricks.2.xrev b.afterMove.scanBricks.2.yrev)) := by
  unfold Breakout.MoveBall Breakout.afterMove
  simp only [hg, Bool.false_eq_true, if_false, ho]

/-! ### Fields kept by the phases of a tick -/

theorem applyReversal_fields (b : Breakout) (xrev yrev : Bool) :
    (b.applyReversal xrev yrev).bricks = b.bricks ∧
    (b.applyReversal xrev yrev).score = b.score ∧
    (b.applyReversal xrev yrev).level = b.level ∧
    (b.applyReversal xrev yrev).live = b.live ∧
    (b.applyReversal xrev yrev).paddle = b.paddle ∧
    (b.applyReversal xrev yrev).gameOver = b.gameOver := by
  cases xrev <;> cases yrev <;> simp [Breakout.applyReversal]

theorem paddleContact_fields (T : Trig) (b : Breakout) :
    (b.paddleContact T).bricks = b.bricks ∧
    (b.paddleContact T).score = b.score ∧
    (b.paddleContact T).level = b.level ∧
    (b.paddleContact T).live = b.live ∧
    (b.paddleContact T).paddle = b.paddle ∧
    (b.paddleContact T).gameOver = b.gameOver := by
  unfold Breakout.paddleContact
  by_cases h : (Breakout.CheckPaddleColision T b.paddle b.ball).1 = true
  · simp [h]
  · simp [h]

theorem levelCheck_fields (T : Trig) (rx rd : Nat) (n : Int) (b : Breakout) :
    (b.levelCheck T rx rd n).score = b.score ∧
    (b.levelCheck T rx rd n).live = b.live ∧
    (b.levelCheck T rx rd n).gameOver = b.gameOver ∧
    (b.levelCheck T rx rd n).frameReward = b.frameReward ∧
    (n = BRICKS_PER_ROW * BRICK_ROWS →
      (b.levelCheck T rx rd n).level = b.level + 1 ∧ (b.levelCheck T rx rd n).bricks = newBricks ∧
      (b.levelCheck T rx rd n).ball = NewBall T rx rd ∧ (b.levelCheck T rx rd n).paddle = NewPaddle) ∧
    (n ≠ BRICKS_PER_ROW * BRICK_ROWS → b.levelCheck T rx rd n = b) := by
  unfold Breakout.levelCheck
  by_cases h : n = BRICKS_PER_ROW * BRICK_ROWS
  · simp [h]
  · simp [h]

theorem MoveBall_ok_score (T : Trig) (rx rd : Nat) (b : Breakout)
    (hg : b.gameOver = false) (ho : (b.ball.Move).2 = none) :
    (b.MoveBall T rx rd).score = b.afterMove.scanBricks.1.score := by
  rw [MoveBall_of_ok T rx rd b hg ho, (levelCheck_fields _ _ _ _ _).1,
    (paddleContact_fields _ _).2.1, (applyReversal_fields _ _ _).2.1]

theorem MoveBall_ok_bricks (T : Trig) (rx rd : Nat) (b : Breakout)
    (hg : b.gameOver = false) (ho : (b.ball.Move).2 = none) :
    (b.MoveBall T rx rd).bricks =
      if b.afterMove.scanBricks.2.cleared = BRICKS_PER_ROW * BRICK_ROWS then newBricks
      else b.afterMove.scanBricks.1.bricks := by
  rw [MoveBall_of_ok T rx rd b hg ho]
  by_cases h : b.afterMove.scanBricks.2.cleared = BRICKS_PER_ROW * BRICK_ROWS
  · rw [if_pos h, ((levelCheck_fields _ _ _ _ _).2.2.2.2.1 h).2.1]
  · rw [if_neg h, (levelCheck_fields _ _ _ _ _).2.2.2.2.2 h,
      (paddleContact_fields _ _).1, (applyReversal_fields _ _ _).1]

theorem MoveBall_ok_level (T : Trig) (rx rd : Nat) (b : Breakout)
    (hg : b.gameOver = false) (ho : (b.ball.Move).2 = none) :
    (b.MoveBall T rx rd).level =
      if b.afterMove.scanBricks.2.cleared = BRICKS_PER_ROW * BRICK_ROWS then b.level + 1
      else b.level := by
  have hl : b.afterMove.scanBricks.1.level = b.level := rfl
  rw [MoveBall_of_ok T rx rd b hg ho]
  by_cases h : b.afterMove.scanBricks.2.cleared = BRICKS_PER_ROW * BRICK_ROWS
  · rw [if_pos h, ((levelCheck_fields _ _ _ _ _).2.2.2.2.1 h).1,
      (paddleContact_fields _ _).2.2.1, (applyReversal_fields _ _ _).2.2.1, hl]
  · rw [if_neg h, (levelCheck_fields _ _ _ _ _).2.2.2.2.2 h,
      (paddleContact_fields _ _).2.2.1, (applyReversal_fields _ _ _).2.2.1, hl]

/-- What the brick loop does, in the two possible cases. -/
theorem scanBricks_cases (b : Breakout) :
    (b.noHitGrid b.bricks ∧
      b.scanBricks = (b, { cleared := clearedInGrid b.bricks, xrev := false, yrev := false,
                           score := b.score })) ∨
    ∃ R1 pre br post R2,
      b.bricks = R1 ++ (pre ++ some br :: post) :: R2 ∧ b.noHitGrid R1 ∧
      (∀ c ∈ pre, b.noHit c = true) ∧ br.cleared = false ∧ b.hits br = true ∧
      b.scanBricks =
        ({ b with bricks := R1 ++ (pre ++ some (br.SetCleared true) :: post) :: R2
                  score := b.score + br.GetPoints * b.level },
         { cleared := clearedInGrid b.bricks + 1
           xrev := (b.CheckColision br b.ball).1
           yrev := (b.CheckColision br b.ball).2
           score := b.score + br.GetPoints * b.level }) := by
  rcases grid_split b b.bricks with h | ⟨R1, pre, br, post, R2, h1, h2, h3, h4, h5⟩
  · left
    refine ⟨h, ?_⟩
    unfold Breakout.scanBricks
    rw [scanGrid_clean b _ b.bricks rfl rfl h]
    simp
  · right
    refine ⟨R1, pre, br, post, R2, h1, h2, h3, h4, h5, ?_⟩
    unfold Breakout.scanBricks
    rw [h1, scanGrid_hit b _ R1 R2 pre post br rfl rfl h2 h3 h4 h5]
    simp

theorem GetPoints_tier (br : Brick) :
    (br.row = 0 ∨ br.row = 1 → br.GetPoints = 1) ∧
    (br.row = 2 ∨ br.row = 3 → br.GetPoints = 3) ∧
    (br.row = 4 ∨ br.row = 5 → br.GetPoints = 5) ∧
    (br.row = 6 ∨ br.row = 7 → br.GetPoints = 7) := by
  unfold Brick.GetPoints
  refine ⟨fun h => ?_, fun h => ?_, fun h => ?_, fun h => ?_⟩
  · simp [h]
  · have h0 : ¬ (br.row = 0 ∨ br.row = 1) := by omega
    simp [h, h0]
  · have h0 : ¬ (br.row = 0 ∨ br.row = 1) := by omega
    have h2 : ¬ (br.row = 2 ∨ br.row = 3) := by omega
    simp [h, h0, h2]
  · split_ifs <;> first | rfl | omega

/-- C5: a `MoveBall` call that clears a brick adds `GetPoints` of that brick
times the level held before the call to the score (1, 3, 5, 7 times the level
for the yellow, green, orange, red rows); a call that clears no brick (game
over, ball out of bounds, or no brick hit) leaves the score unchanged. -/
theorem C5_score_of_tick (T : Trig) (rx rd : Nat) (b : Breakout) :
    (b.gameOver = true →
      (b.MoveBall T rx rd).bricks = b.bricks ∧ (b.MoveBall T rx rd).score = b.score) ∧
    (b.gameOver = false → (b.ball.Move).2.isSome = true →
      (b.MoveBall T rx rd).bricks = b.bricks ∧ (b.MoveBall T rx rd).score = b.score) ∧
    (b.gameOver = false → (b.ball.Move).2 = none →
      (b.afterMove.scanBricks.1.bricks = b.bricks ∧ (b.MoveBall T rx rd).score = b.score) ∨
      ∃ R1 pre br post R2,
        b.bricks = R1 ++ (pre ++ some br :: post) :: R2 ∧ br.cleared = false ∧
        b.afterMove.scanBricks.1.bricks =
          R1 ++ (pre ++ some (br.SetCleared true) :: post) :: R2 ∧
        (b.MoveBall T rx rd).score = b.score + br.GetPoints * b.level ∧
        (br.row = 0 ∨ br.row = 1 → (b.MoveBall T rx rd).score = b.score + 1 * b.level) ∧
        (br.row = 2 ∨ br.row = 3 → (b.MoveBall T rx rd).score = b.score + 3 * b.level) ∧
        (br.row = 4 ∨ br.row = 5 → (b.MoveBall T rx rd).score = b.score + 5 * b.level) ∧
        (br.row = 6 ∨ br.row = 7 → (b.MoveBall T rx rd).score = b.score + 7 * b.level)) := by
  refine ⟨fun hg => ?_, fun hg ho => ?_, fun hg ho => ?_⟩
  · rw [MoveBall_of_gameOver T rx rd b hg]
    exact ⟨rfl, rfl⟩
  · rw [MoveBall_of_error T rx rd b hg ho]
    exact ⟨rfl, rfl⟩
  · rw [MoveBall_ok_score T rx rd b hg ho]
    rcases scanBricks_cases b.afterMove with ⟨_, h⟩ | ⟨R1, pre, br, post, R2, h1, _, _, h4, _, h6⟩
    · left
      rw [h]
      exact ⟨rfl, rfl⟩
    · right
      have hs : b.afterMove.scanBricks.1.score = b.score + br.GetPoints * b.level := by
        rw [h6]; rfl
      refine ⟨R1, pre, br, post, R2, h1, h4, by rw [h6], hs, ?_, ?_, ?_, ?_⟩
      · intro hr; rw [hs, (GetPoints_tier br).1 hr]
      · intro hr; rw [hs, (GetPoints_tier br).2.1 hr]
      · intro hr; rw [hs, (GetPoints_tier br).2.2.1 hr]
      · intro hr; rw [hs, (GetPoints_tier br).2.2.2 hr]

/-- C6: in a `MoveBall` call at most one brick goes from uncleared to
cleared, and it is the first brick in row-major order among the uncleared
bricks that `CheckColision` flags for the moved ball: every slot before it is
not flagged, every other slot is unchanged, and the loop's flags are the flags
of that brick alone, whatever the later bricks would give. -/
theorem C6_first_hit_cleared (T : Trig) (rx rd : Nat) (b : Breakout) :
    (b.gameOver = true → (b.MoveBall T rx rd).bricks = b.bricks) ∧
    (b.gameOver = false → (b.ball.Move).2.isSome = true →
      (b.MoveBall T rx rd).bricks = b.bricks) ∧
    (b.gameOver = false → (b.ball.Move).2 = none →
      ((b.MoveBall T rx rd).bricks = b.afterMove.scanBricks.1.bricks ∨
        (b.MoveBall T rx rd).bricks = newBricks) ∧
      ((b.afterMove.noHitGrid b.bricks ∧ b.afterMove.scanBricks.1.bricks = b.bricks ∧
          b.afterMove.scanBricks.2.xrev = false ∧ b.afterMove.scanBricks.2.yrev = false) ∨
        ∃ R1 pre br post R2,
          b.bricks = R1 ++ (pre ++ some br :: post) :: R2 ∧
          b.afterMove.noHitGrid R1 ∧ (∀ c ∈ pre, b.afterMove.noHit c = true) ∧
          br.cleared = false ∧ b.afterMove.hits br = true ∧
          b.afterMove.scanBricks.1.bricks =
            R1 ++ (pre ++ some (br.SetCleared true) :: post) :: R2 ∧
          b.afterMove.scanBricks.2.xrev = (b.afterMove.CheckColision br b.afterMove.ball).1 ∧
          b.afterMove.scanBricks.2.yrev = (b.afterMove.CheckColision br b.afterMove.ball).2)) := by
  refine ⟨fun hg => ?_, fun hg ho => ?_, fun hg ho => ⟨?_, ?_⟩⟩
  · rw [MoveBall_of_gameOver T rx rd b hg]
  · rw [MoveBall_of_error T rx rd b hg ho]
  · rw [MoveBall_ok_bricks T rx rd b hg ho]
    split_ifs
    · right; rfl
    · left; rfl
  · rcases scanBricks_cases b.afterMove with ⟨h0, h⟩ | ⟨R1, pre, br, post, R2, h1, h2, h3, h4, h5, h6⟩
    · left
      rw [h]
      exact ⟨h0, rfl, rfl, rfl⟩
    · right
      refine ⟨R1, pre, br, post, R2, h1, h2, h3, h4, h5, ?_, ?_, ?_⟩ <;> rw [h6]

theorem C5_score_of_tick_witness :
    hitState.gameOver = false ∧ (hitState.ball.Move).2 = none ∧
    (hitState.MoveBall sampleTrig 0 0).score = hitState.score + 1 * hitState.level ∧
    ((hitState.gameOver = false → (hitState.ball.Move).2 = none →
      (hitState.afterMove.scanBricks.1.bricks = hitState.bricks ∧
        (hitState.MoveBall sampleTrig 0 0).score = hitState.score) ∨
      ∃ R1 pre br post R2,
        hitState.bricks = R1 ++ (pre ++ some br :: post) :: R2 ∧ br.cleared = false ∧
        hitState.afterMove.scanBricks.1.bricks =
          R1 ++ (pre ++ some (br.SetCleared true) :: post) :: R2 ∧
        (hitState.MoveBall sampleTrig 0 0).score = hitState.score + br.GetPoints * hitState.level ∧
        (br.row = 0 ∨ br.row = 1 →
          (hitState.MoveBall sampleTrig 0 0).score = hitState.score + 1 * hitState.level) ∧
        (br.row = 2 ∨ br.row = 3 →
          (hitState.MoveBall sampleTrig 0 0).score = hitState.score + 3 * hitState.level) ∧
        (br.row = 4 ∨ br.row = 5 →
          (hitState.MoveBall sampleTrig 0 0).score = hitState.score + 5 * hitState.level) ∧
        (br.row = 6 ∨ br.row = 7 →
          (hitState.MoveBall sampleTrig 0 0).score = hitState.score + 7 * hitState.level))) :=
  ⟨by decide!, by decide!, by decide!, (C5_score_of_tick sampleTrig 0 0 hitState).2.2⟩

theorem C6_first_hit_cleared_witness :
    hitState.gameOver = false ∧ (hitState.ball.Move).2 = none ∧
    (hitState.MoveBall sampleTrig 0 0).bricks ≠ hitState.bricks ∧
    ((hitState.MoveBall sampleTrig 0 0).bricks = hitState.afterMove.scanBricks.1.bricks ∨
        (hitState.MoveBall sampleTrig 0 0).bricks = newBricks) ∧
      ((hitState.afterMove.noHitGrid hitState.bricks ∧
          hitState.afterMove.scanBricks.1.bricks = hitState.bricks ∧
          hitState.afterMove.scanBricks.2.xrev = false ∧
          hitState.afterMove.scanBricks.2.yrev = false) ∨
        ∃ R1 pre br post R2,
          hitState.bricks = R1 ++ (pre ++ some br :: post) :: R2 ∧
          hitState.afterMove.noHitGrid R1 ∧ (∀ c ∈ pre, hitState.afterMove.noHit c = true) ∧
          br.cleared = false ∧ hitState.afterMove.hits br = true ∧
          hitState.afterMove.scanBricks.1.bricks =
            R1 ++ (pre ++ some (br.SetCleared true) :: post) :: R2 ∧
          hitState.afterMove.scanBricks.2.xrev =
            (hitState.afterMove.CheckColision br hitState.afterMove.ball).1 ∧
          hitState.afterMove.scanBricks.2.yrev =
            (hitState.afterMove.CheckColision br hitState.afterMove.ball).2) :=
  ⟨by decide!, by decide!, by decide!,
    (C6_first_hit_cleared sampleTrig 0 0 hitState).2.2 (by decide!) (by decide!)⟩

/-! ## Life loss and game over -/

/-- C10: on a running game in which `Ball.Move` reports out-of-bounds,
`MoveBall` increases live by exactly 1, sets gameOver if and only if the new
live exceeds 5, sets frameReward to the penalty -10, replaces ball and paddle
by fresh instances (paddle x = 79, width 24) and leaves score, level and every
brick unchanged. -/
theorem C10_out_of_bounds_tick (T : Trig) (rx rd : Nat) (b : Breakout)
    (hg : b.gameOver = false) (ho : (b.ball.Move).2.isSome = true) :
    (b.MoveBall T rx rd).live = b.live + 1 ∧
    ((b.MoveBall T rx rd).gameOver = true ↔ b.live + 1 > 5) ∧
    (b.MoveBall T rx rd).frameReward = -10 ∧
    (b.MoveBall T rx rd).ball = NewBall T rx rd ∧
    (b.MoveBall T rx rd).paddle = NewPaddle ∧
    NewPaddle.x = 79 ∧ NewPaddle.width = 24 ∧
    (b.MoveBall T rx rd).score = b.score ∧
    (b.MoveBall T rx rd).level = b.level ∧
    (b.MoveBall T rx rd).bricks = b.bricks := by
  rw [MoveBall_of_error T rx rd b hg ho]
  simp
  decide

theorem C10_out_of_bounds_tick_witness :
    fallenBall.gameOver = false ∧ (fallenBall.ball.Move).2.isSome = true ∧
    (fallenBall.MoveBall sampleTrig 50 1).live = fallenBall.live + 1 ∧
    ((fallenBall.MoveBall sampleTrig 50 1).gameOver = true ↔ fallenBall.live + 1 > 5) ∧
    (fallenBall.MoveBall sampleTrig 50 1).frameReward = -10 ∧
    (fallenBall.MoveBall sampleTrig 50 1).ball = NewBall sampleTrig 50 1 ∧
    (fallenBall.MoveBall sampleTrig 50 1).paddle = NewPaddle ∧
    NewPaddle.x = 79 ∧ NewPaddle.width = 24 ∧
    (fallenBall.MoveBall sampleTrig 50 1).score = fallenBall.score ∧
    (fallenBall.MoveBall sampleTrig 50 1).level = fallenBall.level ∧
    (fallenBall.MoveBall sampleTrig 50 1).bricks = fallenBall.bricks :=
  ⟨by decide!, by decide!, C10_out_of_bounds_tick sampleTrig 50 1 fallenBall (by decide!) (by decide!)⟩

theorem MoveBall_ok_live_gameOver (T : Trig) (rx rd : Nat) (b : Breakout)
    (hg : b.gameOver = false) (ho : (b.ball.Move).2 = none) :
    (b.MoveBall T rx rd).live = b.live ∧ (b.MoveBall T rx rd).gameOver = false := by
  have hl : b.afterMove.scanBricks.1.live = b.live := rfl
  have hgo : b.afterMove.scanBricks.1.gameOver = b.gameOver := rfl
  rw [MoveBall_of_ok T rx rd b hg ho]
  refine ⟨?_, ?_⟩
  · rw [(levelCheck_fields _ _ _ _ _).2.1, (paddleContact_fields _ _).2.2.2.1,
      (applyReversal_fields _ _ _).2.2.2.1, hl]
  · rw [(levelCheck_fields _ _ _ _ _).2.2.1, (paddleContact_fields _ _).2.2.2.2.2,
      (applyReversal_fields _ _ _).2.2.2.2.2, hgo, hg]

theorem step_live_gameOver (T : Trig) (b : Breakout) (c : Cmd) :
    (b.lifeLost c = true →
      b.gameOver = false ∧ (b.step T c).live = b.live + 1 ∧
      ((b.step T c).gameOver = true ↔ b.live + 1 > 5)) ∧
    (b.lifeLost c = false →
      (b.step T c).live = b.live ∧ (b.step T c).gameOver = b.gameOver) := by
  cases c with
  | tick rx rd =>
    simp only [Breakout.lifeLost, Breakout.step]
    cases hg : b.gameOver with
    | true =>
      rw [MoveBall_of_gameOver T rx rd b hg]
      simp [hg]
    | false =>
      cases hm : (b.ball.Move).2 with
      | none =>
        obtain ⟨h1, h2⟩ := MoveBall_ok_live_gameOver T rx rd b hg hm
        simp [h1, h2]
      | some e =>
        have ho : (b.ball.Move).2.isSome = true := by rw [hm]; rfl
        rw [MoveBall_of_error T rx rd b hg ho]
        simp
  | left => simp [Breakout.lifeLost, Breakout.step, Breakout.PaddleLeft]
  | right => simp [Breakout.lifeLost, Breakout.step, Breakout.PaddleRight]
  | shrink => simp [Breakout.lifeLost, Breakout.step, Breakout.PaddleShrink]
  | unshrink => simp [Breakout.lifeLost, Breakout.step, Breakout.PaddleUnShrink]

theorem run_lifeLosses (T : Trig) (cs : List Cmd) :
    ∀ (b : Breakout) (k : Nat), b.live = 1 + (k : Int) → (b.gameOver = true ↔ 5 ≤ k) → k ≤ 5 →
      (b.run T cs).live = 1 + ((k + b.lifeLosses T cs : Nat) : Int) ∧
      ((b.run T cs).gameOver = true ↔ 5 ≤ k + b.lifeLosses T cs) ∧
      k + b.lifeLosses T cs ≤ 5 := by
  induction cs with
  | nil =>
    intro b k h1 h2 h3
    simpa [Breakout.run, Breakout.lifeLosses] using ⟨h1, h2, h3⟩
  | cons c cs ih =>
    intro b k h1 h2 h3
    simp only [Breakout.run, Breakout.lifeLosses]
    obtain ⟨hA, hB⟩ := step_live_gameOver T b c
    cases hl : b.lifeLost c with
    | true =>
      obtain ⟨g0, g1, g2⟩ := hA hl
      have hk : k < 5 := by
        by_contra hcon
        have : b.gameOver = true := h2.mpr (by omega)
        rw [g0] at this
        exact Bool.false_ne_true this
      have := ih (b.step T c) (k + 1) (by rw [g1, h1]; push_cast; ring)
        (by rw [g2, h1]; constructor <;> intro h <;> omega) (by omega)
      simp only [if_true]
      rw [← add_assoc]
      exact this
    | false =>
      obtain ⟨g1, g2⟩ := hB hl
      have := ih (b.step T c) k (by rw [g1, h1]) (by rw [g2]; exact h2) h3
      simpa using this

theorem row_of_all_cleared (b : Breakout) (row : List (Option Brick))
    (h : (row.all fun c => match c with
      | some br => br.cleared
      | none => false) = true) :
    clearedInRow row = (row.length : Int) ∧ ∀ c ∈ row, b.noHit c = true := by
  induction row with
  | nil => simp [clearedInRow]
  | cons c cs ih =>
    rw [List.all_cons, Bool.and_eq_true] at h
    obtain ⟨hc, hcs⟩ := h
    obtain ⟨ih1, ih2⟩ := ih hcs
    cases c with
    | none => simp at hc
    | some br =>
      simp only at hc
      refine ⟨?_, ?_⟩
      · simp only [clearedInRow, hc, if_true, ih1, List.length_cons]
        push_cast
        ring
      · intro d hd
        rcases List.mem_cons.mp hd with rfl | hd
        · simp [Breakout.noHit, hc]
        · exact ih2 d hd

theorem grid_of_all_cleared (b : Breakout) (g : List (List (Option Brick)))
    (h : (g.all fun row =>
      row.length == BRICKS_PER_ROW.toNat &&
      row.all fun c =>
        match c with
        | some br => br.cleared
        | none => false) = true) :
    clearedInGrid g = 14 * (g.length : Int) ∧ b.noHitGrid g := by
  induction g with
  | nil => exact ⟨by simp [clearedInGrid], by intro r hr; simp at hr⟩
  | cons row rows ih =>
    rw [List.all_cons, Bool.and_eq_true, Bool.and_eq_true] at h
    obtain ⟨⟨hl, hrow⟩, hrows⟩ := h
    obtain ⟨ih1, ih2⟩ := ih hrows
    obtain ⟨r1, r2⟩ := row_of_all_cleared b row hrow
    have hl2 : row.length = 14 := by
      have : BRICKS_PER_ROW.toNat = 14 := by decide
      rw [this] at hl
      exact beq_iff_eq.mp hl
    refine ⟨?_, ?_⟩
    · simp only [clearedInGrid, r1, hl2, ih1, List.length_cons]
      push_cast
      ring
    · intro r hr
      rcases List.mem_cons.mp hr with rfl | hr
      · exact r2
      · exact ih2 r hr

theorem allCleared_spec (b : Breakout) (g : List (List (Option Brick)))
    (h : allCleared g = true) :
    clearedInGrid g = BRICKS_PER_ROW * BRICK_ROWS ∧ b.noHitGrid g := by
  unfold allCleared at h
  rw [Bool.and_eq_true] at h
  obtain ⟨hl, hg⟩ := h
  obtain ⟨h1, h2⟩ := grid_of_all_cleared b g hg
  have hl2 : g.length = 8 := by
    have : BRICK_ROWS.toNat = 8 := by decide
    rw [this] at hl
    exact beq_iff_eq.mp hl
  refine ⟨?_, h2⟩
  rw [h1, hl2]
  decide

theorem NewBrick_cleared (row col : Int) : (NewBrick row col).cleared = false := by
  unfold NewBrick
  split_ifs <;> rfl

theorem newBricks_fresh :
    newBricks.length = 8 ∧
    ∀ row ∈ newBricks, row.length = 14 ∧ ∀ c ∈ row, ∃ br, c = some br ∧ br.cleared = false := by
  refine ⟨by decide, ?_⟩
  intro row hrow
  simp only [newBricks, List.mem_map] at hrow
  obtain ⟨i, _, rfl⟩ := hrow
  refine ⟨by simp; decide, ?_⟩
  intro c hc
  simp only [List.mem_map] at hc
  obtain ⟨j, _, rfl⟩ := hc
  exact ⟨_, rfl, NewBrick_cleared _ _⟩

/-- C8 (amended): on a running game in which all 112 bricks are cleared, a
`MoveBall` call in which `Ball.Move` does not report out-of-bounds yields a
fresh grid of 8 x 14 uncleared bricks, a level exactly 1 higher and the same
score. -/
theorem C8_level_clear (T : Trig) (rx rd : Nat) (b : Breakout)
    (hg : b.gameOver = false) (ho : (b.ball.Move).2 = none)
    (hall : allCleared b.bricks = true) :
    (b.MoveBall T rx rd).bricks = newBricks ∧
    (b.MoveBall T rx rd).level = b.level + 1 ∧
    (b.MoveBall T rx rd).score = b.score ∧
    newBricks.length = 8 ∧
    ∀ row ∈ newBricks, row.length = 14 ∧ ∀ c ∈ row, ∃ br, c = some br ∧ br.cleared = false := by
  obtain ⟨hcount, hno⟩ := allCleared_spec b.afterMove b.bricks hall
  have hscan : b.afterMove.scanBricks =
      (b.afterMove, { cleared := clearedInGrid b.bricks, xrev := false, yrev := false,
                      score := b.score }) := by
    unfold Breakout.scanBricks
    rw [show b.afterMove.bricks = b.bricks from rfl, show b.afterMove.score = b.score from rfl,
      scanGrid_clean b.afterMove _ b.bricks rfl rfl hno]
    simp [Breakout.afterMove]
  have hc : b.afterMove.scanBricks.2.cleared = BRICKS_PER_ROW * BRICK_ROWS := by
    rw [hscan]; exact hcount
  refine ⟨?_, ?_, ?_, newBricks_fresh.1, newBricks_fresh.2⟩
  · rw [MoveBall_ok_bricks T rx rd b hg ho, if_pos hc]
  · rw [MoveBall_ok_level T rx rd b hg ho, if_pos hc]
  · rw [MoveBall_ok_score T rx rd b hg ho, hscan]
    rfl

theorem C8_level_clear_witness :
    clearedMidAir.gameOver = false ∧ (clearedMidAir.ball.Move).2 = none ∧
    allCleared clearedMidAir.bricks = true ∧
    (clearedMidAir.MoveBall sampleTrig 40 1).bricks = newBricks ∧
    (clearedMidAir.MoveBall sampleTrig 40 1).level = clearedMidAir.level + 1 ∧
    (clearedMidAir.MoveBall sampleTrig 40 1).score = clearedMidAir.score ∧
    newBricks.length = 8 ∧
    ∀ row ∈ newBricks, row.length = 14 ∧ ∀ c ∈ row, ∃ br, c = some br ∧ br.cleared = false :=
  ⟨by decide!, by decide!, by decide!,
    C8_level_clear sampleTrig 40 1 clearedMidAir (by decide!) (by decide!) (by decide!)⟩

/-- C8, as stated, fails when the ball goes out of bounds in that tick: with
all 112 bricks cleared and the ball at `y = 238` moving down, `MoveBall` takes
a life and returns; the grid stays fully cleared and the level stays 1. -/
theorem C8_counterexample :
    clearedAtBottom.gameOver = false ∧ allCleared clearedAtBottom.bricks = true ∧
    (clearedAtBottom.MoveBall sampleTrig 40 1).level = clearedAtBottom.level ∧
    (clearedAtBottom.MoveBall sampleTrig 40 1).bricks = clearedAtBottom.bricks ∧
    allCleared (clearedAtBottom.MoveBall sampleTrig 40 1).bricks = true ∧
    ¬ ((clearedAtBottom.MoveBall sampleTrig 40 1).bricks = newBricks ∧
       (clearedAtBottom.MoveBall sampleTrig 40 1).level = clearedAtBottom.level + 1 ∧
       (clearedAtBottom.MoveBall sampleTrig 40 1).score = clearedAtBottom.score) := by
  decide!

/-! ## Paddle rebound -/

theorem SetDir_dir (T : Trig) (b : Ball) (d : ℚ) : (b.SetDir T d).dir = d := by
  unfold Ball.SetDir
  simp only
  split_ifs <;> rfl

theorem CheckPaddleColision_hit (T : Trig) (pa : Paddle) (bl : Ball)
    (hc : (Breakout.CheckPaddleColision T pa bl).1 = true) :
    ((pa.x ≤ bl.GetX + bl.radius ∧ bl.GetX + bl.radius ≤ pa.x + pa.width) ∨
      (pa.x ≤ bl.GetX - bl.radius ∧ bl.GetX - bl.radius ≤ pa.x + pa.width)) ∧
    (Breakout.CheckPaddleColision T pa bl).2.dir =
      270 + ((bl.GetX - (pa.x + Int.tdiv pa.width 2) : Int) : ℚ) /
        ((Int.tdiv pa.width 2 : Int) : ℚ) * 60 + 1 := by
  unfold Breakout.CheckPaddleColision at hc ⊢
  simp only [Paddle.GetX, Paddle.GetWidth, Paddle.GetHeight, Ball.GetRadius] at hc ⊢
  split_ifs at hc ⊢ <;> simp_all [SetDir_dir]

/-- C9 (amended): whenever `CheckPaddleColision` reports a hit, for a paddle
of width 24 and a ball of radius 2, the direction it sets lies within
[201, 341] degrees. -/
theorem C9_paddle_hit_direction (T : Trig) (pa : Paddle) (bl : Ball)
    (hw : pa.width = 24) (hr : bl.radius = 2)
    (hc : (Breakout.CheckPaddleColision T pa bl).1 = true) :
    201 ≤ (Breakout.CheckPaddleColision T pa bl).2.dir ∧
    (Breakout.CheckPaddleColision T pa bl).2.dir ≤ 341 := by
  obtain ⟨hx, hd⟩ := CheckPaddleColision_hit T pa bl hc
  rw [hd, hw]
  rw [hw, hr] at hx
  have h12 : Int.tdiv 24 2 = 12 := by decide
  rw [h12]
  have h1 : (-14 : ℚ) ≤ ((bl.GetX - (pa.x + 12) : Int) : ℚ) := by
    have : (-14 : Int) ≤ bl.GetX - (pa.x + 12) := by omega
    exact_mod_cast this
  have h2 : ((bl.GetX - (pa.x + 12) : Int) : ℚ) ≤ 14 := by
    have : bl.GetX - (pa.x + 12) ≤ (14 : Int) := by omega
    exact_mod_cast this
  push_cast at h1 h2 ⊢
  constructor <;> linarith

theorem C9_paddle_hit_direction_witness :
    NewPaddle.width = 24 ∧ edgeBall.radius = 2 ∧
    (Breakout.CheckPaddleColision sampleTrig NewPaddle edgeBall).1 = true ∧
    201 ≤ (Breakout.CheckPaddleColision sampleTrig NewPaddle edgeBall).2.dir ∧
    (Breakout.CheckPaddleColision sampleTrig NewPaddle edgeBall).2.dir ≤ 341 :=
  ⟨by decide, by decide!, by decide!,
    C9_paddle_hit_direction sampleTrig NewPaddle edgeBall (by decide) (by decide!) (by decide!)⟩

/-- C9, as stated, fails at the edge of the paddle: with the fresh paddle
(x = 79) and the ball at x = 77, y = 236 the test reports a hit and sets the
direction 201, outside [210, 330]. -/
theorem C9_counterexample :
    NewPaddle.width = 24 ∧ edgeBall.radius = 2 ∧ edgeBall.x = 77 ∧ NewPaddle.x = 79 ∧
    (Breakout.CheckPaddleColision sampleTrig NewPaddle edgeBall).1 = true ∧
    (Breakout.CheckPaddleColision sampleTrig NewPaddle edgeBall).2.dir = 201 ∧
    ¬ (210 ≤ (Breakout.CheckPaddleColision sampleTrig NewPaddle edgeBall).2.dir ∧
       (Breakout.CheckPaddleColision sampleTrig NewPaddle edgeBall).2.dir ≤ 330) := by
  decide!


/-! ## Ball position -/

theorem goInt_intCast (n : Int) : goInt (n : ℚ) = n := by
  unfold goInt
  split_ifs <;> simp

theorem lt_of_goInt_lt (z : ℚ) (n : Int) (h : goInt z < n) : z < (n : ℚ) := by
  unfold goInt at h
  split_ifs at h
  · exact Int.floor_lt.mp h
  · exact lt_of_le_of_lt (Int.le_ceil z) (by exact_mod_cast h)

theorem lt_of_lt_goInt (z : ℚ) (n : Int) (h : n < goInt z) : (n : ℚ) < z := by
  unfold goInt at h
  split_ifs at h
  · exact lt_of_lt_of_le (by exact_mod_cast h) (Int.floor_le z)
  · exact Int.lt_ceil.mp h

theorem bounceLeft_spec (b : Ball) (lo : ℚ) (h : lo ≤ b.x ∨ b.v_x < 0) (hlo : lo ≤ (b.radius : ℚ)) :
    (b.bounceLeft).radius = b.radius ∧ (b.bounceLeft).y = b.y ∧ (b.bounceLeft).v_y = b.v_y ∧
    lo ≤ (b.bounceLeft).x ∧
    ((b.bounceLeft).x = b.x ∧ (b.bounceLeft).v_x = b.v_x ∨
      (b.bounceLeft).x = (b.radius : ℚ) ∧ 0 < (b.bounceLeft).v_x) := by
  unfold Ball.bounceLeft
  split_ifs with h1 h2
  · exact ⟨rfl, rfl, rfl, hlo, Or.inr ⟨rfl, by show 0 < -_; linarith⟩⟩
  · exact ⟨rfl, rfl, rfl, h.resolve_right h2, Or.inl ⟨rfl, rfl⟩⟩
  · refine ⟨rfl, rfl, rfl, ?_, Or.inl ⟨rfl, rfl⟩⟩
    have := lt_of_lt_goInt b.x b.radius (by omega)
    linarith

theorem bounceRight_spec (b : Ball) (h : b.x ≤ ((AREA_WIDTH - b.radius : Int) : ℚ) ∨ 0 < b.v_x) :
    (b.bounceRight).radius = b.radius ∧ (b.bounceRight).y = b.y ∧ (b.bounceRight).v_y = b.v_y ∧
    (b.bounceRight).x ≤ ((AREA_WIDTH - b.radius : Int) : ℚ) ∧
    ((b.bounceRight).x = b.x ∨ (b.bounceRight).x = ((AREA_WIDTH - b.radius : Int) : ℚ)) := by
  unfold Ball.bounceRight
  split_ifs with h1 h2
  · exact ⟨rfl, rfl, rfl, le_refl _, Or.inr rfl⟩
  · exact ⟨rfl, rfl, rfl, h.resolve_right h2, Or.inl rfl⟩
  · refine ⟨rfl, rfl, rfl, ?_, Or.inl rfl⟩
    exact le_of_lt (lt_of_goInt_lt b.x _ (by omega))

theorem bounceTop_spec (b : Ball) (lo : ℚ) (h : lo ≤ b.y ∨ b.v_y < 0) (hlo : lo ≤ (b.radius : ℚ)) :
    (b.bounceTop).radius = b.radius ∧ (b.bounceTop).x = b.x ∧ (b.bounceTop).v_x = b.v_x ∧
    lo ≤ (b.bounceTop).y ∧
    ((b.bounceTop).y = b.y ∧ (b.bounceTop).v_y = b.v_y ∨
      (b.bounceTop).y = (b.radius : ℚ) ∧ 0 < (b.bounceTop).v_y) := by
  unfold Ball.bounceTop
  split_ifs with h1 h2
  · exact ⟨rfl, rfl, rfl, hlo, Or.inr ⟨rfl, by show 0 < -_; linarith⟩⟩
  · exact ⟨rfl, rfl, rfl, h.resolve_right h2, Or.inl ⟨rfl, rfl⟩⟩
  · refine ⟨rfl, rfl, rfl, ?_, Or.inl ⟨rfl, rfl⟩⟩
    have := lt_of_lt_goInt b.y b.radius (by omega)
    linarith

theorem bottom_spec (b : Ball)
    (h : b.y < ((AREA_HEIGHT - b.radius + 1 : Int) : ℚ) ∨ 0 < b.v_y) :
    (b.bottom).1.radius = b.radius ∧ (b.bottom).1.x = b.x ∧ (b.bottom).1.v_x = b.v_x ∧
    (b.bottom).1.y < ((AREA_HEIGHT - b.radius + 1 : Int) : ℚ) ∧
    ((b.bottom).1.y = b.y ∨ (b.bottom).1.y = ((AREA_HEIGHT - b.radius : Int) : ℚ)) := by
  unfold Ball.bottom
  simp only
  split_ifs with h1 h2
  · exact ⟨rfl, rfl, rfl, by push_cast; linarith, Or.inr rfl⟩
  · exact ⟨rfl, rfl, rfl, h.resolve_right h2, Or.inl rfl⟩
  · refine ⟨rfl, rfl, rfl, ?_, Or.inl rfl⟩
    exact lt_of_goInt_lt b.y _ (by omega)

/-- `Ball.Move` keeps the ball inside the arena region. -/
theorem Move_in_arena (b : Ball)
    (hx0 : (b.radius : ℚ) ≤ b.x) (hx1 : b.x ≤ ((AREA_WIDTH - b.radius : Int) : ℚ))
    (hy0 : (b.radius : ℚ) ≤ b.y) (hy1 : b.y < ((AREA_HEIGHT - b.radius + 1 : Int) : ℚ)) :
    (b.Move).1.radius = b.radius ∧
    (b.radius : ℚ) ≤ (b.Move).1.x ∧ (b.Move).1.x ≤ ((AREA_WIDTH - b.radius : Int) : ℚ) ∧
    (b.radius : ℚ) ≤ (b.Move).1.y ∧ (b.Move).1.y < ((AREA_HEIGHT - b.radius + 1 : Int) : ℚ) := by
  have hW : (b.radius : ℚ) ≤ ((AREA_WIDTH - b.radius : Int) : ℚ) := le_trans hx0 hx1
  have hH : (b.radius : ℚ) < ((AREA_HEIGHT - b.radius + 1 : Int) : ℚ) := lt_of_le_of_lt hy0 hy1
  have hH3 : (b.radius : ℚ) ≤ ((AREA_HEIGHT - b.radius : Int) : ℚ) := by
    have : b.radius < AREA_HEIGHT - b.radius + 1 := by exact_mod_cast hH
    have : b.radius ≤ AREA_HEIGHT - b.radius := by omega
    exact_mod_cast this
  -- the four successive states
  have e0 : b.advance.radius = b.radius ∧ b.advance.x = b.x + b.v_x ∧ b.advance.y = b.y + b.v_y ∧
      b.advance.v_x = b.v_x ∧ b.advance.v_y = b.v_y := ⟨rfl, rfl, rfl, rfl, rfl⟩
  obtain ⟨r0, x0, y0, vx0, vy0⟩ := e0
  have hL := bounceLeft_spec b.advance (b.radius : ℚ)
    (by rw [x0, vx0]; by_cases hv : b.v_x < 0
        · exact Or.inr hv
        · left; linarith)
    (by rw [r0])
  obtain ⟨r1, y1, vy1, xl1, hx1c⟩ := hL
  have hR := bounceRight_spec b.advance.bounceLeft
    (by rw [r1, r0]
        rcases hx1c with ⟨ex, ev⟩ | ⟨_, ev⟩
        · rw [ex, ev, x0, vx0]
          by_cases hv : 0 < b.v_x
          · exact Or.inr hv
          · left; linarith
        · exact Or.inr ev)
  obtain ⟨r2, y2, vy2, xu2, hx2c⟩ := hR
  have xl2 : (b.radius : ℚ) ≤ b.advance.bounceLeft.bounceRight.x := by
    rcases hx2c with e | e
    · rw [e]; exact xl1
    · rw [e, r1, r0]; exact hW
  have hT := bounceTop_spec b.advance.bounceLeft.bounceRight (b.radius : ℚ)
    (by rw [y2, y1, vy2, vy1, y0, vy0]; by_cases hv : b.v_y < 0
        · exact Or.inr hv
        · left; linarith)
    (by rw [r2, r1, r0])
  obtain ⟨r3, x3, _, yl3, hy3c⟩ := hT
  have hB := bottom_spec b.advance.bounceLeft.bounceRight.bounceTop
    (by rw [r3, r2, r1, r0]
        rcases hy3c with ⟨ey, ev⟩ | ⟨_, ev⟩
        · rw [ey, ev, y2, y1, vy2, vy1, y0, vy0]
          by_cases hv : 0 < b.v_y
          · exact Or.inr hv
          · left; linarith
        · exact Or.inr ev)
  obtain ⟨r4, x4, _, yu4, hy4c⟩ := hB
  have hM : b.Move = b.advance.bounceLeft.bounceRight.bounceTop.bottom := rfl
  rw [hM]
  rw [r3, r2, r1, r0] at r4 yu4 hy4c
  rw [r1, r0] at xu2
  refine ⟨r4, ?_, ?_, ?_, yu4⟩
  · rw [x4, x3]; exact xl2
  · rw [x4, x3]; exact xu2
  · rcases hy4c with e | e
    · rw [e]; exact yl3
    · rw [e]; exact hH3

theorem goInt_le (x : ℚ) (n : Int) (h : x ≤ (n : ℚ)) : goInt x ≤ n := by
  unfold goInt
  split_ifs
  · exact le_trans (Int.floor_le_ceil x) (Int.ceil_le.mpr h)
  · exact Int.ceil_le.mpr h

theorem le_goInt (x : ℚ) (n : Int) (h : (n : ℚ) ≤ x) : n ≤ goInt x := by
  unfold goInt
  split_ifs
  · exact Int.le_floor.mpr h
  · exact le_trans (Int.le_floor.mpr h) (Int.floor_le_ceil x)

theorem SetDir_fields (T : Trig) (b : Ball) (d : ℚ) :
    (b.SetDir T d).x = b.x ∧ (b.SetDir T d).y = b.y ∧ (b.SetDir T d).radius = b.radius ∧
    (b.SetDir T d).speed = b.speed := by
  unfold Ball.SetDir
  simp only
  split_ifs <;> exact ⟨rfl, rfl, rfl, rfl⟩

theorem applyReversal_ball (b : Breakout) (xrev yrev : Bool) :
    (b.applyReversal xrev yrev).ball.x = b.ball.x ∧
    (b.applyReversal xrev yrev).ball.y = b.ball.y ∧
    (b.applyReversal xrev yrev).ball.radius = b.ball.radius := by
  cases xrev <;> cases yrev <;> simp [Breakout.applyReversal, Ball.ReverseVX, Ball.ReverseVY]

theorem CheckPaddleColision_ball (T : Trig) (pa : Paddle) (bl : Ball) :
    (Breakout.CheckPaddleColision T pa bl).2.x = bl.x ∧
    (Breakout.CheckPaddleColision T pa bl).2.y = bl.y ∧
    (Breakout.CheckPaddleColision T pa bl).2.radius = bl.radius := by
  unfold Breakout.CheckPaddleColision
  simp only
  split_ifs <;>
    first
    | exact ⟨rfl, rfl, rfl⟩
    | exact ⟨(SetDir_fields _ _ _).1, (SetDir_fields _ _ _).2.1, (SetDir_fields _ _ _).2.2.1⟩

theorem paddleContact_ball (T : Trig) (b : Breakout) :
    (b.paddleContact T).ball.x = b.ball.x ∧ (b.paddleContact T).ball.y = b.ball.y ∧
    (b.paddleContact T).ball.radius = b.ball.radius := by
  unfold Breakout.paddleContact
  by_cases h : (Breakout.CheckPaddleColision T b.paddle b.ball).1 = true
  · simp only [h, if_true]; exact CheckPaddleColision_ball T b.paddle b.ball
  · simp only [h, if_false]; exact CheckPaddleColision_ball T b.paddle b.ball

theorem scanBricks_cleared (b : Breakout) :
    b.scanBricks.2.cleared = clearedInGrid b.bricks ∨
    b.scanBricks.2.cleared = clearedInGrid b.bricks + 1 := by
  rcases scanBricks_cases b with ⟨_, h⟩ | ⟨R1, pre, br, post, R2, _, _, _, _, _, h⟩
  · left; rw [h]
  · right; rw [h]

/-- Position of the ball after a tick without error and without level clear. -/
theorem MoveBall_ok_ball (T : Trig) (rx rd : Nat) (b : Breakout)
    (hg : b.gameOver = false) (ho : (b.ball.Move).2 = none)
    (hc : b.afterMove.scanBricks.2.cleared ≠ BRICKS_PER_ROW * BRICK_ROWS) :
    (b.MoveBall T rx rd).ball.x = (b.ball.Move).1.x ∧
    (b.MoveBall T rx rd).ball.y = (b.ball.Move).1.y ∧
    (b.MoveBall T rx rd).ball.radius = (b.ball.Move).1.radius := by
  have hb : b.afterMove.scanBricks.1.ball = (b.ball.Move).1 := rfl
  rw [MoveBall_of_ok T rx rd b hg ho, (levelCheck_fields _ _ _ _ _).2.2.2.2.2 hc,
    (paddleContact_ball _ _).1, (paddleContact_ball _ _).2.1, (paddleContact_ball _ _).2.2,
    (applyReversal_ball _ _ _).1, (applyReversal_ball _ _ _).2.1, (applyReversal_ball _ _ _).2.2,
    hb]
  exact ⟨rfl, rfl, rfl⟩

theorem clearedInGrid_newBricks : clearedInGrid newBricks = 0 := by decide!

theorem NewBall_45 (T : Trig) (rx : Nat)
    (c0 : 0 ≤ T.cos 45) (c1 : T.cos 45 ≤ 1) (s0 : -1 ≤ T.sin 45) (s1 : T.sin 45 ≤ 1) :
    NewBall T rx 0 =
      { x := (((rx : Int) - 6 : Int) : ℚ) + 3, y := 120, radius := 2, dir := 45, speed := 3,
        v_x := 3 * T.cos 45, v_y := 3 * T.sin 45 } := by
  have hy : ((Int.tdiv AREA_HEIGHT 2 : Int) : ℚ) = 120 := by
    have : Int.tdiv AREA_HEIGHT 2 = 120 := by decide
    rw [this]; norm_num
  have hB : ((BRICK_HEIGHT : Int) : ℚ) = 7 := by
    have : BRICK_HEIGHT = 7 := rfl
    rw [this]; norm_num
  unfold NewBall Ball.SetDir
  simp only [if_true, hy, hB]
  have h1 : ¬ (3 * T.cos 45 > 10) := by linarith
  have h2 : ¬ (3 * T.cos 45 < -10) := by linarith
  have h3 : ¬ (3 * T.sin 45 > 7) := by linarith
  have h4 : ¬ (3 * T.sin 45 < -7) := by linarith
  simp only [h1, h2, h3, h4, if_false]

theorem NewBall_45_Move (T : Trig)
    (c0 : 0 ≤ T.cos 45) (c1 : T.cos 45 ≤ 1) (s0 : -1 ≤ T.sin 45) (s1 : T.sin 45 ≤ 1) :
    ((NewBall T 0 0).Move).2 = none ∧ ((NewBall T 0 0).Move).1.x = -3 + 3 * T.cos 45 ∧
    ((NewBall T 0 0).Move).1.radius = 2 := by
  rw [NewBall_45 T 0 c0 c1 s0 s1]
  unfold Ball.Move Ball.bottom Ball.bounceTop Ball.bounceRight Ball.bounceLeft Ball.advance
  have hx : ((((0 : Nat) : Int) - 6 : Int) : ℚ) + 3 + 3 * T.cos 45 = -3 + 3 * T.cos 45 := by
    norm_num
  simp only [hx]
  have g1 : goInt (-3 + 3 * T.cos 45) ≤ 2 := goInt_le _ 2 (by push_cast; linarith)
  have g2 : ¬ (3 * T.cos 45 < 0) := by linarith
  have g3 : ¬ (goInt (-3 + 3 * T.cos 45) ≥ AREA_WIDTH - 2) := by
    have : goInt (-3 + 3 * T.cos 45) ≤ 0 := goInt_le _ 0 (by push_cast; linarith)
    have hA : AREA_WIDTH = 182 := rfl
    omega
  have g4 : ¬ (goInt (120 + 3 * T.sin 45) ≤ 2) := by
    have : (117 : Int) ≤ goInt (120 + 3 * T.sin 45) := le_goInt _ 117 (by push_cast; linarith)
    omega
  have g5 : ¬ (goInt (120 + 3 * T.sin 45) > AREA_HEIGHT - 2) := by
    have : goInt (120 + 3 * T.sin 45) ≤ 123 := goInt_le _ 123 (by push_cast; linarith)
    have hA : AREA_HEIGHT = 240 := rfl
    omega
  simp only [g1, g2, g3, g4, g5, if_true, if_false]
  refine ⟨?_, ?_, ?_⟩ <;> first | rfl | trivial

theorem NewBall_fields (T : Trig) (rx rd : Nat) :
    (NewBall T rx rd).x = (((rx : Int) - 6 : Int) : ℚ) + 3 ∧ (NewBall T rx rd).y = 120 ∧
    (NewBall T rx rd).radius = 2 := by
  have hy : ((Int.tdiv AREA_HEIGHT 2 : Int) : ℚ) = 120 := by
    have : Int.tdiv AREA_HEIGHT 2 = 120 := by decide
    rw [this]; norm_num
  unfold NewBall
  simp only
  split_ifs <;>
    exact ⟨(SetDir_fields _ _ _).1, (SetDir_fields _ _ _).2.1.trans hy, (SetDir_fields _ _ _).2.2.1⟩

theorem NewBall_inArena (T : Trig) (rx rd : Nat) (h : 5 ≤ rx ∧ rx < 182) :
    (NewBall T rx rd).radius = 2 ∧ (NewBall T rx rd).inArena := by
  obtain ⟨hx, hy, hr⟩ := NewBall_fields T rx rd
  refine ⟨hr, ?_⟩
  unfold Ball.inArena
  rw [hx, hy, hr]
  have hA : AREA_WIDTH = 182 := rfl
  have hH : AREA_HEIGHT = 240 := rfl
  rw [hA, hH]
  obtain ⟨h1, h2⟩ := h
  have h1q : (5 : ℚ) ≤ (rx : ℚ) := by exact_mod_cast h1
  have h2q : (rx : ℚ) < 182 := by exact_mod_cast h2
  push_cast
  refine ⟨by linarith, by linarith, by norm_num, by norm_num⟩

theorem MoveBall_inArena (T : Trig) (rx rd : Nat) (b : Breakout)
    (h : b.ball.radius = 2 ∧ b.ball.inArena) (hrx : 5 ≤ rx ∧ rx < 182) :
    (b.MoveBall T rx rd).ball.radius = 2 ∧ (b.MoveBall T rx rd).ball.inArena := by
  cases hg : b.gameOver with
  | true => rw [MoveBall_of_gameOver T rx rd b hg]; exact h
  | false =>
    cases hm : (b.ball.Move).2 with
    | some e =>
      have ho : (b.ball.Move).2.isSome = true := by rw [hm]; rfl
      rw [MoveBall_of_error T rx rd b hg ho]
      exact NewBall_inArena T rx rd hrx
    | none =>
      by_cases hc : b.afterMove.scanBricks.2.cleared = BRICKS_PER_ROW * BRICK_ROWS
      · rw [MoveBall_of_ok T rx rd b hg hm, ((levelCheck_fields _ _ _ _ _).2.2.2.2.1 hc).2.2.1]
        exact NewBall_inArena T rx rd hrx
      · obtain ⟨e1, e2, e3⟩ := MoveBall_ok_ball T rx rd b hg hm hc
        obtain ⟨m0, m1, m2, m3, m4⟩ := Move_in_arena b.ball h.2.1 h.2.2.1 h.2.2.2.1 h.2.2.2.2
        refine ⟨by rw [e3, m0]; exact h.1, ?_⟩
        unfold Ball.inArena
        rw [e1, e2, e3, m0]
        exact ⟨m1, m2, m3, m4⟩

theorem step_inArena (T : Trig) (b : Breakout) (c : Cmd)
    (h : b.ball.radius = 2 ∧ b.ball.inArena) (hc : c.drawInside) :
    (b.step T c).ball.radius = 2 ∧ (b.step T c).ball.inArena := by
  cases c with
  | tick rx rd => exact MoveBall_inArena T rx rd b h hc
  | left => exact h
  | right => exact h
  | shrink => exact h
  | unshrink => exact h

/-- With every draw of `rand.Intn(AREA_WIDTH)` at least 5, the ball stays
inside the arena along every run. -/
theorem run_inArena (T : Trig) (cs : List Cmd) :
    ∀ b : Breakout, b.ball.radius = 2 ∧ b.ball.inArena → (∀ c ∈ cs, c.drawInside) →
      (b.run T cs).ball.radius = 2 ∧ (b.run T cs).ball.inArena := by
  induction cs with
  | nil => intro b h _; exact h
  | cons c cs ih =>
    intro b h hcs
    exact ih (b.step T c) (step_inArena T b c h (hcs c (List.mem_cons_self _ _)))
      (fun d hd => hcs d (List.mem_cons_of_mem _ hd))

/-- C2: the ball can be left of the left wall after a tick.  With the draw
`rand.Intn(AREA_WIDTH) = 0`, `NewBall` places the ball at x = -3; with the
direction 45 it moves right and, for every oracle with `0 ≤ cos 45 ≤ 1` and
`|sin 45| ≤ 1`, the first `MoveBall` leaves it at `x ≤ 0`, below the radius 2
(at `x = -15/17` for the sample oracle).  When every draw is at least 5 the
bounds `radius ≤ x ≤ AREA_WIDTH - radius`, `radius ≤ y ≤ AREA_HEIGHT` hold
along every run. -/
theorem C2_ball_starts_left_of_wall :
    (NewBall sampleTrig 0 0).x = -3 ∧
    ((NewBreakout sampleTrig 0 0).MoveBall sampleTrig 0 0).ball.x = -15 / 17 ∧
    ((NewBreakout sampleTrig 0 0).MoveBall sampleTrig 0 0).ball.radius = 2 ∧
    ¬ ((((NewBreakout sampleTrig 0 0).MoveBall sampleTrig 0 0).ball.radius : ℚ) ≤
        ((NewBreakout sampleTrig 0 0).MoveBall sampleTrig 0 0).ball.x) ∧
    (∀ T : Trig, 0 ≤ T.cos 45 → T.cos 45 ≤ 1 → -1 ≤ T.sin 45 → T.sin 45 ≤ 1 →
      ∀ rx rd : Nat,
        ((NewBreakout T 0 0).MoveBall T rx rd).ball.radius = 2 ∧
        ((NewBreakout T 0 0).MoveBall T rx rd).ball.x ≤ 0) ∧
    (∀ (T : Trig) (rx rd : Nat) (cs : List Cmd), 5 ≤ rx → rx < 182 →
      (∀ c ∈ cs, c.drawInside) →
        (((NewBreakout T rx rd).run T cs).ball.radius : ℚ) ≤
          ((NewBreakout T rx rd).run T cs).ball.x ∧
        ((NewBreakout T rx rd).run T cs).ball.x ≤
          ((AREA_WIDTH - ((NewBreakout T rx rd).run T cs).ball.radius : Int) : ℚ) ∧
        (((NewBreakout T rx rd).run T cs).ball.radius : ℚ) ≤
          ((NewBreakout T rx rd).run T cs).ball.y ∧
        ((NewBreakout T rx rd).run T cs).ball.y ≤ ((AREA_HEIGHT : Int) : ℚ)) := by
  refine ⟨by decide!, by decide!, by decide!, by decide!, ?_, ?_⟩
  · intro T c0 c1 s0 s1 rx rd
    obtain ⟨m1, m2, m3⟩ := NewBall_45_Move T c0 c1 s0 s1
    have hc : (NewBreakout T 0 0).afterMove.scanBricks.2.cleared ≠
        BRICKS_PER_ROW * BRICK_ROWS := by
      have hb : (NewBreakout T 0 0).afterMove.bricks = newBricks := rfl
      have hn : BRICKS_PER_ROW * BRICK_ROWS = 112 := by decide
      rcases scanBricks_cleared (NewBreakout T 0 0).afterMove with h | h <;>
        rw [h, hb, clearedInGrid_newBricks, hn] <;> omega
    obtain ⟨b1, _, b3⟩ := MoveBall_ok_ball T rx rd (NewBreakout T 0 0) rfl m1 hc
    refine ⟨by rw [b3]; exact m3, ?_⟩
    rw [b1]
    have : ((NewBreakout T 0 0).ball.Move).1.x = -3 + 3 * T.cos 45 := m2
    rw [this]
    linarith
  · intro T rx rd cs h5 h182 hcs
    have h0 := NewBall_inArena T rx rd ⟨h5, h182⟩
    obtain ⟨hr, a1, a2, a3, a4⟩ := run_inArena T cs (NewBreakout T rx rd) h0 hcs
    refine ⟨a1, a2, a3, ?_⟩
    rw [hr] at a4
    have hH : AREA_HEIGHT = 240 := rfl
    rw [hH] at a4 ⊢
    push_cast at a4 ⊢
    linarith

/-! ## Paddle movement -/

theorem MoveRight_spec (p : Paddle) (h : p.x ≤ AREA_WIDTH - p.width) :
    p.MoveRight = { p with x := min (p.x + 3) (AREA_WIDTH - p.width) } := by
  unfold Paddle.MoveRight
  simp only [h, if_true]
  by_cases h2 : p.x + 3 > AREA_WIDTH - p.width
  · simp only [h2, if_true]
    congr 1
    omega
  · simp only [h2, if_false]
    congr 1
    omega

theorem MoveLeft_spec (p : Paddle) (h : 0 ≤ p.x) :
    p.MoveLeft = { p with x := max (p.x - 3) 0 } := by
  unfold Paddle.MoveLeft
  have h' : p.x ≥ 0 := h
  simp only [h', if_true]
  by_cases h2 : p.x - 3 < 0
  · simp only [h2, if_true]
    congr 1
    omega
  · simp only [h2, if_false]
    congr 1
    omega

theorem MoveRight_iterate (p : Paddle) (n : Nat) (h : p.x ≤ AREA_WIDTH - p.width) :
    Paddle.MoveRight^[n] p = { p with x := min (p.x + 3 * (n : Int)) (AREA_WIDTH - p.width) } := by
  induction n with
  | zero =>
    simp only [Function.iterate_zero, id_eq]
    cases p
    simp only [Paddle.mk.injEq, and_true, true_and] at *
    omega
  | succ k ih =>
    rw [Function.iterate_succ_apply', ih, MoveRight_spec]
    · simp only [Paddle.mk.injEq, and_true, true_and]
      push_cast
      omega
    · simp only
      omega

theorem MoveLeft_iterate (p : Paddle) (n : Nat) (h : 0 ≤ p.x) :
    Paddle.MoveLeft^[n] p = { p with x := max (p.x - 3 * (n : Int)) 0 } := by
  induction n with
  | zero =>
    simp only [Function.iterate_zero, id_eq]
    cases p
    simp only [Paddle.mk.injEq, and_true, true_and] at *
    omega
  | succ k ih =>
    rw [Function.iterate_succ_apply', ih, MoveLeft_spec]
    · simp only [Paddle.mk.injEq, and_true, true_and]
      push_cast
      omega
    · simp only
      omega

/-- C4: for a paddle with `0 ≤ x ≤ AREA_WIDTH - width`, `n` consecutive
`MoveRight` calls leave `x = min (x + 3n) (AREA_WIDTH - width)` and `n`
consecutive `MoveLeft` calls leave `x = max (x - 3n) 0`; the calls never pass
the bound and keep the width, and from the fresh paddle 1000 calls end at
exactly 158, respectively 0. -/
theorem C4_paddle_move_saturates (p : Paddle) (n : Nat)
    (h0 : 0 ≤ p.x) (h1 : p.x ≤ AREA_WIDTH - p.width) :
    (Paddle.MoveRight^[n] p).x = min (p.x + 3 * (n : Int)) (AREA_WIDTH - p.width) ∧
    (Paddle.MoveLeft^[n] p).x = max (p.x - 3 * (n : Int)) 0 ∧
    (Paddle.MoveRight^[n] p).x ≤ AREA_WIDTH - p.width ∧
    0 ≤ (Paddle.MoveLeft^[n] p).x ∧
    (Paddle.MoveRight^[n] p).width = p.width ∧
    (Paddle.MoveLeft^[n] p).width = p.width ∧
    (Paddle.MoveRight^[1000] NewPaddle).x = 158 ∧
    (Paddle.MoveLeft^[1000] NewPaddle).x = 0 := by
  rw [MoveRight_iterate p n h1, MoveLeft_iterate p n h0]
  rw [MoveRight_iterate NewPaddle 1000 (by decide), MoveLeft_iterate NewPaddle 1000 (by decide)]
  refine ⟨rfl, rfl, ?_, ?_, rfl, rfl, by decide, by decide⟩
  · exact min_le_right _ _
  · exact le_max_right _ _

theorem C4_paddle_move_saturates_witness :
    (Paddle.MoveRight^[30] NewPaddle).x = min (NewPaddle.x + 3 * ((30 : Nat) : Int))
      (AREA_WIDTH - NewPaddle.width) ∧
    (Paddle.MoveLeft^[30] NewPaddle).x = max (NewPaddle.x - 3 * ((30 : Nat) : Int)) 0 ∧
    (Paddle.MoveRight^[30] NewPaddle).x ≤ AREA_WIDTH - NewPaddle.width ∧
    0 ≤ (Paddle.MoveLeft^[30] NewPaddle).x ∧
    (Paddle.MoveRight^[30] NewPaddle).width = NewPaddle.width ∧
    (Paddle.MoveLeft^[30] NewPaddle).width = NewPaddle.width ∧
    (Paddle.MoveRight^[1000] NewPaddle).x = 158 ∧
    (Paddle.MoveLeft^[1000] NewPaddle).x = 0 :=
  C4_paddle_move_saturates NewPaddle 30 (by decide) (by decide)

theorem Shrink_spec (p : Paddle) :
    (p.Shrink).x = p.x ∧ (p.Shrink).width ≤ p.width := by
  unfold Paddle.Shrink
  split_ifs with h
  · exact ⟨rfl, le_of_lt h⟩
  · exact ⟨rfl, le_refl _⟩

/-- C3: the paddle invariant `0 ≤ x ≤ AREA_WIDTH - width` does not survive
`UnShrink`: from the fresh paddle, `Shrink`, 31 times `MoveRight` and
`UnShrink` end at `x = 170` with width 24, beyond `AREA_WIDTH - width = 158`.
`MoveLeft`, `MoveRight` and `Shrink` each keep the invariant. -/
theorem C3_paddle_UnShrink_leaves_arena :
    (Paddle.MoveRight^[31] NewPaddle.Shrink).x = 170 ∧
    (Paddle.MoveRight^[31] NewPaddle.Shrink).width = 12 ∧
    ((Paddle.MoveRight^[31] NewPaddle.Shrink).UnShrink).x = 170 ∧
    ((Paddle.MoveRight^[31] NewPaddle.Shrink).UnShrink).width = 24 ∧
    ¬ ((Paddle.MoveRight^[31] NewPaddle.Shrink).UnShrink).x ≤
        AREA_WIDTH - ((Paddle.MoveRight^[31] NewPaddle.Shrink).UnShrink).width ∧
    (0 ≤ NewPaddle.x ∧ NewPaddle.x ≤ AREA_WIDTH - NewPaddle.width) ∧
    ∀ p : Paddle, 0 ≤ p.x → p.x ≤ AREA_WIDTH - p.width →
      (0 ≤ (p.MoveLeft).x ∧ (p.MoveLeft).x ≤ AREA_WIDTH - (p.MoveLeft).width) ∧
      (0 ≤ (p.MoveRight).x ∧ (p.MoveRight).x ≤ AREA_WIDTH - (p.MoveRight).width) ∧
      (0 ≤ (p.Shrink).x ∧ (p.Shrink).x ≤ AREA_WIDTH - (p.Shrink).width) := by
  refine ⟨by decide!, by decide!, by decide!, by decide!, by decide!, by decide, ?_⟩
  intro p h0 h1
  rw [MoveLeft_spec p h0, MoveRight_spec p h1]
  obtain ⟨s1, s2⟩ := Shrink_spec p
  refine ⟨⟨?_, ?_⟩, ⟨?_, ?_⟩, ⟨?_, ?_⟩⟩
  · exact le_max_right _ _
  · show max (p.x - 3) 0 ≤ AREA_WIDTH - p.width
    omega
  · show 0 ≤ min (p.x + 3) (AREA_WIDTH - p.width)
    omega
  · exact min_le_right _ _
  · rw [s1]; exact h0
  · rw [s1]; omega

/-! ## Brick layout and tiers -/

theorem intWidth_eq : goInt ((AREA_WIDTH : ℚ) / (BRICKS_PER_ROW : ℚ)) = 13 := by decide!

/-- Closed form of the brick built by `NewBrick`. -/
theorem NewBrick_eq (row col : Int) :
    NewBrick row col =
      { row := row, col := col, cleared := false, x := 13 * col,
        y := 32 + (7 - row) * 7, width := 13, height := 7 } := by
  have hA : AREA_WIDTH = 182 := rfl
  have hB : BRICKS_PER_ROW = 14 := rfl
  have hR : BRICK_ROWS = 8 := rfl
  have hT : TOP_OFFSET = 32 := rfl
  have hH : BRICK_HEIGHT = 7 := rfl
  have hd : Int.tdiv 182 14 = 13 := by decide
  have h0 : Int.tdiv (182 - 13 * 14) 2 = 0 := by decide
  unfold NewBrick Brick.CalcWidth
  simp only [intWidth_eq]
  simp only [hA, hB, hR, hT, hH, hd, h0]
  have hy : (8 : Int) - row - 1 = 7 - row := by ring
  rw [hy]
  by_cases hc0 : col = 0
  · subst hc0
    simp
  · by_cases hc13 : col = 14 - 1
    · subst hc13
      simp
    · by_cases hpos : col > 0
      · simp [hc0, hc13, hpos]
        ring
      · simp [hc0, hc13, hpos]
        ring

/-- C16: the rectangles of `NewBrick r c` tile the brick field
`[0,182) x [32,88)`: every width is 13 and every height 7, column 0 starts at
`x = 0`, column `c+1` starts where column `c` ends, column 13 ends at
`AREA_WIDTH`; row `r` lies one band of 7 below row `r+1`, row 7 at `y = 32`
and row 0 at `y = 81`, ending at 88; the bricks of the grid lie inside the
field and every integer point of the field is covered by exactly one brick,
which is a brick of the grid. -/
theorem C16_bricks_tile_field (r c : Int) :
    (NewBrick r c).width = 13 ∧ (NewBrick r c).height = 7 ∧
    Int.tdiv AREA_WIDTH BRICKS_PER_ROW = 13 ∧
    (NewBrick r 0).x = 0 ∧
    (NewBrick r (c + 1)).x = (NewBrick r c).x + (NewBrick r c).width ∧
    (NewBrick r 13).x + (NewBrick r 13).width = AREA_WIDTH ∧
    (NewBrick r c).y = (NewBrick (r + 1) c).y + 7 ∧
    (NewBrick 7 c).y = 32 ∧ (NewBrick 0 c).y = 81 ∧
    (NewBrick 0 c).y + (NewBrick 0 c).height = 88 ∧
    (0 ≤ r → r < 8 → 0 ≤ c → c < 14 →
      0 ≤ (NewBrick r c).x ∧ (NewBrick r c).x + (NewBrick r c).width ≤ 182 ∧
      32 ≤ (NewBrick r c).y ∧ (NewBrick r c).y + (NewBrick r c).height ≤ 88) ∧
    ∀ px py : Int, 0 ≤ px → px < 182 → 32 ≤ py → py < 88 →
      ∃ r0 c0 : Int, (0 ≤ r0 ∧ r0 < 8 ∧ 0 ≤ c0 ∧ c0 < 14) ∧ (NewBrick r0 c0).covers px py ∧
        ∀ r1 c1 : Int, (NewBrick r1 c1).covers px py → r1 = r0 ∧ c1 = c0 := by
  have hA : AREA_WIDTH = 182 := rfl
  have hd : Int.tdiv AREA_WIDTH BRICKS_PER_ROW = 13 := by decide
  simp only [NewBrick_eq, Brick.covers, hA, hd]
  refine ⟨?_, ?_, ?_, ?_, ?_, ?_, ?_, ?_, ?_, ?_, ?_, ?_⟩
  · trivial
  · trivial
  · trivial
  · omega
  · omega
  · omega
  · omega
  · omega
  · omega
  · omega
  · intro h1 h2 h3 h4
    omega
  · intro px py h1 h2 h3 h4
    refine ⟨7 - (py - 32) / 7, px / 13, ?_, ?_, ?_⟩
    · omega
    · omega
    · intro r1 c1 h
      omega

theorem GetColor_tier (br : Brick) :
    (br.row = 0 ∨ br.row = 1 → br.GetColor = "yellow") ∧
    (br.row = 2 ∨ br.row = 3 → br.GetColor = "green") ∧
    (br.row = 4 ∨ br.row = 5 → br.GetColor = "orange") ∧
    (br.row = 6 ∨ br.row = 7 → br.GetColor = "red") ∧
    (br.row < 0 ∨ 7 < br.row → br.GetColor = "red") := by
  unfold Brick.GetColor
  refine ⟨fun h => ?_, fun h => ?_, fun h => ?_, fun h => ?_, fun h => ?_⟩
  · simp [h]
  · have h0 : ¬ (br.row = 0 ∨ br.row = 1) := by omega
    simp [h, h0]
  · have h0 : ¬ (br.row = 0 ∨ br.row = 1) := by omega
    have h2 : ¬ (br.row = 2 ∨ br.row = 3) := by omega
    simp [h, h0, h2]
  · split_ifs <;> first | rfl | omega
  · split_ifs <;> first | rfl | omega

theorem GetPoints_fallback (br : Brick) (h : br.row < 0 ∨ 7 < br.row) : br.GetPoints = 7 := by
  unfold Brick.GetPoints
  split_ifs <;> first | rfl | omega

/-- C17: for every integer row, `GetColor` and `GetPoints` follow the
tier table (rows 0,1 yellow and 1; 2,3 green and 3; 4,5 orange and 5; 6,7 red
and 7), every row outside 0..7 falls back to red and 7, colour and points
agree on the tier, and points do not decrease with the row over 0..7. -/
theorem C17_tier_table (br : Brick) :
    (br.row = 0 ∨ br.row = 1 → br.GetColor = "yellow" ∧ br.GetPoints = 1) ∧
    (br.row = 2 ∨ br.row = 3 → br.GetColor = "green" ∧ br.GetPoints = 3) ∧
    (br.row = 4 ∨ br.row = 5 → br.GetColor = "orange" ∧ br.GetPoints = 5) ∧
    (br.row = 6 ∨ br.row = 7 → br.GetColor = "red" ∧ br.GetPoints = 7) ∧
    (br.row < 0 ∨ 7 < br.row → br.GetColor = "red" ∧ br.GetPoints = 7) ∧
    (br.GetColor = "yellow" ↔ br.GetPoints = 1) ∧
    (br.GetColor = "green" ↔ br.GetPoints = 3) ∧
    (br.GetColor = "orange" ↔ br.GetPoints = 5) ∧
    (br.GetColor = "red" ↔ br.GetPoints = 7) ∧
    ∀ br2 : Brick, 0 ≤ br.row → br.row ≤ br2.row → br2.row ≤ 7 → br.GetPoints ≤ br2.GetPoints := by
  obtain ⟨c1, c2, c3, c4, c5⟩ := GetColor_tier br
  obtain ⟨p1, p2, p3, p4⟩ := GetPoints_tier br
  have p5 := GetPoints_fallback br
  have hcases : (br.row = 0 ∨ br.row = 1) ∨ (br.row = 2 ∨ br.row = 3) ∨ (br.row = 4 ∨ br.row = 5) ∨
      (br.row = 6 ∨ br.row = 7) ∨ (br.row < 0 ∨ 7 < br.row) := by omega
  refine ⟨fun h => ⟨c1 h, p1 h⟩, fun h => ⟨c2 h, p2 h⟩, fun h => ⟨c3 h, p3 h⟩,
    fun h => ⟨c4 h, p4 h⟩, fun h => ⟨c5 h, p5 h⟩, ?_, ?_, ?_, ?_, ?_⟩
  · rcases hcases with h | h | h | h | h
    · simp [c1 h, p1 h]
    · simp [c2 h, p2 h]
    · simp [c3 h, p3 h]
    · simp [c4 h, p4 h]
    · simp [c5 h, p5 h]
  · rcases hcases with h | h | h | h | h
    · simp [c1 h, p1 h]
    · simp [c2 h, p2 h]
    · simp [c3 h, p3 h]
    · simp [c4 h, p4 h]
    · simp [c5 h, p5 h]
  · rcases hcases with h | h | h | h | h
    · simp [c1 h, p1 h]
    · simp [c2 h, p2 h]
    · simp [c3 h, p3 h]
    · simp [c4 h, p4 h]
    · simp [c5 h, p5 h]
  · rcases hcases with h | h | h | h | h
    · simp [c1 h, p1 h]
    · simp [c2 h, p2 h]
    · simp [c3 h, p3 h]
    · simp [c4 h, p4 h]
    · simp [c5 h, p5 h]
  · intro br2 h0 h1 h2
    obtain ⟨q1, q2, q3, q4⟩ := GetPoints_tier br2
    have hc2 : (br2.row = 0 ∨ br2.row = 1) ∨ (br2.row = 2 ∨ br2.row = 3) ∨
        (br2.row = 4 ∨ br2.row = 5) ∨ (br2.row = 6 ∨ br2.row = 7) := by omega
    rcases hcases with h | h | h | h | h <;> rcases hc2 with g | g | g | g <;>
      first
      | (rw [p1 h, q1 g]) | (rw [p1 h, q2 g]; decide) | (rw [p1 h, q3 g]; decide)
      | (rw [p1 h, q4 g]; decide) | (rw [p2 h, q2 g]) | (rw [p2 h, q3 g]; decide)
      | (rw [p2 h, q4 g]; decide) | (rw [p3 h, q3 g]) | (rw [p3 h, q4 g]; decide)
      | (rw [p4 h, q4 g]) | omega

/-! ## Collision test of a brick -/

/-- C11: for the brick `NewBrick r c` (any row and column, those of the grid
included) and a ball of radius 2, `CheckColision` returns `(true, false)`
when the ball is at `(x-1, y+h/2)` with `vx > 0`, `vy = 0` and when it is at
`(x+w+1, y+h/2)` with `vx < 0`, `vy = 0`, and returns `(false, true)` when the
ball is at `(x+w/2, y-1)` with `vy > 0` and when it is at `(x+w/2, y+h+1)`
with `vy < 0`. -/
theorem C11_side_and_top_hits (b : Breakout) (bl : Ball) (r c : Int) (hrad : bl.radius = 2) :
    (bl.x = (((NewBrick r c).x - 1 : Int) : ℚ) →
      bl.y = (((NewBrick r c).y + Int.tdiv (NewBrick r c).height 2 : Int) : ℚ) →
      0 < b.ball.v_x → b.ball.v_y = 0 →
      b.CheckColision (NewBrick r c) bl = (true, false)) ∧
    (bl.x = (((NewBrick r c).x + (NewBrick r c).width + 1 : Int) : ℚ) →
      bl.y = (((NewBrick r c).y + Int.tdiv (NewBrick r c).height 2 : Int) : ℚ) →
      b.ball.v_x < 0 → b.ball.v_y = 0 →
      b.CheckColision (NewBrick r c) bl = (true, false)) ∧
    (bl.x = (((NewBrick r c).x + Int.tdiv (NewBrick r c).width 2 : Int) : ℚ) →
      bl.y = (((NewBrick r c).y - 1 : Int) : ℚ) →
      0 < b.ball.v_y →
      b.CheckColision (NewBrick r c) bl = (false, true)) ∧
    (bl.x = (((NewBrick r c).x + Int.tdiv (NewBrick r c).width 2 : Int) : ℚ) →
      bl.y = (((NewBrick r c).y + (NewBrick r c).height + 1 : Int) : ℚ) →
      b.ball.v_y < 0 →
      b.CheckColision (NewBrick r c) bl = (false, true)) := by
  have h7 : Int.tdiv 7 2 = 3 := by decide
  have h13 : Int.tdiv 13 2 = 6 := by decide
  rw [NewBrick_eq r c]
  simp only [h7, h13]
  refine ⟨fun hx hy hvx hvy => ?_, fun hx hy hvx hvy => ?_, fun hx hy hvy => ?_,
    fun hx hy hvy => ?_⟩
  · unfold Breakout.CheckColision
    simp only [Ball.GetX, Ball.GetY, Ball.GetRadius, Brick.GetX, Brick.GetY, Brick.GetWidth,
      Brick.GetHeight, Brick.IsCleared, hx, hy, hrad, goInt_intCast, hvy]
    have n1 : ¬ (b.ball.v_x < 0) := by linarith
    simp [hvx, n1]
    omega
  · unfold Breakout.CheckColision
    simp only [Ball.GetX, Ball.GetY, Ball.GetRadius, Brick.GetX, Brick.GetY, Brick.GetWidth,
      Brick.GetHeight, Brick.IsCleared, hx, hy, hrad, goInt_intCast, hvy]
    have n1 : ¬ (0 < b.ball.v_x) := by linarith
    simp [hvx, n1]
    omega
  · unfold Breakout.CheckColision
    simp only [Ball.GetX, Ball.GetY, Ball.GetRadius, Brick.GetX, Brick.GetY, Brick.GetWidth,
      Brick.GetHeight, Brick.IsCleared, hx, hy, hrad, goInt_intCast]
    have n1 : ¬ (b.ball.v_y < 0) := by linarith
    simp [hvy, n1]
    omega
  · unfold Breakout.CheckColision
    simp only [Ball.GetX, Ball.GetY, Ball.GetRadius, Brick.GetX, Brick.GetY, Brick.GetWidth,
      Brick.GetHeight, Brick.IsCleared, hx, hy, hrad, goInt_intCast]
    have n1 : ¬ (0 < b.ball.v_y) := by linarith
    simp [hvy, n1]
    omega

theorem C11_side_and_top_hits_witness :
    (sampleEngine (sampleBall 12 77 3 0)).CheckColision (NewBrick 1 1) (sampleBall 12 77 3 0) =
      (true, false) ∧
    (sampleEngine (sampleBall 27 77 (-3) 0)).CheckColision (NewBrick 1 1)
      (sampleBall 27 77 (-3) 0) = (true, false) ∧
    (sampleEngine (sampleBall 19 73 0 3)).CheckColision (NewBrick 1 1) (sampleBall 19 73 0 3) =
      (false, true) ∧
    (sampleEngine (sampleBall 19 82 0 (-3))).CheckColision (NewBrick 1 1)
      (sampleBall 19 82 0 (-3)) = (false, true) :=
  ⟨(C11_side_and_top_hits (sampleEngine (sampleBall 12 77 3 0)) (sampleBall 12 77 3 0) 1 1
      rfl).1 (by decide!) (by decide!) (by decide!) (by decide!),
    (C11_side_and_top_hits (sampleEngine (sampleBall 27 77 (-3) 0)) (sampleBall 27 77 (-3) 0) 1 1
      rfl).2.1 (by decide!) (by decide!) (by decide!) (by decide!),
    (C11_side_and_top_hits (sampleEngine (sampleBall 19 73 0 3)) (sampleBall 19 73 0 3) 1 1
      rfl).2.2.1 (by decide!) (by decide!) (by decide!),
    (C11_side_and_top_hits (sampleEngine (sampleBall 19 82 0 (-3))) (sampleBall 19 82 0 (-3)) 1 1
      rfl).2.2.2 (by decide!) (by decide!) (by decide!)⟩

/-- C12: for a brick whose cleared flag is set, `CheckColision` returns
`(false, false)` for every ball position and velocity, and the brick loop of
`MoveBall` leaves the brick as it is (still cleared), counts it, and keeps
the flags and the score. -/
theorem C12_cleared_brick_ignored (b : Breakout) (br : Brick) (bl : Ball) (s : Scan)
    (h : br.cleared = true) :
    b.CheckColision br bl = (false, false) ∧
    (b.scanCell s (some br)).2 = some br ∧
    (b.scanCell s (some br)).1.xrev = s.xrev ∧
    (b.scanCell s (some br)).1.yrev = s.yrev ∧
    (b.scanCell s (some br)).1.score = s.score ∧
    (b.scanCell s (some br)).1.cleared = s.cleared + 1 := by
  refine ⟨?_, ?_⟩
  · unfold Breakout.CheckColision
    simp [Brick.IsCleared, h]
  · simp [Breakout.scanCell, Brick.IsCleared, h]


theorem C12_cleared_brick_ignored_witness :
    ((NewBrick 1 1).SetCleared true).cleared = true ∧
    (sampleEngine (sampleBall 12 77 3 0)).CheckColision ((NewBrick 1 1).SetCleared true)
      (sampleBall 12 77 3 0) = (false, false) ∧
    ((sampleEngine (sampleBall 12 77 3 0)).scanCell
      { cleared := 0, xrev := false, yrev := false, score := 0 }
      (some ((NewBrick 1 1).SetCleared true))).2 = some ((NewBrick 1 1).SetCleared true) :=
  ⟨by decide!,
    (C12_cleared_brick_ignored (sampleEngine (sampleBall 12 77 3 0))
      ((NewBrick 1 1).SetCleared true) (sampleBall 12 77 3 0)
      { cleared := 0, xrev := false, yrev := false, score := 0 } (by decide!)).1,
    (C12_cleared_brick_ignored (sampleEngine (sampleBall 12 77 3 0))
      ((NewBrick 1 1).SetCleared true) (sampleBall 12 77 3 0)
      { cleared := 0, xrev := false, yrev := false, score := 0 } (by decide!)).2.1⟩

/-! ## Outcomes of `Ball.Move` -/

theorem bounceLeft_cases (b : Ball) :
    (b.bounceLeft).radius = b.radius ∧ (b.bounceLeft).y = b.y ∧ (b.bounceLeft).v_y = b.v_y ∧
    ((goInt b.x ≤ b.radius ∧ b.v_x < 0 ∧
        (b.bounceLeft).x = (b.radius : ℚ) ∧ (b.bounceLeft).v_x = -b.v_x) ∨
      (¬ (goInt b.x ≤ b.radius ∧ b.v_x < 0) ∧
        (b.bounceLeft).x = b.x ∧ (b.bounceLeft).v_x = b.v_x)) := by
  unfold Ball.bounceLeft
  split_ifs with h1 h2
  · exact ⟨rfl, rfl, rfl, Or.inl ⟨h1, h2, rfl, rfl⟩⟩
  · exact ⟨rfl, rfl, rfl, Or.inr ⟨fun h => h2 h.2, rfl, rfl⟩⟩
  · exact ⟨rfl, rfl, rfl, Or.inr ⟨fun h => h1 h.1, rfl, rfl⟩⟩

theorem bounceRight_cases (b : Ball) :
    (b.bounceRight).radius = b.radius ∧ (b.bounceRight).y = b.y ∧
    (b.bounceRight).v_y = b.v_y ∧
    ((goInt b.x ≥ AREA_WIDTH - b.radius ∧ 0 < b.v_x ∧
        (b.bounceRight).x = ((AREA_WIDTH - b.radius : Int) : ℚ) ∧
        (b.bounceRight).v_x = -b.v_x) ∨
      (¬ (goInt b.x ≥ AREA_WIDTH - b.radius ∧ 0 < b.v_x) ∧
        (b.bounceRight).x = b.x ∧ (b.bounceRight).v_x = b.v_x)) := by
  unfold Ball.bounceRight
  split_ifs with h1 h2
  · exact ⟨rfl, rfl, rfl, Or.inl ⟨h1, h2, rfl, rfl⟩⟩
  · exact ⟨rfl, rfl, rfl, Or.inr ⟨fun h => h2 h.2, rfl, rfl⟩⟩
  · exact ⟨rfl, rfl, rfl, Or.inr ⟨fun h => h1 h.1, rfl, rfl⟩⟩

theorem bounceTop_cases (b : Ball) :
    (b.bounceTop).radius = b.radius ∧ (b.bounceTop).x = b.x ∧ (b.bounceTop).v_x = b.v_x ∧
    ((goInt b.y ≤ b.radius ∧ b.v_y < 0 ∧
        (b.bounceTop).y = (b.radius : ℚ) ∧ (b.bounceTop).v_y = -b.v_y) ∨
      (¬ (goInt b.y ≤ b.radius ∧ b.v_y < 0) ∧
        (b.bounceTop).y = b.y ∧ (b.bounceTop).v_y = b.v_y)) := by
  unfold Ball.bounceTop
  split_ifs with h1 h2
  · exact ⟨rfl, rfl, rfl, Or.inl ⟨h1, h2, rfl, rfl⟩⟩
  · exact ⟨rfl, rfl, rfl, Or.inr ⟨fun h => h2 h.2, rfl, rfl⟩⟩
  · exact ⟨rfl, rfl, rfl, Or.inr ⟨fun h => h1 h.1, rfl, rfl⟩⟩

theorem bottom_cases (b : Ball) :
    (b.bottom).1.radius = b.radius ∧ (b.bottom).1.x = b.x ∧ (b.bottom).1.v_x = b.v_x ∧
    ((goInt b.y > AREA_HEIGHT - b.radius ∧ (b.bottom).2.isSome = true ∧ 0 < b.v_y ∧
        (b.bottom).1.y = ((AREA_HEIGHT - b.radius : Int) : ℚ) ∧ (b.bottom).1.v_y = -b.v_y) ∨
      (goInt b.y > AREA_HEIGHT - b.radius ∧ (b.bottom).2.isSome = true ∧ ¬ 0 < b.v_y ∧
        (b.bottom).1.y = b.y ∧ (b.bottom).1.v_y = b.v_y) ∨
      (¬ goInt b.y > AREA_HEIGHT - b.radius ∧ (b.bottom).2.isSome = false ∧
        (b.bottom).1.y = b.y ∧ (b.bottom).1.v_y = b.v_y)) := by
  unfold Ball.bottom
  simp only
  split_ifs with h1 h2
  · exact ⟨rfl, rfl, rfl, Or.inl ⟨h1, rfl, h2, rfl, rfl⟩⟩
  · exact ⟨rfl, rfl, rfl, Or.inr (Or.inl ⟨h1, rfl, h2, rfl, rfl⟩)⟩
  · exact ⟨rfl, rfl, rfl, Or.inr (Or.inr ⟨h1, rfl, rfl, rfl⟩)⟩

/-- Horizontal outcome of `Ball.Move`, by the wall tests that fire. -/
theorem Move_x_cases (b : Ball) :
    (b.Move).1.radius = b.radius ∧
    ((goInt (b.x + b.v_x) ≤ b.radius ∧ b.v_x < 0 ∧ b.radius ≥ AREA_WIDTH - b.radius ∧
        (b.Move).1.x = ((AREA_WIDTH - b.radius : Int) : ℚ) ∧ (b.Move).1.v_x = b.v_x) ∨
      (goInt (b.x + b.v_x) ≤ b.radius ∧ b.v_x < 0 ∧ ¬ b.radius ≥ AREA_WIDTH - b.radius ∧
        (b.Move).1.x = (b.radius : ℚ) ∧ (b.Move).1.v_x = -b.v_x) ∨
      (¬ (goInt (b.x + b.v_x) ≤ b.radius ∧ b.v_x < 0) ∧
        goInt (b.x + b.v_x) ≥ AREA_WIDTH - b.radius ∧ 0 < b.v_x ∧
        (b.Move).1.x = ((AREA_WIDTH - b.radius : Int) : ℚ) ∧ (b.Move).1.v_x = -b.v_x) ∨
      (¬ (goInt (b.x + b.v_x) ≤ b.radius ∧ b.v_x < 0) ∧
        ¬ (goInt (b.x + b.v_x) ≥ AREA_WIDTH - b.radius ∧ 0 < b.v_x) ∧
        (b.Move).1.x = b.x + b.v_x ∧ (b.Move).1.v_x = b.v_x)) := by
  have hM : b.Move = b.advance.bounceLeft.bounceRight.bounceTop.bottom := rfl
  have a0 : b.advance.radius = b.radius := rfl
  have a1 : b.advance.x = b.x + b.v_x := rfl
  have a3 : b.advance.v_x = b.v_x := rfl
  obtain ⟨l0, -, -, hL⟩ := bounceLeft_cases b.advance
  obtain ⟨r0, -, -, hR⟩ := bounceRight_cases b.advance.bounceLeft
  obtain ⟨t0, t1, t2, -⟩ := bounceTop_cases b.advance.bounceLeft.bounceRight
  obtain ⟨b0, b1, b2, -⟩ := bottom_cases b.advance.bounceLeft.bounceRight.bounceTop
  rw [hM, b0, b1, b2, t0, t1, t2, r0, l0, a0]
  rw [l0, a0] at hR
  rw [a0, a1, a3] at hL
  refine ⟨rfl, ?_⟩
  rcases hL with ⟨cl1, cl2, lx, lv⟩ | ⟨cl, lx, lv⟩
  · rw [lx, lv, goInt_intCast] at hR
    rcases hR with ⟨cr1, cr2, rx, rv⟩ | ⟨cr, rx, rv⟩
    · exact Or.inl ⟨cl1, cl2, cr1, rx, by rw [rv]; ring⟩
    · refine Or.inr (Or.inl ⟨cl1, cl2, ?_, rx, rv⟩)
      intro h
      exact cr ⟨h, by linarith⟩
  · rw [lx, lv] at hR
    rcases hR with ⟨cr1, cr2, rx, rv⟩ | ⟨cr, rx, rv⟩
    · exact Or.inr (Or.inr (Or.inl ⟨cl, cr1, cr2, rx, rv⟩))
    · exact Or.inr (Or.inr (Or.inr ⟨cl, cr, rx, rv⟩))

/-- Vertical outcome of `Ball.Move` and its error, by the tests that fire. -/
theorem Move_y_cases (b : Ball) :
    (goInt (b.y + b.v_y) ≤ b.radius ∧ b.v_y < 0 ∧ b.radius > AREA_HEIGHT - b.radius ∧
        (b.Move).2.isSome = true ∧
        (b.Move).1.y = ((AREA_HEIGHT - b.radius : Int) : ℚ) ∧ (b.Move).1.v_y = b.v_y) ∨
      (goInt (b.y + b.v_y) ≤ b.radius ∧ b.v_y < 0 ∧ ¬ b.radius > AREA_HEIGHT - b.radius ∧
        (b.Move).2.isSome = false ∧
        (b.Move).1.y = (b.radius : ℚ) ∧ (b.Move).1.v_y = -b.v_y) ∨
      (¬ (goInt (b.y + b.v_y) ≤ b.radius ∧ b.v_y < 0) ∧
        goInt (b.y + b.v_y) > AREA_HEIGHT - b.radius ∧ 0 < b.v_y ∧
        (b.Move).2.isSome = true ∧
        (b.Move).1.y = ((AREA_HEIGHT - b.radius : Int) : ℚ) ∧ (b.Move).1.v_y = -b.v_y) ∨
      (¬ (goInt (b.y + b.v_y) ≤ b.radius ∧ b.v_y < 0) ∧
        goInt (b.y + b.v_y) > AREA_HEIGHT - b.radius ∧ ¬ 0 < b.v_y ∧
        (b.Move).2.isSome = true ∧
        (b.Move).1.y = b.y + b.v_y ∧ (b.Move).1.v_y = b.v_y) ∨
      (¬ (goInt (b.y + b.v_y) ≤ b.radius ∧ b.v_y < 0) ∧
        ¬ goInt (b.y + b.v_y) > AREA_HEIGHT - b.radius ∧
        (b.Move).2.isSome = false ∧
        (b.Move).1.y = b.y + b.v_y ∧ (b.Move).1.v_y = b.v_y) := by
  have hM : b.Move = b.advance.bounceLeft.bounceRight.bounceTop.bottom := rfl
  have a0 : b.advance.radius = b.radius := rfl
  have a2 : b.advance.y = b.y + b.v_y := rfl
  have a4 : b.advance.v_y = b.v_y := rfl
  obtain ⟨l0, l1, l2, -⟩ := bounceLeft_cases b.advance
  obtain ⟨r0, r1, r2, -⟩ := bounceRight_cases b.advance.bounceLeft
  obtain ⟨t0, -, -, hT⟩ := bounceTop_cases b.advance.bounceLeft.bounceRight
  obtain ⟨-, -, -, hB⟩ := bottom_cases b.advance.bounceLeft.bounceRight.bounceTop
  rw [hM]
  rw [t0, r0, l0, a0] at hB
  rw [r0, r1, r2, l0, l1, l2, a0, a2, a4] at hT
  rcases hT with ⟨ct1, ct2, ty, tv⟩ | ⟨ct, ty, tv⟩
  · rw [ty, tv, goInt_intCast] at hB
    rcases hB with ⟨cb1, e, cb2, by_, bv⟩ | ⟨cb1, e, cb2, by_, bv⟩ | ⟨cb1, e, by_, bv⟩
    · exact Or.inl ⟨ct1, ct2, cb1, e, by_, by rw [bv]; ring⟩
    · exact absurd (by linarith : (0 : ℚ) < -b.v_y) cb2
    · exact Or.inr (Or.inl ⟨ct1, ct2, cb1, e, by_, bv⟩)
  · rw [ty, tv] at hB
    rcases hB with ⟨cb1, e, cb2, by_, bv⟩ | ⟨cb1, e, cb2, by_, bv⟩ | ⟨cb1, e, by_, bv⟩
    · exact Or.inr (Or.inr (Or.inl ⟨ct, cb1, cb2, e, by_, bv⟩))
    · exact Or.inr (Or.inr (Or.inr (Or.inl ⟨ct, cb1, cb2, e, by_, bv⟩)))
    · exact Or.inr (Or.inr (Or.inr (Or.inr ⟨ct, cb1, e, by_, bv⟩)))

theorem succ_le_of_lt_goInt (z : ℚ) (n : Int) (hn : 0 ≤ n) (h : n < goInt z) :
    ((n + 1 : Int) : ℚ) ≤ z := by
  unfold goInt at h
  split_ifs at h with hz
  · exact Int.le_floor.mp (by omega)
  · exfalso
    have : ⌈z⌉ ≤ 0 := Int.ceil_le.mpr (by push_cast; linarith)
    omega

/-- The error of `Ball.Move` depends on the vertical state alone. -/
theorem Move_signal_iff (b : Ball) :
    (b.Move).2.isSome = true ↔
      (goInt (b.y + b.v_y) ≤ b.radius ∧ b.v_y < 0 ∧ b.radius > AREA_HEIGHT - b.radius) ∨
      (¬ (goInt (b.y + b.v_y) ≤ b.radius ∧ b.v_y < 0) ∧
        goInt (b.y + b.v_y) > AREA_HEIGHT - b.radius) := by
  rcases Move_y_cases b with ⟨c1, c2, c3, e, _⟩ | ⟨c1, c2, c3, e, _⟩ | ⟨c1, c2, _, e, _⟩ |
    ⟨c1, c2, _, e, _⟩ | ⟨c1, c2, e, _⟩
  · rw [e]; simp only [true_iff]; exact Or.inl ⟨c1, c2, c3⟩
  · rw [e]; simp only [Bool.false_eq_true, false_iff]
    rintro (⟨_, _, h⟩ | ⟨h, _⟩)
    · exact c3 h
    · exact h ⟨c1, c2⟩
  · rw [e]; simp only [true_iff]; exact Or.inr ⟨c1, c2⟩
  · rw [e]; simp only [true_iff]; exact Or.inr ⟨c1, c2⟩
  · rw [e]; simp only [Bool.false_eq_true, false_iff]
    rintro (⟨h1, h2, _⟩ | ⟨_, h⟩)
    · exact c1 ⟨h1, h2⟩
    · exact c2 h

/-- With exact truncation: for a ball whose diameter fits the arena
(`2 * radius < AREA_WIDTH`, `2 * radius < AREA_HEIGHT`), after `Ball.Move` the
ball is not heading into a wall it touches, and when the advanced position has
crossed the left, right or top boundary while moving toward it, the coordinate
is exactly `radius`, `AREA_WIDTH - radius`, `radius` and that velocity
component is negated. -/
theorem Move_walls (b : Ball)
    (hw : 2 * b.radius < AREA_WIDTH) (hh : 2 * b.radius < AREA_HEIGHT) :
    (goInt (b.Move).1.x ≤ (b.Move).1.radius → 0 ≤ (b.Move).1.v_x) ∧
    (goInt (b.Move).1.x ≥ AREA_WIDTH - (b.Move).1.radius → (b.Move).1.v_x ≤ 0) ∧
    (goInt (b.Move).1.y ≤ (b.Move).1.radius → 0 ≤ (b.Move).1.v_y) ∧
    (goInt (b.x + b.v_x) ≤ b.radius → b.v_x < 0 →
      (b.Move).1.x = (b.radius : ℚ) ∧ (b.Move).1.v_x = -b.v_x) ∧
    (goInt (b.x + b.v_x) ≥ AREA_WIDTH - b.radius → 0 < b.v_x →
      (b.Move).1.x = ((AREA_WIDTH - b.radius : Int) : ℚ) ∧ (b.Move).1.v_x = -b.v_x) ∧
    (goInt (b.y + b.v_y) ≤ b.radius → b.v_y < 0 →
      (b.Move).1.y = (b.radius : ℚ) ∧ (b.Move).1.v_y = -b.v_y) := by
  obtain ⟨hr, hX⟩ := Move_x_cases b
  have hY := Move_y_cases b
  rw [hr]
  refine ⟨?_, ?_, ?_, ?_, ?_, ?_⟩
  · rcases hX with ⟨_, _, c, _, _⟩ | ⟨_, c2, _, _, ev⟩ | ⟨_, _, _, ex, _⟩ | ⟨c1, _, ex, ev⟩
    · omega
    · intro _; rw [ev]; linarith
    · rw [ex, goInt_intCast]; intro h; omega
    · rw [ex, ev]; intro h
      by_contra hv
      exact c1 ⟨h, by linarith⟩
  · rcases hX with ⟨_, _, c, _, _⟩ | ⟨_, _, c, ex, _⟩ | ⟨_, _, c2, _, ev⟩ | ⟨_, c1, ex, ev⟩
    · omega
    · rw [ex, goInt_intCast]; intro h; omega
    · intro _; rw [ev]; linarith
    · rw [ex, ev]; intro h
      by_contra hv
      exact c1 ⟨h, by linarith⟩
  · rcases hY with ⟨_, _, c, _, _, _⟩ | ⟨_, c2, _, _, _, ev⟩ | ⟨_, _, _, _, ey, _⟩ |
      ⟨c1, _, _, _, ey, ev⟩ | ⟨c1, _, _, ey, ev⟩
    · omega
    · intro _; rw [ev]; linarith
    · rw [ey, goInt_intCast]; intro h; omega
    · rw [ey, ev]; intro h
      by_contra hv
      exact c1 ⟨h, by linarith⟩
    · rw [ey, ev]; intro h
      by_contra hv
      exact c1 ⟨h, by linarith⟩
  · intro h1 h2
    rcases hX with ⟨_, _, c, _, _⟩ | ⟨_, _, _, ex, ev⟩ | ⟨c1, _⟩ | ⟨c1, _⟩
    · omega
    · exact ⟨ex, ev⟩
    · exact absurd ⟨h1, h2⟩ c1
    · exact absurd ⟨h1, h2⟩ c1
  · intro h1 h2
    rcases hX with ⟨_, c, _⟩ | ⟨_, c, _⟩ | ⟨_, _, _, ex, ev⟩ | ⟨_, c1, _⟩
    · linarith
    · linarith
    · exact ⟨ex, ev⟩
    · exact absurd ⟨h1, h2⟩ c1
  · intro h1 h2
    rcases hY with ⟨_, _, c, _⟩ | ⟨_, _, _, _, ey, ev⟩ | ⟨c1, _⟩ | ⟨c1, _⟩ | ⟨c1, _⟩
    · omega
    · exact ⟨ey, ev⟩
    · exact absurd ⟨h1, h2⟩ c1
    · exact absurd ⟨h1, h2⟩ c1
    · exact absurd ⟨h1, h2⟩ c1

/-! ## Direction and constructors -/

/-- Over the rationals: `SetDir` stores the direction and sets
`vx = clamp (speed * cos) (-10) 10` and
`vy = clamp (speed * sin) (-BRICK_HEIGHT) BRICK_HEIGHT`, so `|vx| ≤ 10` and
`|vy| ≤ 7` afterwards; position, radius and speed are kept. -/
theorem SetDir_clamp (T : Trig) (b : Ball) (theta : ℚ) :
    (b.SetDir T theta).dir = theta ∧
    (b.SetDir T theta).v_x = max (-10) (min (b.speed * T.cos theta) 10) ∧
    (b.SetDir T theta).v_y =
      max (-(BRICK_HEIGHT : ℚ)) (min (b.speed * T.sin theta) (BRICK_HEIGHT : ℚ)) ∧
    |(b.SetDir T theta).v_x| ≤ 10 ∧ |(b.SetDir T theta).v_y| ≤ 7 ∧
    (b.SetDir T theta).x = b.x ∧ (b.SetDir T theta).y = b.y ∧
    (b.SetDir T theta).radius = b.radius ∧ (b.SetDir T theta).speed = b.speed := by
  have hB : ((BRICK_HEIGHT : Int) : ℚ) = 7 := by
    have : BRICK_HEIGHT = 7 := rfl
    rw [this]; norm_num
  have hx : (b.SetDir T theta).v_x = max (-10) (min (b.speed * T.cos theta) 10) := by
    unfold Ball.SetDir
    dsimp only
    split_ifs <;> dsimp only at * <;> simp only [max_def, min_def] <;> split_ifs <;>
      first | rfl | linarith
  have hy : (b.SetDir T theta).v_y =
      max (-(BRICK_HEIGHT : ℚ)) (min (b.speed * T.sin theta) (BRICK_HEIGHT : ℚ)) := by
    unfold Ball.SetDir
    dsimp only
    rw [hB]
    split_ifs <;> dsimp only at * <;> simp only [max_def, min_def] <;> split_ifs <;>
      first | rfl | linarith
  refine ⟨SetDir_dir T b theta, hx, hy, ?_, ?_, (SetDir_fields T b theta).1,
    (SetDir_fields T b theta).2.1, (SetDir_fields T b theta).2.2.1, (SetDir_fields T b theta).2.2.2⟩
  · rw [hx, abs_le]
    exact ⟨le_max_left _ _, max_le (by norm_num) (min_le_right _ _)⟩
  · rw [hy, hB, abs_le]
    exact ⟨le_max_left _ _, max_le (by norm_num) (min_le_right _ _)⟩

theorem NewBrick_row_col (row col : Int) :
    (NewBrick row col).row = row ∧ (NewBrick row col).col = col := by
  unfold NewBrick
  split_ifs <;> exact ⟨rfl, rfl⟩

theorem newBricks_slots :
    ∀ i : Nat, i < 8 → ∀ j : Nat, j < 14 →
      (newBricks[i]?).bind (fun row => row[j]?) = some (some (NewBrick (i : Int) (j : Int))) := by
  decide!

/-- C18: for every outcome of the random source, `NewBreakout` returns an
engine with score 0, level 1, live 1, gameOver false, a grid of 8 rows of 14
bricks whose slot `[i][j]` holds `NewBrick i j` (row `i`, column `j`,
uncleared), and a paddle of width 24 and height 4 with `x = 79`, so that
`x + width/2 = AREA_WIDTH/2`. -/
theorem C18_NewBreakout_fresh (T : Trig) (rx rd : Nat) :
    (NewBreakout T rx rd).score = 0 ∧ (NewBreakout T rx rd).level = 1 ∧
    (NewBreakout T rx rd).live = 1 ∧ (NewBreakout T rx rd).gameOver = false ∧
    (NewBreakout T rx rd).ball = NewBall T rx rd ∧
    (NewBreakout T rx rd).bricks.length = 8 ∧
    (∀ row ∈ (NewBreakout T rx rd).bricks, row.length = 14) ∧
    (∀ i : Nat, i < 8 → ∀ j : Nat, j < 14 →
      ((NewBreakout T rx rd).bricks[i]?).bind (fun row => row[j]?) =
        some (some (NewBrick (i : Int) (j : Int))) ∧
      (NewBrick (i : Int) (j : Int)).row = (i : Int) ∧
      (NewBrick (i : Int) (j : Int)).col = (j : Int) ∧
      (NewBrick (i : Int) (j : Int)).cleared = false) ∧
    (NewBreakout T rx rd).paddle.width = 24 ∧ (NewBreakout T rx rd).paddle.height = 4 ∧
    (NewBreakout T rx rd).paddle.x = 79 ∧
    (NewBreakout T rx rd).paddle.x + Int.tdiv (NewBreakout T rx rd).paddle.width 2 =
      Int.tdiv AREA_WIDTH 2 := by
  have hb : (NewBreakout T rx rd).bricks = newBricks := rfl
  have hp : (NewBreakout T rx rd).paddle = NewPaddle := rfl
  rw [hb, hp]
  refine ⟨rfl, rfl, rfl, rfl, rfl, newBricks_fresh.1, fun row h => (newBricks_fresh.2 row h).1,
    ?_, by decide, by decide, by decide, by decide⟩
  intro i hi j hj
  exact ⟨newBricks_slots i hi j hj, (NewBrick_row_col _ _).1, (NewBrick_row_col _ _).2,
    NewBrick_cleared _ _⟩

/-- C19: `NewBall` returns a ball with radius 2, speed 3, `y = 120` and
direction 45 or 135, but its `x` is the draw minus 3: it respects the right
margin for every draw below 182 and the left margin `radius ≤ x` only for
draws of at least 5; for the draw 0 the ball is at `x = -3`. -/
theorem C19_NewBall_placement (T : Trig) (rx rd : Nat) :
    (NewBall T rx rd).radius = 2 ∧ (NewBall T rx rd).speed = 3 ∧
    (NewBall T rx rd).y = (((Int.tdiv AREA_HEIGHT 2 : Int)) : ℚ) ∧ (NewBall T rx rd).y = 120 ∧
    ((NewBall T rx rd).dir = 45 ∨ (NewBall T rx rd).dir = 135) ∧
    (NewBall T rx rd).x = (rx : ℚ) - 3 ∧
    (rx < 182 → (NewBall T rx rd).x ≤ ((AREA_WIDTH - (NewBall T rx rd).radius : Int) : ℚ)) ∧
    ((((NewBall T rx rd).radius : Int) : ℚ) ≤ (NewBall T rx rd).x ↔ 5 ≤ rx) ∧
    (NewBall T 0 rd).x = -3 ∧
    ¬ ((((NewBall T 0 rd).radius : Int) : ℚ) ≤ (NewBall T 0 rd).x) := by
  obtain ⟨hx, hy, hr⟩ := NewBall_fields T rx rd
  obtain ⟨hx0, _, hr0⟩ := NewBall_fields T 0 rd
  have hA : AREA_WIDTH = 182 := rfl
  have hs : (NewBall T rx rd).speed = 3 := by
    unfold NewBall
    simp only
    split_ifs <;> exact (SetDir_fields _ _ _).2.2.2
  have hd : (NewBall T rx rd).dir = 45 ∨ (NewBall T rx rd).dir = 135 := by
    unfold NewBall
    simp only
    split_ifs
    · exact Or.inl (SetDir_dir _ _ _)
    · exact Or.inr (SetDir_dir _ _ _)
  have hy2 : ((Int.tdiv AREA_HEIGHT 2 : Int) : ℚ) = 120 := by
    have : Int.tdiv AREA_HEIGHT 2 = 120 := by decide
    rw [this]; norm_num
  have hxq : (NewBall T rx rd).x = (rx : ℚ) - 3 := by
    rw [hx]; push_cast; ring
  refine ⟨hr, hs, by rw [hy, hy2], hy, hd, hxq, ?_, ?_, ?_, ?_⟩
  · intro h
    have hq : (rx : ℚ) < 182 := by exact_mod_cast h
    rw [hxq, hr, hA]
    push_cast
    linarith
  · rw [hxq, hr]
    constructor
    · intro h
      have : (5 : ℚ) ≤ (rx : ℚ) := by push_cast at h; linarith
      exact_mod_cast this
    · intro h
      have : (5 : ℚ) ≤ (rx : ℚ) := by exact_mod_cast h
      push_cast
      linarith
  · rw [hx0]; norm_num
  · rw [hx0, hr0]; norm_num

/-! ## Snapshot -/

theorem stateCell_at (b : Breakout) (i : Nat) (pre suf : List (Option Brick)) (c : Option Brick)
    (hrow : b.bricks[i]? = some (pre ++ c :: suf)) (acc : List BrickState) :
    b.stateCell i pre.length acc = some (acc ++ (activeRecord c).toList) := by
  have hc : (pre ++ c :: suf)[pre.length]? = some c := by
    rw [List.getElem?_append_right (le_refl _)]
    simp
  unfold Breakout.stateCell
  rw [hrow]
  simp only [hc]
  cases c with
  | none => simp [activeRecord]
  | some br =>
    cases hcl : br.cleared <;> simp [activeRecord, Brick.IsCleared, hcl]

theorem stateRow_from (b : Breakout) (i : Nat) (suf : List (Option Brick)) :
    ∀ (pre : List (Option Brick)) (acc : List BrickState),
      b.bricks[i]? = some (pre ++ suf) →
      (List.range' pre.length suf.length).foldlM (fun acc j => b.stateCell i j acc) acc =
        some (acc ++ suf.filterMap activeRecord) := by
  induction suf with
  | nil => intro pre acc _; simp
  | cons c cs ih =>
    intro pre acc hrow
    rw [List.length_cons, List.range'_succ, List.foldlM_cons, stateCell_at b i pre cs c hrow acc]
    have h2 : b.bricks[i]? = some ((pre ++ [c]) ++ cs) := by
      rw [hrow]; simp
    have := ih (pre ++ [c]) (acc ++ (activeRecord c).toList) h2
    rw [List.length_append, List.length_singleton] at this
    simp only [Option.bind_eq_bind, Option.some_bind]
    rw [this]
    cases hA : activeRecord c <;> simp [List.filterMap_cons, hA]

theorem stateRow_full (b : Breakout) (i : Nat) (row : List (Option Brick))
    (hrow : b.bricks[i]? = some row) (hlen : row.length = BRICKS_PER_ROW.toNat)
    (acc : List BrickState) :
    (List.range BRICKS_PER_ROW.toNat).foldlM (fun acc j => b.stateCell i j acc) acc =
      some (acc ++ row.filterMap activeRecord) := by
  rw [List.range_eq_range', ← hlen]
  exact stateRow_from b i row [] acc (by simpa using hrow)

theorem stateGrid_from (b : Breakout) (suf : List (List (Option Brick))) :
    ∀ (pre : List (List (Option Brick))) (acc : List BrickState),
      b.bricks = pre ++ suf → (∀ row ∈ suf, row.length = BRICKS_PER_ROW.toNat) →
      (List.range' pre.length suf.length).foldlM
          (fun acc i =>
            (List.range BRICKS_PER_ROW.toNat).foldlM (fun acc j => b.stateCell i j acc) acc)
          acc =
        some (acc ++ activeRecords suf) := by
  induction suf with
  | nil => intro pre acc _ _; simp [activeRecords]
  | cons row rows ih =>
    intro pre acc hb hlen
    have hrow : b.bricks[pre.length]? = some row := by
      rw [hb, List.getElem?_append_right (le_refl _)]
      simp
    rw [List.length_cons, List.range'_succ, List.foldlM_cons,
      stateRow_full b pre.length row hrow (hlen row (List.mem_cons_self _ _)) acc]
    have h2 : b.bricks = (pre ++ [row]) ++ rows := by rw [hb]; simp
    have := ih (pre ++ [row]) (acc ++ row.filterMap activeRecord) h2
      (fun r hr => hlen r (List.mem_cons_of_mem _ hr))
    rw [List.length_append, List.length_singleton] at this
    simp only [Option.bind_eq_bind, Option.some_bind]
    rw [this]
    simp [activeRecords, List.filterMap_append]

theorem stateBricks_of_shape (b : Breakout) (hs : gridShape b.bricks = true) :
    b.stateBricks = some (activeRecords b.bricks) := by
  unfold gridShape at hs
  rw [Bool.and_eq_true] at hs
  obtain ⟨h1, h2⟩ := hs
  have hlen : b.bricks.length = BRICK_ROWS.toNat := beq_iff_eq.mp h1
  have hrows : ∀ row ∈ b.bricks, row.length = BRICKS_PER_ROW.toNat := by
    intro row hr
    exact beq_iff_eq.mp (List.all_eq_true.mp h2 row hr)
  have hR : List.range BRICK_ROWS.toNat = List.range' 0 b.bricks.length := by
    rw [hlen, List.range_eq_range']
  unfold Breakout.stateBricks
  rw [hR]
  have := stateGrid_from b b.bricks [] [] (by simp) hrows
  simpa using this

theorem length_activeRow (row : List (Option Brick)) (h : row.all Option.isSome = true) :
    ((row.filterMap activeRecord).length : Int) = (row.length : Int) - clearedInRow row := by
  induction row with
  | nil => simp [clearedInRow]
  | cons c cs ih =>
    rw [List.all_cons, Bool.and_eq_true] at h
    obtain ⟨hc, hcs⟩ := h
    have ih2 := ih hcs
    cases c with
    | none => simp at hc
    | some br =>
      cases hcl : br.cleared
      · simp only [List.filterMap_cons, activeRecord, hcl, if_true, List.length_cons,
          clearedInRow, Bool.false_eq_true, if_false]
        push_cast
        omega
      · simp only [List.filterMap_cons, activeRecord, hcl, Bool.true_eq_false, if_false,
          List.length_cons, clearedInRow, if_true]
        push_cast
        omega

theorem length_activeRecords (g : List (List (Option Brick))) (h : noNil g = true) :
    ((activeRecords g).length : Int) = (g.flatten.length : Int) - clearedInGrid g := by
  induction g with
  | nil => simp [activeRecords, clearedInGrid]
  | cons row rows ih =>
    unfold noNil at h
    rw [List.all_cons, Bool.and_eq_true] at h
    obtain ⟨hr, hrs⟩ := h
    have ih2 := ih hrs
    have h1 := length_activeRow row hr
    unfold activeRecords at ih2 ⊢
    simp only [List.flatten_cons, List.filterMap_append, List.length_append, clearedInGrid]
    push_cast
    omega

theorem length_flatten_of_shape (g : List (List (Option Brick))) (hs : gridShape g = true) :
    g.flatten.length = 112 := by
  unfold gridShape at hs
  rw [Bool.and_eq_true] at hs
  obtain ⟨h1, h2⟩ := hs
  have hlen : g.length = 8 := beq_iff_eq.mp h1
  have hrows : ∀ row ∈ g, row.length = 14 := by
    intro row hr
    exact beq_iff_eq.mp (List.all_eq_true.mp h2 row hr)
  have key : ∀ l : List (List (Option Brick)), (∀ row ∈ l, row.length = 14) →
      l.flatten.length = 14 * l.length := by
    intro l
    induction l with
    | nil => intro _; rfl
    | cons r rs ih =>
      intro hl
      rw [List.flatten_cons, List.length_append, List.length_cons,
        hl r (List.mem_cons_self _ _), ih (fun x hx => hl x (List.mem_cons_of_mem _ hx))]
      ring
  rw [key g hrows, hlen]

theorem mem_activeRecords (g : List (List (Option Brick))) (r : BrickState)
    (h : r ∈ activeRecords g) :
    ∃ row ∈ g, ∃ br, some br ∈ row ∧ br.cleared = false ∧ r = br.GetState := by
  unfold activeRecords at h
  rw [List.mem_filterMap] at h
  obtain ⟨c, hc, hr⟩ := h
  rw [List.mem_flatten] at hc
  obtain ⟨row, hrow, hcrow⟩ := hc
  cases c with
  | none => simp [activeRecord] at hr
  | some br =>
    cases hcl : br.cleared
    · simp only [activeRecord, hcl, if_true, Option.some.injEq] at hr
      exact ⟨row, hrow, br, hcrow, hcl, hr.symm⟩
    · simp [activeRecord, hcl] at hr

theorem GetState_of_shape (b : Breakout) (hs : gridShape b.bricks = true) :
    b.GetState =
      some { BallX := b.ball.GetX, BallY := b.ball.GetY, BallRadius := b.ball.GetRadius,
             Width := AREA_WIDTH, Height := AREA_HEIGHT, PaddleX := b.paddle.GetX,
             PaddleWidth := b.paddle.GetWidth, PaddleHeight := b.paddle.GetHeight,
             Bricks := activeRecords b.bricks, Level := b.level, Score := b.score,
             Live := b.live, FrameReward := b.frameReward, Done := b.gameOver } := by
  unfold Breakout.GetState
  simp only [stateBricks_of_shape b hs]

/-! ## The paddle test -/

theorem CheckPaddleColision_iff (T : Trig) (pa : Paddle) (bl : Ball) :
    (Breakout.CheckPaddleColision T pa bl).1 = true ↔
      (bl.GetY + bl.radius ≥ AREA_HEIGHT - pa.height ∧
        bl.GetY < AREA_HEIGHT - pa.height + pa.height) ∧
      ((pa.x ≤ bl.GetX + bl.radius ∧ bl.GetX + bl.radius ≤ pa.x + pa.width) ∨
        (pa.x ≤ bl.GetX - bl.radius ∧ bl.GetX - bl.radius ≤ pa.x + pa.width)) := by
  unfold Breakout.CheckPaddleColision
  simp only [Paddle.GetX, Paddle.GetWidth, Paddle.GetHeight, Ball.GetRadius]
  split_ifs <;> simp_all

theorem CheckPaddleColision_eq (T : Trig) (pa : Paddle) (bl : Ball) :
    ((Breakout.CheckPaddleColision T pa bl).1 = true →
      (Breakout.CheckPaddleColision T pa bl).2 =
        bl.SetDir T (270 + ((bl.GetX - (pa.x + Int.tdiv pa.width 2) : Int) : ℚ) /
          ((Int.tdiv pa.width 2 : Int) : ℚ) * 60 + 1)) ∧
    ((Breakout.CheckPaddleColision T pa bl).1 = false →
      (Breakout.CheckPaddleColision T pa bl).2 = bl) := by
  unfold Breakout.CheckPaddleColision
  simp only [Paddle.GetX, Paddle.GetWidth, Paddle.GetHeight, Ball.GetRadius]
  split_ifs <;> simp_all

/-- C21: `CheckPaddleColision` reports contact exactly when the reference
overlap test holds; on contact the ball is the old one with its direction set
to `270 + 60*(bx - (px + w/2))/(w/2) + 1`; without contact the ball is
unchanged; and a ball of radius 2 at the centre of a paddle of width 24 or 12
and height 4, one pixel above it, is reported at every paddle position and gets
direction 271. -/
theorem C21_CheckPaddleColision_reference (T : Trig) (pa : Paddle) (bl : Ball) :
    ((Breakout.CheckPaddleColision T pa bl).1 = true ↔
      (bl.GetY + bl.radius ≥ AREA_HEIGHT - pa.height ∧
        bl.GetY < AREA_HEIGHT - pa.height + pa.height) ∧
      ((pa.x ≤ bl.GetX + bl.radius ∧ bl.GetX + bl.radius ≤ pa.x + pa.width) ∨
        (pa.x ≤ bl.GetX - bl.radius ∧ bl.GetX - bl.radius ≤ pa.x + pa.width))) ∧
    ((Breakout.CheckPaddleColision T pa bl).1 = true →
      (Breakout.CheckPaddleColision T pa bl).2 =
        bl.SetDir T (270 + 60 * ((bl.GetX - (pa.x + Int.tdiv pa.width 2) : Int) : ℚ) /
          ((Int.tdiv pa.width 2 : Int) : ℚ) + 1) ∧
      (Breakout.CheckPaddleColision T pa bl).2.dir =
        270 + 60 * ((bl.GetX - (pa.x + Int.tdiv pa.width 2) : Int) : ℚ) /
          ((Int.tdiv pa.width 2 : Int) : ℚ) + 1) ∧
    ((Breakout.CheckPaddleColision T pa bl).1 = false →
      (Breakout.CheckPaddleColision T pa bl).2 = bl) ∧
    ((pa.width = 24 ∨ pa.width = 12) → pa.height = 4 → bl.radius = 2 →
      bl.GetX = pa.x + Int.tdiv pa.width 2 → bl.GetY = AREA_HEIGHT - pa.height - 1 →
      (Breakout.CheckPaddleColision T pa bl).1 = true ∧
      (Breakout.CheckPaddleColision T pa bl).2.dir = 271) := by
  have hform : ∀ a c : ℚ, 270 + 60 * a / c + 1 = 270 + a / c * 60 + 1 := by
    intro a c; ring
  refine ⟨CheckPaddleColision_iff T pa bl, ?_, (CheckPaddleColision_eq T pa bl).2, ?_⟩
  · intro hc
    rw [hform, (CheckPaddleColision_eq T pa bl).1 hc]
    exact ⟨rfl, SetDir_dir _ _ _⟩
  · intro hw hh hr hx hy
    have hc : (Breakout.CheckPaddleColision T pa bl).1 = true := by
      rw [CheckPaddleColision_iff, hx, hy, hr, hh]
      have h24 : Int.tdiv 24 2 = 12 := by decide
      have h12 : Int.tdiv 12 2 = 6 := by decide
      have hA : AREA_HEIGHT = 240 := rfl
      rcases hw with hw | hw <;> rw [hw] <;> simp only [h24, h12, hA] <;> omega
    refine ⟨hc, ?_⟩
    rw [(CheckPaddleColision_hit T pa bl hc).2, hx]
    simp
    norm_num

theorem C21_CheckPaddleColision_reference_witness :
    (Breakout.CheckPaddleColision sampleTrig NewPaddle centreBall).1 = true ∧
    (Breakout.CheckPaddleColision sampleTrig NewPaddle centreBall).2.dir = 271 :=
  (C21_CheckPaddleColision_reference sampleTrig NewPaddle centreBall).2.2.2
    (Or.inl rfl) rfl rfl (by decide!) (by decide!)

/-- C23: `Shrink` sets the width to 12 exactly when it exceeds 12 and
`UnShrink` sets it to 24 exactly when it is below 24; both keep `x` and
`height`, both are idempotent, and on a paddle of width 24 (the default one)
`Shrink` gives width 12 and `UnShrink` after it restores the paddle. -/
theorem C23_shrink_unshrink (p : Paddle) :
    p.Shrink.width = (if p.width > 12 then 12 else p.width) ∧
    p.UnShrink.width = (if p.width < 24 then 24 else p.width) ∧
    p.Shrink.x = p.x ∧ p.Shrink.height = p.height ∧
    p.UnShrink.x = p.x ∧ p.UnShrink.height = p.height ∧
    p.Shrink.Shrink = p.Shrink ∧ p.UnShrink.UnShrink = p.UnShrink ∧
    (p.width = 24 → p.Shrink.width = 12 ∧ p.Shrink.UnShrink = p) ∧
    NewPaddle.Shrink.width = 12 ∧ NewPaddle.Shrink.UnShrink.width = 24 := by
  refine ⟨?_, ?_, ?_, ?_, ?_, ?_, ?_, ?_, ?_, by decide, by decide⟩
  · unfold Paddle.Shrink; split_ifs <;> rfl
  · unfold Paddle.UnShrink; split_ifs <;> rfl
  · unfold Paddle.Shrink; split_ifs <;> rfl
  · unfold Paddle.Shrink; split_ifs <;> rfl
  · unfold Paddle.UnShrink; split_ifs <;> rfl
  · unfold Paddle.UnShrink; split_ifs <;> rfl
  · by_cases h : p.width > 12
    · simp [Paddle.Shrink, h]
    · simp [Paddle.Shrink, h]
  · by_cases h : p.width < 24
    · simp [Paddle.UnShrink, h]
    · simp [Paddle.UnShrink, h]
  · intro hw
    cases p with
    | mk x w h =>
      simp only at hw
      subst hw
      simp [Paddle.Shrink, Paddle.UnShrink]

/-! ## Reward of a tick -/

theorem CheckColision_congr (b b2 : Breakout) (h : b2.ball = b.ball) (br : Brick) (bl : Ball) :
    b2.CheckColision br bl = b.CheckColision br bl := by
  unfold Breakout.CheckColision
  rw [h]

theorem scanCell_congr (b b2 : Breakout) (h : b2.ball = b.ball) (hl : b2.level = b.level)
    (s : Scan) (c : Option Brick) : b2.scanCell s c = b.scanCell s c := by
  cases c with
  | none => rfl
  | some br =>
    unfold Breakout.scanCell
    simp only [CheckColision_congr b b2 h, h, hl]

theorem scanRow_congr (b b2 : Breakout) (h : b2.ball = b.ball) (hl : b2.level = b.level)
    (row : List (Option Brick)) : ∀ s : Scan, b2.scanRow s row = b.scanRow s row := by
  induction row with
  | nil => intro s; rfl
  | cons c cs ih =>
    intro s
    simp only [Breakout.scanRow, scanCell_congr b b2 h hl, ih]

theorem scanGrid_congr (b b2 : Breakout) (h : b2.ball = b.ball) (hl : b2.level = b.level)
    (g : List (List (Option Brick))) : ∀ s : Scan, b2.scanGrid s g = b.scanGrid s g := by
  induction g with
  | nil => intro s; rfl
  | cons row rows ih =>
    intro s
    simp only [Breakout.scanGrid, scanRow_congr b b2 h hl, ih]

theorem applyReversal_ball_eq (b : Breakout) (xrev yrev : Bool) :
    (b.applyReversal xrev yrev).ball =
      if yrev = true then
        (if xrev = true then b.ball.ReverseVX else b.ball).ReverseVY
      else (if xrev = true then b.ball.ReverseVX else b.ball) := by
  cases xrev <;> cases yrev <;> rfl

/-- The ball and paddle handed to the paddle test depend on the ball, the
level, the grid, the score and the paddle of the engine only. -/
theorem beforePaddle_congr (b b2 : Breakout) (hb : b2.ball = b.ball) (hl : b2.level = b.level)
    (hg : b2.bricks = b.bricks) (hs : b2.score = b.score) (hp : b2.paddle = b.paddle) :
    b2.beforePaddle.ball = b.beforePaddle.ball ∧
    b2.beforePaddle.paddle = b.beforePaddle.paddle := by
  have h1 : b2.afterMove.ball = b.afterMove.ball := by
    show (b2.ball.Move).1 = (b.ball.Move).1
    rw [hb]
  have h2 : b2.afterMove.scanBricks.2 = b.afterMove.scanBricks.2 := by
    show (b2.afterMove.scanGrid _ b2.bricks).1 = (b.afterMove.scanGrid _ b.bricks).1
    rw [scanGrid_congr b.afterMove b2.afterMove h1 hl, hg]
    show (b.afterMove.scanGrid { cleared := 0, xrev := false, yrev := false, score := b2.score } _).1 = _
    rw [hs]
    rfl
  have h3 : b2.afterMove.scanBricks.1.ball = b.afterMove.scanBricks.1.ball := h1
  refine ⟨?_, ?_⟩
  · unfold Breakout.beforePaddle
    rw [applyReversal_ball_eq, applyReversal_ball_eq, h2, h3]
  · unfold Breakout.beforePaddle
    rw [(applyReversal_fields _ _ _).2.2.2.2.1, (applyReversal_fields _ _ _).2.2.2.2.1]
    exact hp

theorem MoveBall_ok_frameReward (T : Trig) (rx rd : Nat) (b : Breakout)
    (hg : b.gameOver = false) (ho : (b.ball.Move).2 = none) :
    (b.MoveBall T rx rd).frameReward =
      if (Breakout.CheckPaddleColision T b.beforePaddle.paddle b.beforePaddle.ball).1 = true
      then 10 else 0 := by
  rw [MoveBall_of_ok T rx rd b hg ho, (levelCheck_fields _ _ _ _ _).2.2.2.1]
  show (b.beforePaddle.paddleContact T).frameReward = _
  unfold Breakout.paddleContact
  by_cases h : (Breakout.CheckPaddleColision T b.beforePaddle.paddle b.beforePaddle.ball).1 = true
  · simp [h]
  · simp [h]

/-- C22: after a `MoveBall` call on a running game whose ball stays in
bounds, `frameReward` is 10 when the paddle test of that tick (on the ball
after the brick reversals) reports contact and 0 otherwise; the same holds
whatever reward the engine carried before the call, and whether or not the
tick cleared a brick. -/
theorem C22_frame_reward (T : Trig) (rx rd : Nat) (b : Breakout)
    (hg : b.gameOver = false) (ho : (b.ball.Move).2 = none) :
    (b.MoveBall T rx rd).frameReward =
      (if (Breakout.CheckPaddleColision T b.beforePaddle.paddle b.beforePaddle.ball).1 = true
       then 10 else 0) ∧
    ∀ k : Int, ({ b with frameReward := k }.MoveBall T rx rd).frameReward =
      (b.MoveBall T rx rd).frameReward := by
  refine ⟨MoveBall_ok_frameReward T rx rd b hg ho, ?_⟩
  intro k
  obtain ⟨h1, h2⟩ := beforePaddle_congr b { b with frameReward := k } rfl rfl rfl rfl rfl
  rw [MoveBall_ok_frameReward T rx rd b hg ho,
    MoveBall_ok_frameReward T rx rd { b with frameReward := k } hg ho, h1, h2]

theorem C22_frame_reward_witness :
    (paddleTick.MoveBall sampleTrig 0 0).frameReward = 10 ∧
    (hitState.MoveBall sampleTrig 0 0).frameReward = 0 ∧
    clearedInGrid (hitState.MoveBall sampleTrig 0 0).bricks = 1 ∧
    ((paddleTick.MoveBall sampleTrig 0 0).frameReward =
      (if (Breakout.CheckPaddleColision sampleTrig paddleTick.beforePaddle.paddle
            paddleTick.beforePaddle.ball).1 = true then 10 else 0) ∧
     ∀ k : Int, ({ paddleTick with frameReward := k }.MoveBall sampleTrig 0 0).frameReward =
      (paddleTick.MoveBall sampleTrig 0 0).frameReward) :=
  ⟨by decide!, by decide!, by decide!,
    C22_frame_reward sampleTrig 0 0 paddleTick (by decide!) (by decide!)⟩

/-! ## Direction after a paddle hit -/

theorem bhaskaraSin_neg (d : ℚ) (h1 : 180 < d) (h2 : d < 360) : bhaskaraSin d < 0 := by
  have hf : ⌊d / 360⌋ = 0 := by
    rw [Int.floor_eq_zero_iff]
    constructor
    · apply div_nonneg <;> linarith
    · rw [div_lt_one (by norm_num)]; exact h2
  unfold bhaskaraSin
  simp only [hf, Int.cast_zero, mul_zero, sub_zero]
  rw [if_neg (by linarith)]
  have hp : 0 < (d - 180) * (360 - d) := mul_pos (by linarith) (by linarith)
  have hq : (d - 180) * (360 - d) ≤ 8100 := by nlinarith [sq_nonneg (d - 270)]
  have hden : 0 < 40500 - (d - 180) * (360 - d) := by linarith
  have : 0 < 4 * (d - 180) * (360 - d) / (40500 - (d - 180) * (360 - d)) := by
    apply div_pos _ hden
    linarith
  linarith

/-- C30: for an oracle whose sine is negative on (180, 360) degrees (as the
real sine is), a ball of radius 2 and positive speed and a paddle of width 24
or 12 at any position: whenever `CheckPaddleColision` reports contact, the
direction it sets lies strictly between 180 and 360, within [201, 341] for
width 24 and [191, 351] for width 12, `speed * sin dir` is negative and so
is the resulting `v_y`. -/
theorem C30_paddle_hit_upward (T : Trig) (pa : Paddle) (bl : Ball)
    (hsin : ∀ d : ℚ, 180 < d → d < 360 → T.sin d < 0) (hs : 0 < bl.speed)
    (hw : pa.width = 24 ∨ pa.width = 12) (hr : bl.radius = 2)
    (hc : (Breakout.CheckPaddleColision T pa bl).1 = true) :
    180 < (Breakout.CheckPaddleColision T pa bl).2.dir ∧
    (Breakout.CheckPaddleColision T pa bl).2.dir < 360 ∧
    (pa.width = 24 → 201 ≤ (Breakout.CheckPaddleColision T pa bl).2.dir ∧
      (Breakout.CheckPaddleColision T pa bl).2.dir ≤ 341) ∧
    (pa.width = 12 → 191 ≤ (Breakout.CheckPaddleColision T pa bl).2.dir ∧
      (Breakout.CheckPaddleColision T pa bl).2.dir ≤ 351) ∧
    bl.speed * T.sin (Breakout.CheckPaddleColision T pa bl).2.dir < 0 ∧
    (Breakout.CheckPaddleColision T pa bl).2.v_y < 0 := by
  obtain ⟨hx, hd⟩ := CheckPaddleColision_hit T pa bl hc
  have h24 : Int.tdiv 24 2 = 12 := by decide
  have h12 : Int.tdiv 12 2 = 6 := by decide
  have hA : pa.width = 24 → 201 ≤ (Breakout.CheckPaddleColision T pa bl).2.dir ∧
      (Breakout.CheckPaddleColision T pa bl).2.dir ≤ 341 := by
    intro hw
    rw [hd, hw, h24]
    rw [hw, hr] at hx
    have h1 : (-14 : ℚ) ≤ ((bl.GetX - (pa.x + 12) : Int) : ℚ) := by
      have : (-14 : Int) ≤ bl.GetX - (pa.x + 12) := by omega
      exact_mod_cast this
    have h2 : ((bl.GetX - (pa.x + 12) : Int) : ℚ) ≤ 14 := by
      have : bl.GetX - (pa.x + 12) ≤ (14 : Int) := by omega
      exact_mod_cast this
    push_cast at h1 h2 ⊢
    constructor <;> linarith
  have hB : pa.width = 12 → 191 ≤ (Breakout.CheckPaddleColision T pa bl).2.dir ∧
      (Breakout.CheckPaddleColision T pa bl).2.dir ≤ 351 := by
    intro hw
    rw [hd, hw, h12]
    rw [hw, hr] at hx
    have h1 : (-8 : ℚ) ≤ ((bl.GetX - (pa.x + 6) : Int) : ℚ) := by
      have : (-8 : Int) ≤ bl.GetX - (pa.x + 6) := by omega
      exact_mod_cast this
    have h2 : ((bl.GetX - (pa.x + 6) : Int) : ℚ) ≤ 8 := by
      have : bl.GetX - (pa.x + 6) ≤ (8 : Int) := by omega
      exact_mod_cast this
    push_cast at h1 h2 ⊢
    constructor <;> linarith
  have hlo : 180 < (Breakout.CheckPaddleColision T pa bl).2.dir := by
    rcases hw with hw | hw
    · linarith [(hA hw).1]
    · linarith [(hB hw).1]
  have hhi : (Breakout.CheckPaddleColision T pa bl).2.dir < 360 := by
    rcases hw with hw | hw
    · linarith [(hA hw).2]
    · linarith [(hB hw).2]
  have hneg : bl.speed * T.sin (Breakout.CheckPaddleColision T pa bl).2.dir < 0 :=
    mul_neg_of_pos_of_neg hs (hsin _ hlo hhi)
  refine ⟨hlo, hhi, hA, hB, hneg, ?_⟩
  have he := (CheckPaddleColision_eq T pa bl).1 hc
  have hdir : (Breakout.CheckPaddleColision T pa bl).2.dir =
      270 + ((bl.GetX - (pa.x + Int.tdiv pa.width 2) : Int) : ℚ) /
          ((Int.tdiv pa.width 2 : Int) : ℚ) * 60 + 1 := hd
  rw [hdir] at hneg
  rw [he]
  generalize 270 + ((bl.GetX - (pa.x + Int.tdiv pa.width 2) : Int) : ℚ) /
          ((Int.tdiv pa.width 2 : Int) : ℚ) * 60 + 1 = d at hneg
  have hB7 : ((BRICK_HEIGHT : Int) : ℚ) = 7 := by
    have : BRICK_HEIGHT = 7 := rfl
    rw [this]; norm_num
  unfold Ball.SetDir
  dsimp only
  rw [hB7]
  split_ifs <;> dsimp only at * <;> linarith

theorem C30_paddle_hit_upward_witness :
    (Breakout.CheckPaddleColision sampleTrig NewPaddle edgeBall).1 = true ∧
    (Breakout.CheckPaddleColision sampleTrig NewPaddle edgeBall).2.dir = 201 ∧
    (Breakout.CheckPaddleColision sampleTrig NewPaddle edgeBall).2.v_y < 0 :=
  ⟨by decide!, by decide!,
    (C30_paddle_hit_upward sampleTrig NewPaddle edgeBall bhaskaraSin_neg (by decide!)
      (Or.inl rfl) (by decide!) (by decide!)).2.2.2.2.2⟩

/-! ## The brick test -/

/-- Value of a flag of `CheckColision` after its two side tests, as a
proposition: `P` and `Q` are the two side conditions, `V` and `W` the two
overlap conditions of the other axis, `A` and `B` the two velocity tests. -/
theorem flag_iff (P Q V W A B : Prop) [Decidable P] [Decidable Q] [Decidable V] [Decidable W]
    [Decidable A] [Decidable B] :
    (if Q then
        (if W then (if B then true
          else (if V then (if B then true
            else (if P then (if W then (if A then true else (if V then (if A then true else false) else false))
              else (if V then (if A then true else false) else false)) else false))
          else (if P then (if W then (if A then true else (if V then (if A then true else false) else false))
              else (if V then (if A then true else false) else false)) else false)))
        else (if V then (if B then true
            else (if P then (if W then (if A then true else (if V then (if A then true else false) else false))
              else (if V then (if A then true else false) else false)) else false))
          else (if P then (if W then (if A then true else (if V then (if A then true else false) else false))
              else (if V then (if A then true else false) else false)) else false)))
      else (if P then (if W then (if A then true else (if V then (if A then true else false) else false))
              else (if V then (if A then true else false) else false)) else false)) = true ↔
      (V ∨ W) ∧ ((P ∧ A) ∨ (Q ∧ B)) := by
  by_cases hP : P <;> by_cases hQ : Q <;> by_cases hV : V <;> by_cases hW : W <;>
    by_cases hA : A <;> by_cases hB : B <;> simp [hP, hQ, hV, hW, hA, hB]

theorem CheckColision_x_iff (b : Breakout) (br : Brick) (bl : Ball) :
    (b.CheckColision br bl).1 = true ↔
      br.cleared = false ∧
      ((bl.GetY + bl.radius > br.y ∧ bl.GetY + bl.radius ≤ br.y + br.height) ∨
        (bl.GetY - bl.radius > br.y ∧ bl.GetY - bl.radius ≤ br.y + br.height)) ∧
      (((bl.GetX + bl.radius > br.x ∧ bl.GetX - bl.radius ≤ br.x) ∧ b.ball.v_x > 0) ∨
        ((bl.GetX - bl.radius < br.x + br.width ∧ bl.GetX + bl.radius ≥ br.x + br.width) ∧
          b.ball.v_x < 0)) := by
  unfold Breakout.CheckColision
  simp only [Brick.IsCleared, Brick.GetX, Brick.GetY, Brick.GetWidth, Brick.GetHeight,
    Ball.GetRadius]
  cases hc : br.cleared
  · simp only [Bool.false_eq_true, if_false, true_and]
    exact flag_iff _ _ _ _ _ _
  · simp

theorem CheckColision_y_iff (b : Breakout) (br : Brick) (bl : Ball) :
    (b.CheckColision br bl).2 = true ↔
      br.cleared = false ∧
      ((bl.GetX + bl.radius > br.x ∧ bl.GetX + bl.radius ≤ br.x + br.width) ∨
        (bl.GetX - bl.radius > br.x ∧ bl.GetX - bl.radius ≤ br.x + br.width)) ∧
      (((bl.GetY + bl.radius > br.y ∧ bl.GetY - bl.radius ≤ br.y) ∧ b.ball.v_y > 0) ∨
        ((bl.GetY - bl.radius < br.y + br.height ∧ bl.GetY + bl.radius ≥ br.y + br.height) ∧
          b.ball.v_y < 0)) := by
  unfold Breakout.CheckColision
  simp only [Brick.IsCleared, Brick.GetX, Brick.GetY, Brick.GetWidth, Brick.GetHeight,
    Ball.GetRadius]
  cases hc : br.cleared
  · simp only [Bool.false_eq_true, if_false, true_and]
    exact flag_iff _ _ _ _ _ _
  · simp

/-- The flags depend on the brick's flag and rectangle, the truncated position
and radius of the ball passed in, and the velocity of the engine's ball. -/
theorem CheckColision_reads (b b2 : Breakout) (br br2 : Brick) (bl bl2 : Ball)
    (hvx : b2.ball.v_x = b.ball.v_x) (hvy : b2.ball.v_y = b.ball.v_y)
    (hc : br2.cleared = br.cleared) (hx : br2.x = br.x) (hy : br2.y = br.y)
    (hw : br2.width = br.width) (hh : br2.height = br.height)
    (hbx : bl2.GetX = bl.GetX) (hby : bl2.GetY = bl.GetY) (hr : bl2.radius = bl.radius) :
    b2.CheckColision br2 bl2 = b.CheckColision br bl := by
  have h1 : ∀ p q : Bool × Bool, (p.1 = true ↔ q.1 = true) → (p.2 = true ↔ q.2 = true) → p = q := by
    rintro ⟨p1, p2⟩ ⟨q1, q2⟩ h1 h2
    simp only at h1 h2
    cases p1 <;> cases q1 <;> cases p2 <;> cases q2 <;> simp_all
  apply h1
  · rw [CheckColision_x_iff, CheckColision_x_iff, hvx, hc, hx, hy, hw, hh, hbx, hby, hr]
  · rw [CheckColision_y_iff, CheckColision_y_iff, hvy, hc, hx, hy, hw, hh, hbx, hby, hr]

/-- C29: for a brick rectangle (width and height not negative), whenever
`CheckColision` raises a flag, the bounding square of the ball around its
truncated centre shares a point with the closed rectangle of the brick; a
raised x flag needs `v_x ≠ 0` and a raised y flag needs `v_y ≠ 0`. -/
theorem C29_no_phantom_hits (b : Breakout) (br : Brick) (bl : Ball)
    (hw : 0 ≤ br.width) (hh : 0 ≤ br.height) :
    (((b.CheckColision br bl).1 = true ∨ (b.CheckColision br bl).2 = true) →
      ∃ px py : Int,
        (bl.GetX - bl.radius ≤ px ∧ px ≤ bl.GetX + bl.radius) ∧
        (bl.GetY - bl.radius ≤ py ∧ py ≤ bl.GetY + bl.radius) ∧
        (br.x ≤ px ∧ px ≤ br.x + br.width) ∧ (br.y ≤ py ∧ py ≤ br.y + br.height)) ∧
    ((b.CheckColision br bl).1 = true → b.ball.v_x ≠ 0) ∧
    ((b.CheckColision br bl).2 = true → b.ball.v_y ≠ 0) := by
  refine ⟨?_, ?_, ?_⟩
  · rintro (h | h)
    · rw [CheckColision_x_iff] at h
      obtain ⟨_, hv, hs⟩ := h
      rcases hv with hv | hv <;> rcases hs with ⟨hs, _⟩ | ⟨hs, _⟩
      · exact ⟨br.x, bl.GetY + bl.radius, by omega⟩
      · exact ⟨br.x + br.width, bl.GetY + bl.radius, by omega⟩
      · exact ⟨br.x, bl.GetY - bl.radius, by omega⟩
      · exact ⟨br.x + br.width, bl.GetY - bl.radius, by omega⟩
    · rw [CheckColision_y_iff] at h
      obtain ⟨_, hv, hs⟩ := h
      rcases hv with hv | hv <;> rcases hs with ⟨hs, _⟩ | ⟨hs, _⟩
      · exact ⟨bl.GetX + bl.radius, br.y, by omega⟩
      · exact ⟨bl.GetX + bl.radius, br.y + br.height, by omega⟩
      · exact ⟨bl.GetX - bl.radius, br.y, by omega⟩
      · exact ⟨bl.GetX - bl.radius, br.y + br.height, by omega⟩
  · intro h
    rw [CheckColision_x_iff] at h
    rcases h.2.2 with ⟨_, hv⟩ | ⟨_, hv⟩
    · exact ne_of_gt hv
    · exact ne_of_lt hv
  · intro h
    rw [CheckColision_y_iff] at h
    rcases h.2.2 with ⟨_, hv⟩ | ⟨_, hv⟩
    · exact ne_of_gt hv
    · exact ne_of_lt hv

theorem C29_no_phantom_hits_witness :
    (hitState.afterMove.CheckColision (NewBrick 1 1) hitState.afterMove.ball).1 = true ∧
    ((∃ px py : Int,
        (hitState.afterMove.ball.GetX - hitState.afterMove.ball.radius ≤ px ∧
          px ≤ hitState.afterMove.ball.GetX + hitState.afterMove.ball.radius) ∧
        (hitState.afterMove.ball.GetY - hitState.afterMove.ball.radius ≤ py ∧
          py ≤ hitState.afterMove.ball.GetY + hitState.afterMove.ball.radius) ∧
        ((NewBrick 1 1).x ≤ px ∧ px ≤ (NewBrick 1 1).x + (NewBrick 1 1).width) ∧
        ((NewBrick 1 1).y ≤ py ∧ py ≤ (NewBrick 1 1).y + (NewBrick 1 1).height)) ∧
      hitState.afterMove.ball.v_x ≠ 0) :=
  ⟨by decide!,
    (C29_no_phantom_hits hitState.afterMove (NewBrick 1 1) hitState.afterMove.ball
      (by decide!) (by decide!)).1 (Or.inl (by decide!)),
    (C29_no_phantom_hits hitState.afterMove (NewBrick 1 1) hitState.afterMove.ball
      (by decide!) (by decide!)).2.1 (by decide!)⟩

/-! ## Invariants of a game -/

theorem GetPoints_pos (br : Brick) : 0 < br.GetPoints := by
  unfold Brick.GetPoints
  split_ifs <;> decide

theorem step_score_level (T : Trig) (b : Breakout) (c : Cmd) (hl : 0 ≤ b.level) :
    b.score ≤ (b.step T c).score ∧
    ((b.step T c).level = b.level ∨ (b.step T c).level = b.level + 1) := by
  cases c with
  | tick rx rd =>
    simp only [Breakout.step]
    cases hg : b.gameOver with
    | true =>
      rw [MoveBall_of_gameOver T rx rd b hg]
      exact ⟨le_refl _, Or.inl rfl⟩
    | false =>
      cases hm : (b.ball.Move).2 with
      | some e =>
        have ho : (b.ball.Move).2.isSome = true := by rw [hm]; rfl
        rw [MoveBall_of_error T rx rd b hg ho]
        exact ⟨le_refl _, Or.inl rfl⟩
      | none =>
        rw [MoveBall_ok_score T rx rd b hg hm, MoveBall_ok_level T rx rd b hg hm]
        refine ⟨?_, ?_⟩
        · rcases scanBricks_cases b.afterMove with ⟨_, h⟩ | ⟨R1, pre, br, post, R2, _, _, _, _, _, h⟩
          · rw [h]; exact le_refl _
          · rw [h]
            show b.score ≤ b.score + br.GetPoints * b.level
            have := mul_nonneg (le_of_lt (GetPoints_pos br)) hl
            omega
        · split_ifs
          · exact Or.inr rfl
          · exact Or.inl rfl
  | left => exact ⟨le_refl _, Or.inl rfl⟩
  | right => exact ⟨le_refl _, Or.inl rfl⟩
  | shrink => exact ⟨le_refl _, Or.inl rfl⟩
  | unshrink => exact ⟨le_refl _, Or.inl rfl⟩

theorem run_score_level (T : Trig) (cs : List Cmd) :
    ∀ b : Breakout, 0 ≤ b.score → 1 ≤ b.level →
      0 ≤ (b.run T cs).score ∧ 1 ≤ (b.run T cs).level := by
  induction cs with
  | nil => intro b h1 h2; exact ⟨h1, h2⟩
  | cons c cs ih =>
    intro b h1 h2
    obtain ⟨g1, g2⟩ := step_score_level T b c (by omega)
    exact ih (b.step T c) (by omega) (by rcases g2 with g | g <;> omega)

/-- C24: in every state reached from a fresh game by any sequence of
`MoveBall`, `PaddleLeft`, `PaddleRight`, `PaddleShrink` and `PaddleUnShrink`
calls: the score is at least 0, the level at least 1, live lies in 1..6 and
gameOver holds exactly when live exceeds 5; and one more call does not lower
the score, keeps the level or raises it by one, does not lower live, and keeps
a set gameOver flag. -/
theorem C24_reachable_invariants (T : Trig) (rx rd : Nat) (cs : List Cmd) (c : Cmd) :
    0 ≤ ((NewBreakout T rx rd).run T cs).score ∧
    1 ≤ ((NewBreakout T rx rd).run T cs).level ∧
    1 ≤ ((NewBreakout T rx rd).run T cs).live ∧
    ((NewBreakout T rx rd).run T cs).live ≤ 6 ∧
    (((NewBreakout T rx rd).run T cs).gameOver = true ↔
      ((NewBreakout T rx rd).run T cs).live > 5) ∧
    ((NewBreakout T rx rd).run T cs).score ≤ (((NewBreakout T rx rd).run T cs).step T c).score ∧
    ((((NewBreakout T rx rd).run T cs).step T c).level = ((NewBreakout T rx rd).run T cs).level ∨
      (((NewBreakout T rx rd).run T cs).step T c).level =
        ((NewBreakout T rx rd).run T cs).level + 1) ∧
    ((NewBreakout T rx rd).run T cs).live ≤ (((NewBreakout T rx rd).run T cs).step T c).live ∧
    (((NewBreakout T rx rd).run T cs).gameOver = true →
      (((NewBreakout T rx rd).run T cs).step T c).gameOver = true) := by
  obtain ⟨h1, h2, h3⟩ := run_lifeLosses T cs (NewBreakout T rx rd) 0 (by simp [NewBreakout])
    (by simp [NewBreakout]) (by omega)
  obtain ⟨h4, h5⟩ := run_score_level T cs (NewBreakout T rx rd) (le_refl _) (le_refl _)
  obtain ⟨h6, h7⟩ := step_score_level T ((NewBreakout T rx rd).run T cs) c (by omega)
  obtain ⟨hA, hB⟩ := step_live_gameOver T ((NewBreakout T rx rd).run T cs) c
  refine ⟨h4, h5, by omega, by omega, ?_, h6, h7, ?_, ?_⟩
  · rw [h2, h1]; omega
  · cases hl : ((NewBreakout T rx rd).run T cs).lifeLost c with
    | true => rw [(hA hl).2.1]; omega
    | false => rw [(hB hl).1]
  · intro hg
    cases hl : ((NewBreakout T rx rd).run T cs).lifeLost c with
    | true =>
      have := (hA hl).1
      rw [hg] at this
      exact absurd this (by decide)
    | false => rw [(hB hl).2]; exact hg

/-! ## Brick layout for a general arena width -/

theorem intWidthFor_eq (W : Int) (hW : 0 ≤ W) :
    goInt ((W : ℚ) / (BRICKS_PER_ROW : ℚ)) = W / 14 := by
  have h14 : ((BRICKS_PER_ROW : Int) : ℚ) = ((14 : ℕ) : ℚ) := by
    have : BRICKS_PER_ROW = 14 := rfl
    rw [this]; norm_num
  have hpos : (0 : ℚ) ≤ (W : ℚ) / ((14 : ℕ) : ℚ) := by
    apply div_nonneg
    · exact_mod_cast hW
    · norm_num
  unfold goInt
  rw [h14, if_pos hpos, Rat.floor_intCast_div_natCast]
  rfl

theorem NewBrickFor_width (W : Int) (hW : 0 ≤ W) (row col : Int) :
    (NewBrickFor W row col).width =
      if col = 0 then W / 14 + (W - 14 * (W / 14)) / 2
      else if col = 13 then W - 13 * (W / 14) - (W - 14 * (W / 14)) / 2
      else W / 14 := by
  have hrest : 0 ≤ W - W / 14 * 14 := by omega
  have hB : BRICKS_PER_ROW = 14 := rfl
  have h1 : (NewBrickFor W row col).width =
      Brick.CalcWidthFor W { row := row, col := col, cleared := false, x := 0, y := 0,
                             width := 0, height := 0 } := by
    unfold NewBrickFor
    dsimp only
    split_ifs <;> rfl
  rw [h1]
  unfold Brick.CalcWidthFor
  simp only [intWidthFor_eq W hW]
  rw [hB, Int.tdiv_eq_ediv hrest (by decide)]
  have e1 : W - W / 14 * 14 = W - 14 * (W / 14) := by ring
  rw [e1]
  split_ifs <;> first | rfl | omega

theorem NewBrickFor_x (W : Int) (hW : 0 ≤ W) (row col : Int) :
    (NewBrickFor W row col).x =
      if col > 0 then col * (W / 14) + (W - 14 * (W / 14)) / 2 else col * (W / 14) := by
  have hrest : 0 ≤ W - W / 14 * 14 := by omega
  have hB : BRICKS_PER_ROW = 14 := rfl
  have e1 : W - W / 14 * 14 = W - 14 * (W / 14) := by ring
  unfold NewBrickFor
  simp only [intWidthFor_eq W hW]
  rw [hB, Int.tdiv_eq_ediv hrest (by decide), Int.tdiv_eq_ediv hW (by decide), e1]
  split_ifs <;> rfl

theorem NewBrickFor_AREA_WIDTH (row col : Int) : NewBrickFor AREA_WIDTH row col = NewBrick row col :=
  rfl

/-- C26: with the arena width a parameter `W ≥ 14` (14 columns, `q = W / 14`,
`rest = W - 14 q`): the first column gets width `q + rest / 2`, the last
`W - 13 q - rest / 2`, the others `q`; a brick of column `c > 0` starts at
`c q + rest / 2` and column 0 at 0; every width is positive, each brick starts
where the previous one ends and the last ends at `W`.  At `W = AREA_WIDTH` the
parametric constructor is `NewBrick`. -/
theorem C26_remainder_distribution (W : Int) (hW : 14 ≤ W) (r : Int) :
    (NewBrickFor W r 0).width = W / 14 + (W - 14 * (W / 14)) / 2 ∧
    (NewBrickFor W r 13).width = W - 13 * (W / 14) - (W - 14 * (W / 14)) / 2 ∧
    (∀ c : Int, 0 < c → c < 13 → (NewBrickFor W r c).width = W / 14) ∧
    (∀ c : Int, 0 < c → (NewBrickFor W r c).x = c * (W / 14) + (W - 14 * (W / 14)) / 2) ∧
    (NewBrickFor W r 0).x = 0 ∧
    (∀ c : Int, 0 ≤ c → c ≤ 13 → 0 < (NewBrickFor W r c).width) ∧
    (∀ c : Int, 0 ≤ c → c < 13 →
      (NewBrickFor W r (c + 1)).x = (NewBrickFor W r c).x + (NewBrickFor W r c).width) ∧
    (NewBrickFor W r 13).x + (NewBrickFor W r 13).width = W ∧
    (∀ c : Int, NewBrickFor AREA_WIDTH r c = NewBrick r c) := by
  have h0 : 0 ≤ W := by omega
  refine ⟨?_, ?_, ?_, ?_, ?_, ?_, ?_, ?_, fun c => rfl⟩
  · rw [NewBrickFor_width W h0]; rfl
  · rw [NewBrickFor_width W h0]; rfl
  · intro c h1 h2
    rw [NewBrickFor_width W h0, if_neg (by omega), if_neg (by omega)]
  · intro c h1
    rw [NewBrickFor_x W h0, if_pos h1]
  · rw [NewBrickFor_x W h0]; simp
  · intro c h1 h2
    rw [NewBrickFor_width W h0]
    split_ifs <;> omega
  · intro c h1 h2
    rw [NewBrickFor_x W h0 r (c + 1), NewBrickFor_x W h0 r c, NewBrickFor_width W h0 r c]
    have hp : c + 1 > 0 := by omega
    rw [if_pos hp]
    by_cases hc : c = 0
    · subst hc
      norm_num
    · have hc2 : c > 0 := by omega
      have hc3 : ¬ c = 13 := by omega
      rw [if_pos hc2, if_neg hc, if_neg hc3]
      ring
  · rw [NewBrickFor_x W h0, NewBrickFor_width W h0]
    norm_num

theorem C26_remainder_distribution_witness :
    (NewBrickFor 200 0 0).width = 16 ∧ (NewBrickFor 200 0 13).width = 16 ∧
    (NewBrickFor 200 0 13).x + (NewBrickFor 200 0 13).width = 200 :=
  ⟨by decide!, by decide!, (C26_remainder_distribution 200 (by decide) 0).2.2.2.2.2.2.2.1⟩

/-! ## Velocity after a tick -/

theorem paddleContact_ball_eq (T : Trig) (b : Breakout) :
    (b.paddleContact T).ball = (Breakout.CheckPaddleColision T b.paddle b.ball).2 := by
  unfold Breakout.paddleContact
  by_cases h : (Breakout.CheckPaddleColision T b.paddle b.ball).1 = true
  · simp [h]
  · simp [h]

/-- Ball of a tick without error, without level clear and without paddle
contact: the ball right before the paddle test. -/
theorem MoveBall_ok_ball_eq (T : Trig) (rx rd : Nat) (b : Breakout)
    (hg : b.gameOver = false) (ho : (b.ball.Move).2 = none)
    (hp : (Breakout.CheckPaddleColision T b.beforePaddle.paddle b.beforePaddle.ball).1 = false)
    (hc : b.afterMove.scanBricks.2.cleared ≠ BRICKS_PER_ROW * BRICK_ROWS) :
    (b.MoveBall T rx rd).ball = b.beforePaddle.ball := by
  rw [MoveBall_of_ok T rx rd b hg ho, (levelCheck_fields _ _ _ _ _).2.2.2.2.2 hc]
  show (b.beforePaddle.paddleContact T).ball = _
  rw [paddleContact_ball_eq, (CheckPaddleColision_eq T _ _).2 hp]

/-- C27 (amended): in a `MoveBall` call on a running game without
out-of-bounds, without paddle contact and without completing the level, the
velocity after the call is the velocity right after `Ball.Move` when no brick
matches, and otherwise that velocity with `v_x` negated exactly when the test
of the first matching brick flagged the x axis and `v_y` negated exactly when
it flagged the y axis.  `ReverseVX` and `ReverseVY` negate their component
and keep every other field of the ball. -/
theorem C27_velocity_after_tick (T : Trig) (rx rd : Nat) (b : Breakout)
    (hg : b.gameOver = false) (ho : (b.ball.Move).2 = none)
    (hp : (Breakout.CheckPaddleColision T b.beforePaddle.paddle b.beforePaddle.ball).1 = false)
    (hl : (b.MoveBall T rx rd).level = b.level) :
    ((b.afterMove.noHitGrid b.bricks ∧
        (b.MoveBall T rx rd).ball.v_x = (b.ball.Move).1.v_x ∧
        (b.MoveBall T rx rd).ball.v_y = (b.ball.Move).1.v_y) ∨
      ∃ R1 pre br post R2,
        b.bricks = R1 ++ (pre ++ some br :: post) :: R2 ∧ b.afterMove.noHitGrid R1 ∧
        (∀ c ∈ pre, b.afterMove.noHit c = true) ∧ br.cleared = false ∧
        b.afterMove.hits br = true ∧
        (b.MoveBall T rx rd).ball.v_x =
          (if (b.afterMove.CheckColision br (b.ball.Move).1).1 = true then -(b.ball.Move).1.v_x
           else (b.ball.Move).1.v_x) ∧
        (b.MoveBall T rx rd).ball.v_y =
          (if (b.afterMove.CheckColision br (b.ball.Move).1).2 = true then -(b.ball.Move).1.v_y
           else (b.ball.Move).1.v_y)) ∧
    (∀ bl : Ball, bl.ReverseVX = { bl with v_x := -bl.v_x } ∧
      bl.ReverseVY = { bl with v_y := -bl.v_y }) := by
  refine ⟨?_, fun bl => ⟨rfl, rfl⟩⟩
  have hc : b.afterMove.scanBricks.2.cleared ≠ BRICKS_PER_ROW * BRICK_ROWS := by
    intro hc
    rw [MoveBall_ok_level T rx rd b hg ho, if_pos hc] at hl
    omega
  have hball := MoveBall_ok_ball_eq T rx rd b hg ho hp hc
  have hb : b.afterMove.scanBricks.1.ball = (b.ball.Move).1 := rfl
  rw [hball]
  unfold Breakout.beforePaddle
  rw [applyReversal_ball_eq, hb]
  rcases scanBricks_cases b.afterMove with ⟨h1, h2⟩ | ⟨R1, pre, br, post, R2, h1, h2, h3, h4, h5, h6⟩
  · left
    rw [h2]
    exact ⟨h1, rfl, rfl⟩
  · right
    refine ⟨R1, pre, br, post, R2, h1, h2, h3, h4, h5, ?_⟩
    rw [h6]
    have e : b.afterMove.ball = (b.ball.Move).1 := rfl
    dsimp only
    rw [e]
    by_cases hx : (b.afterMove.CheckColision br (b.ball.Move).1).1 = true <;>
      by_cases hy : (b.afterMove.CheckColision br (b.ball.Move).1).2 = true <;>
      simp [hx, hy, Ball.ReverseVX, Ball.ReverseVY]

theorem C27_velocity_after_tick_witness :
    (hitState.ball.Move).1.v_x = 3 ∧
    (hitState.afterMove.CheckColision (NewBrick 1 1) (hitState.ball.Move).1) = (true, false) ∧
    (hitState.MoveBall sampleTrig 0 0).ball.v_x = -3 ∧
    (hitState.MoveBall sampleTrig 0 0).ball.v_y = 0 ∧
    ((hitState.afterMove.noHitGrid hitState.bricks ∧
        (hitState.MoveBall sampleTrig 0 0).ball.v_x = (hitState.ball.Move).1.v_x ∧
        (hitState.MoveBall sampleTrig 0 0).ball.v_y = (hitState.ball.Move).1.v_y) ∨
      ∃ R1 pre br post R2,
        hitState.bricks = R1 ++ (pre ++ some br :: post) :: R2 ∧ hitState.afterMove.noHitGrid R1 ∧
        (∀ c ∈ pre, hitState.afterMove.noHit c = true) ∧ br.cleared = false ∧
        hitState.afterMove.hits br = true ∧
        (hitState.MoveBall sampleTrig 0 0).ball.v_x =
          (if (hitState.afterMove.CheckColision br (hitState.ball.Move).1).1 = true
           then -(hitState.ball.Move).1.v_x else (hitState.ball.Move).1.v_x) ∧
        (hitState.MoveBall sampleTrig 0 0).ball.v_y =
          (if (hitState.afterMove.CheckColision br (hitState.ball.Move).1).2 = true
           then -(hitState.ball.Move).1.v_y else (hitState.ball.Move).1.v_y)) :=
  ⟨by decide!, by decide!, by decide!, by decide!,
    (C27_velocity_after_tick sampleTrig 0 0 hitState (by decide!) (by decide!) (by decide!)
      (by decide!)).1⟩

/-- C27, as stated, fails on the tick that clears the last brick: with brick
(1,1) the only uncleared one and the ball hitting its left side (velocity
(3, 0) after `Ball.Move`, x axis flagged, no out-of-bounds, no paddle contact),
the level is completed and the ball is replaced by a new one, whose velocity
is not (-3, 0). -/
theorem C27_counterexample :
    lastBrick.gameOver = false ∧ (lastBrick.ball.Move).2 = none ∧
    (Breakout.CheckPaddleColision sampleTrig lastBrick.beforePaddle.paddle
      lastBrick.beforePaddle.ball).1 = false ∧
    clearedInGrid lastBrick.bricks = 111 ∧
    (lastBrick.ball.Move).1.v_x = 3 ∧ (lastBrick.ball.Move).1.v_y = 0 ∧
    (lastBrick.afterMove.CheckColision (NewBrick 1 1) (lastBrick.ball.Move).1) = (true, false) ∧
    lastBrick.afterMove.scanBricks.2.xrev = true ∧
    lastBrick.afterMove.scanBricks.2.yrev = false ∧
    (lastBrick.MoveBall sampleTrig 100 0).level = lastBrick.level + 1 ∧
    (lastBrick.MoveBall sampleTrig 100 0).ball = NewBall sampleTrig 100 0 ∧
    (lastBrick.MoveBall sampleTrig 100 0).ball.v_x ≠ -(lastBrick.ball.Move).1.v_x := by
  decide!

/-! ## The grid between ticks -/

theorem gridShape_hit (R1 R2 : List (List (Option Brick))) (pre post : List (Option Brick))
    (c c2 : Option Brick) :
    gridShape (R1 ++ (pre ++ c2 :: post) :: R2) = gridShape (R1 ++ (pre ++ c :: post) :: R2) := by
  simp [gridShape, List.all_append]

theorem noNil_hit (R1 R2 : List (List (Option Brick))) (pre post : List (Option Brick))
    (br br2 : Brick) :
    noNil (R1 ++ (pre ++ some br2 :: post) :: R2) =
      noNil (R1 ++ (pre ++ some br :: post) :: R2) := by
  simp [noNil, List.all_append]

theorem clearedInGrid_hit (R1 R2 : List (List (Option Brick))) (pre post : List (Option Brick))
    (br : Brick) (hc : br.cleared = false) :
    clearedInGrid (R1 ++ (pre ++ some (br.SetCleared true) :: post) :: R2) =
      clearedInGrid (R1 ++ (pre ++ some br :: post) :: R2) + 1 := by
  rw [clearedInGrid_append, clearedInGrid_append]
  simp only [clearedInGrid, clearedInRow_append, clearedInRow, Brick.SetCleared, hc, if_true,
    Bool.false_eq_true, if_false]
  ring

theorem hasUncleared_iff (g : List (List (Option Brick))) :
    hasUncleared g = true ↔ ∃ row ∈ g, ∃ br, some br ∈ row ∧ br.cleared = false := by
  unfold hasUncleared
  simp only [List.any_eq_true]
  constructor
  · rintro ⟨row, hrow, c, hc, h⟩
    cases c with
    | none => simp at h
    | some br => exact ⟨row, hrow, br, hc, by simpa using h⟩
  · rintro ⟨row, hrow, br, hbr, h⟩
    exact ⟨row, hrow, some br, hbr, by simp [h]⟩

theorem activeRecords_ne_nil (g : List (List (Option Brick))) (h : hasUncleared g = true) :
    activeRecords g ≠ [] := by
  obtain ⟨row, hrow, br, hbr, hc⟩ := (hasUncleared_iff g).mp h
  have hm : br.GetState ∈ activeRecords g := by
    unfold activeRecords
    rw [List.mem_filterMap]
    refine ⟨some br, List.mem_flatten.mpr ⟨row, hrow, hbr⟩, ?_⟩
    simp [activeRecord, hc]
  intro hnil
  rw [hnil] at hm
  exact List.not_mem_nil _ hm

theorem hasUncleared_of_count (g : List (List (Option Brick))) (hs : gridShape g = true)
    (hn : noNil g = true) (hc : clearedInGrid g ≠ 112) : hasUncleared g = true := by
  have hlen : ((activeRecords g).length : Int) = 112 - clearedInGrid g := by
    rw [length_activeRecords g hn, length_flatten_of_shape g hs]
    norm_num
  have hne : activeRecords g ≠ [] := by
    intro h
    rw [h] at hlen
    simp only [List.length_nil, Nat.cast_zero] at hlen
    omega
  obtain ⟨r, hr⟩ := List.exists_mem_of_ne_nil _ hne
  obtain ⟨row, hrow, br, hbr, hcl, _⟩ := mem_activeRecords g r hr
  exact (hasUncleared_iff g).mpr ⟨row, hrow, br, hbr, hcl⟩

theorem hasUncleared_newBricks : hasUncleared newBricks = true := by decide!

/-- A tick keeps the grid a full grid with an uncleared brick. -/
theorem MoveBall_grid (T : Trig) (rx rd : Nat) (b : Breakout)
    (hs : gridShape b.bricks = true) (hn : noNil b.bricks = true)
    (hu : hasUncleared b.bricks = true) :
    gridShape (b.MoveBall T rx rd).bricks = true ∧ noNil (b.MoveBall T rx rd).bricks = true ∧
    hasUncleared (b.MoveBall T rx rd).bricks = true := by
  cases hg : b.gameOver with
  | true =>
    rw [MoveBall_of_gameOver T rx rd b hg]
    exact ⟨hs, hn, hu⟩
  | false =>
    cases hm : (b.ball.Move).2 with
    | some e =>
      have ho : (b.ball.Move).2.isSome = true := by rw [hm]; rfl
      rw [MoveBall_of_error T rx rd b hg ho]
      exact ⟨hs, hn, hu⟩
    | none =>
      rw [MoveBall_ok_bricks T rx rd b hg hm]
      by_cases hc : b.afterMove.scanBricks.2.cleared = BRICKS_PER_ROW * BRICK_ROWS
      · rw [if_pos hc]
        exact ⟨by decide!, by decide!, hasUncleared_newBricks⟩
      · rw [if_neg hc]
        rcases scanBricks_cases b.afterMove with
          ⟨_, h⟩ | ⟨R1, pre, br, post, R2, h1, _, _, h4, _, h⟩
        · rw [h]
          exact ⟨hs, hn, hu⟩
        · rw [h] at hc ⊢
          have hb : b.afterMove.bricks = b.bricks := rfl
          rw [hb] at h1 hc
          have hc2 : clearedInGrid b.bricks + 1 ≠ 112 := hc
          rw [h1] at hs hn hc2
          have gs := (gridShape_hit R1 R2 pre post (some br) (some (br.SetCleared true))).trans hs
          have gn := (noNil_hit R1 R2 pre post br (br.SetCleared true)).trans hn
          refine ⟨gs, gn, hasUncleared_of_count _ gs gn ?_⟩
          rw [clearedInGrid_hit R1 R2 pre post br h4]
          exact hc2

theorem step_grid (T : Trig) (b : Breakout) (c : Cmd)
    (hs : gridShape b.bricks = true) (hn : noNil b.bricks = true)
    (hu : hasUncleared b.bricks = true) :
    gridShape (b.step T c).bricks = true ∧ noNil (b.step T c).bricks = true ∧
    hasUncleared (b.step T c).bricks = true := by
  cases c with
  | tick rx rd => exact MoveBall_grid T rx rd b hs hn hu
  | left => exact ⟨hs, hn, hu⟩
  | right => exact ⟨hs, hn, hu⟩
  | shrink => exact ⟨hs, hn, hu⟩
  | unshrink => exact ⟨hs, hn, hu⟩

theorem run_grid (T : Trig) (cs : List Cmd) :
    ∀ b : Breakout, gridShape b.bricks = true → noNil b.bricks = true →
      hasUncleared b.bricks = true →
      gridShape (b.run T cs).bricks = true ∧ noNil (b.run T cs).bricks = true ∧
      hasUncleared (b.run T cs).bricks = true := by
  induction cs with
  | nil => intro b hs hn hu; exact ⟨hs, hn, hu⟩
  | cons c cs ih =>
    intro b hs hn hu
    obtain ⟨g1, g2, g3⟩ := step_grid T b c hs hn hu
    exact ih (b.step T c) g1 g2 g3

/-- C28: for an engine whose grid holds 8 rows of 14 bricks, at least one of
them uncleared, the grid after `MoveBall` again holds 8 rows of 14 bricks with
at least one uncleared; when the first brick hit in a tick is the last
uncleared one, that tick returns a fresh grid, raises the level by one and
credits the brick at the old level; and in every state reached from a fresh
game `GetState` returns a snapshot whose brick list is not empty. -/
theorem C28_grid_never_empty (T : Trig) (rx rd rx0 rd0 : Nat) (b : Breakout) (cs : List Cmd) :
    (gridShape b.bricks = true → noNil b.bricks = true →
      hasUncleared b.bricks = true →
      gridShape (b.MoveBall T rx rd).bricks = true ∧ noNil (b.MoveBall T rx rd).bricks = true ∧
      hasUncleared (b.MoveBall T rx rd).bricks = true) ∧
    (b.gameOver = false → (b.ball.Move).2 = none → clearedInGrid b.bricks = 111 →
      ∀ R1 pre br post R2,
        b.bricks = R1 ++ (pre ++ some br :: post) :: R2 → b.afterMove.noHitGrid R1 →
        (∀ c ∈ pre, b.afterMove.noHit c = true) → br.cleared = false →
        b.afterMove.hits br = true →
        (b.MoveBall T rx rd).bricks = newBricks ∧ (b.MoveBall T rx rd).level = b.level + 1 ∧
        (b.MoveBall T rx rd).score = b.score + br.GetPoints * b.level) ∧
    (∃ st, ((NewBreakout T rx0 rd0).run T cs).GetState = some st ∧ st.Bricks ≠ [] ∧
      st.Bricks = activeRecords ((NewBreakout T rx0 rd0).run T cs).bricks) := by
  refine ⟨MoveBall_grid T rx rd b, ?_, ?_⟩
  · intro hg ho h111 R1 pre br post R2 h1 h2 h3 h4 h5
    have hscan : b.afterMove.scanBricks =
        ({ b.afterMove with bricks := R1 ++ (pre ++ some (br.SetCleared true) :: post) :: R2
                            score := b.score + br.GetPoints * b.level },
         { cleared := clearedInGrid b.bricks + 1
           xrev := (b.afterMove.CheckColision br b.afterMove.ball).1
           yrev := (b.afterMove.CheckColision br b.afterMove.ball).2
           score := b.score + br.GetPoints * b.level }) := by
      unfold Breakout.scanBricks
      have hl : b.afterMove.level = b.level := rfl
      rw [show b.afterMove.bricks = b.bricks from rfl, show b.afterMove.score = b.score from rfl]
      rw [h1, scanGrid_hit b.afterMove _ R1 R2 pre post br rfl rfl h2 h3 h4 h5]
      simp [clearedInGrid_append, clearedInGrid, clearedInRow_append, clearedInRow, h4, hl]
    have hc : b.afterMove.scanBricks.2.cleared = BRICKS_PER_ROW * BRICK_ROWS := by
      rw [hscan]
      show clearedInGrid b.bricks + 1 = BRICKS_PER_ROW * BRICK_ROWS
      rw [h111]
      decide
    refine ⟨?_, ?_, ?_⟩
    · rw [MoveBall_ok_bricks T rx rd b hg ho, if_pos hc]
    · rw [MoveBall_ok_level T rx rd b hg ho, if_pos hc]
    · rw [MoveBall_ok_score T rx rd b hg ho, hscan]
  · obtain ⟨g1, _, g3⟩ := run_grid T cs (NewBreakout T rx0 rd0)
      (show gridShape newBricks = true by decide!) (show noNil newBricks = true by decide!)
      hasUncleared_newBricks
    exact ⟨_, GetState_of_shape _ g1, activeRecords_ne_nil _ g3, rfl⟩

theorem C28_grid_never_empty_witness :
    gridShape lastBrick.bricks = true ∧ noNil lastBrick.bricks = true ∧
    clearedInGrid lastBrick.bricks = 111 ∧
    clearedInGrid (lastBrick.MoveBall sampleTrig 100 0).bricks = 0 ∧
    (lastBrick.MoveBall sampleTrig 100 0).level = 2 ∧
    hasUncleared (lastBrick.MoveBall sampleTrig 100 0).bricks = true :=
  ⟨by decide!, by decide!, by decide!, by decide!, by decide!,
    ((C28_grid_never_empty sampleTrig 100 0 0 0 lastBrick []).1 (by decide!) (by decide!)
      (by decide!)).2.2⟩

/-! ## The bottom line -/

theorem bhaskaraSin_bound (d : ℚ) : -1 ≤ bhaskaraSin d ∧ bhaskaraSin d ≤ 1 := by
  have h0 : 0 ≤ d - 360 * ((⌊d / 360⌋ : Int) : ℚ) := by
    have := Int.floor_le (d / 360)
    have h2 : ((⌊d / 360⌋ : Int) : ℚ) * 360 ≤ d := (le_div_iff₀ (by norm_num)).mp this
    linarith
  have h1 : d - 360 * ((⌊d / 360⌋ : Int) : ℚ) < 360 := by
    have := Int.lt_floor_add_one (d / 360)
    have h2 : d < (((⌊d / 360⌋ : Int) : ℚ) + 1) * 360 := (div_lt_iff₀ (by norm_num)).mp this
    linarith
  unfold bhaskaraSin
  simp only
  generalize d - 360 * ((⌊d / 360⌋ : Int) : ℚ) = r at h0 h1
  split_ifs with h
  · have hp : 0 ≤ r * (180 - r) := mul_nonneg h0 (by linarith)
    have hq : r * (180 - r) ≤ 8100 := by nlinarith [sq_nonneg (r - 90)]
    have hden : 0 < 40500 - r * (180 - r) := by linarith
    have e : 4 * r * (180 - r) = 4 * (r * (180 - r)) := by ring
    rw [e]
    constructor
    · have : 0 ≤ 4 * (r * (180 - r)) / (40500 - r * (180 - r)) :=
        div_nonneg (by linarith) (le_of_lt hden)
      linarith
    · rw [div_le_one hden]; linarith
  · have hp : 0 ≤ (r - 180) * (360 - r) := mul_nonneg (by linarith) (by linarith)
    have hq : (r - 180) * (360 - r) ≤ 8100 := by nlinarith [sq_nonneg (r - 270)]
    have hden : 0 < 40500 - (r - 180) * (360 - r) := by linarith
    have e : 4 * (r - 180) * (360 - r) = 4 * ((r - 180) * (360 - r)) := by ring
    rw [e]
    have a1 : 0 ≤ 4 * ((r - 180) * (360 - r)) / (40500 - (r - 180) * (360 - r)) :=
      div_nonneg (by linarith) (le_of_lt hden)
    have a2 : 4 * ((r - 180) * (360 - r)) / (40500 - (r - 180) * (360 - r)) ≤ 1 := by
      rw [div_le_one hden]; linarith
    constructor <;> linarith

theorem bounceLeft_speed (b : Ball) : b.bounceLeft.speed = b.speed := by
  unfold Ball.bounceLeft
  split_ifs <;> rfl

theorem bounceRight_speed (b : Ball) : b.bounceRight.speed = b.speed := by
  unfold Ball.bounceRight
  split_ifs <;> rfl

theorem bounceTop_speed (b : Ball) : b.bounceTop.speed = b.speed := by
  unfold Ball.bounceTop
  split_ifs <;> rfl

theorem bottom_speed (b : Ball) : (b.bottom).1.speed = b.speed := by
  unfold Ball.bottom
  simp only
  split_ifs <;> rfl

theorem Move_radius_speed (b : Ball) :
    (b.Move).1.radius = b.radius ∧ (b.Move).1.speed = b.speed := by
  have hM : b.Move = b.advance.bounceLeft.bounceRight.bounceTop.bottom := rfl
  rw [hM]
  refine ⟨?_, ?_⟩
  · rw [(bottom_cases _).1, (bounceTop_cases _).1, (bounceRight_cases _).1,
      (bounceLeft_cases _).1]
    rfl
  · rw [bottom_speed, bounceTop_speed, bounceRight_speed, bounceLeft_speed]
    rfl

/-- A ball of radius 2 that starts above `y = 236` with `v_y ≤ 3` is not
reported out of bounds. -/
theorem Move_no_signal (b : Ball) (hr : b.radius = 2) (hv : b.v_y ≤ 3) (hy : b.y < 236) :
    (b.Move).2 = none := by
  have hA : AREA_HEIGHT = 240 := rfl
  have h : ¬ (b.Move).2.isSome = true := by
    rw [Move_signal_iff, hr, hA]
    rintro (⟨_, _, h⟩ | ⟨_, h⟩)
    · omega
    · have h2 : (238 : Int) < goInt (b.y + b.v_y) := by omega
      have h3 := succ_le_of_lt_goInt _ 238 (by decide) h2
      push_cast at h3
      linarith
  cases hm : (b.Move).2 with
  | none => rfl
  | some e => rw [hm] at h; exact absurd rfl h

theorem SetDir_regular (T : Trig) (hT : ∀ d : ℚ, -1 ≤ T.sin d ∧ T.sin d ≤ 1) (b : Ball)
    (hr : b.radius = 2) (hs : b.speed = 3) (d : ℚ) : (b.SetDir T d).regular := by
  have hB : ((BRICK_HEIGHT : Int) : ℚ) = 7 := by
    have : BRICK_HEIGHT = 7 := rfl
    rw [this]; norm_num
  obtain ⟨s1, s2⟩ := hT d
  refine ⟨(SetDir_fields T b d).2.2.1.trans hr, (SetDir_fields T b d).2.2.2.trans hs, ?_⟩
  unfold Ball.SetDir
  dsimp only
  rw [hB, hs]
  split_ifs <;> dsimp only at * <;> constructor <;> linarith

theorem NewBall_regular (T : Trig) (hT : ∀ d : ℚ, -1 ≤ T.sin d ∧ T.sin d ≤ 1) (rx rd : Nat) :
    (NewBall T rx rd).regular := by
  unfold NewBall
  simp only
  split_ifs
  · exact SetDir_regular T hT _ rfl rfl 45
  · exact SetDir_regular T hT _ rfl rfl 135

theorem Move_regular (b : Ball) (h : b.regular) : (b.Move).1.regular := by
  obtain ⟨h1, h2, h3, h4⟩ := h
  obtain ⟨m1, m2⟩ := Move_radius_speed b
  refine ⟨m1.trans h1, m2.trans h2, ?_⟩
  rcases Move_y_cases b with ⟨_, _, _, _, _, e⟩ | ⟨_, _, _, _, _, e⟩ | ⟨_, _, _, _, _, e⟩ |
    ⟨_, _, _, _, _, e⟩ | ⟨_, _, _, _, e⟩ <;> rw [e] <;> constructor <;> linarith

theorem MoveBall_regular (T : Trig) (hT : ∀ d : ℚ, -1 ≤ T.sin d ∧ T.sin d ≤ 1)
    (rx rd : Nat) (b : Breakout) (h : b.ball.regular) : (b.MoveBall T rx rd).ball.regular := by
  cases hg : b.gameOver with
  | true => rw [MoveBall_of_gameOver T rx rd b hg]; exact h
  | false =>
    cases hm : (b.ball.Move).2 with
    | some e =>
      have ho : (b.ball.Move).2.isSome = true := by rw [hm]; rfl
      rw [MoveBall_of_error T rx rd b hg ho]
      exact NewBall_regular T hT rx rd
    | none =>
      by_cases hc : b.afterMove.scanBricks.2.cleared = BRICKS_PER_ROW * BRICK_ROWS
      · rw [MoveBall_of_ok T rx rd b hg hm, ((levelCheck_fields _ _ _ _ _).2.2.2.2.1 hc).2.2.1]
        exact NewBall_regular T hT rx rd
      · rw [MoveBall_of_ok T rx rd b hg hm, (levelCheck_fields _ _ _ _ _).2.2.2.2.2 hc]
        show (b.beforePaddle.paddleContact T).ball.regular
        have hb : b.beforePaddle.ball.regular := by
          unfold Breakout.beforePaddle
          rw [applyReversal_ball_eq]
          have hmv : b.afterMove.scanBricks.1.ball.regular := Move_regular b.ball h
          obtain ⟨q1, q2, q3, q4⟩ := hmv
          split_ifs <;> refine ⟨q1, q2, ?_, ?_⟩ <;>
            (try simp only [Ball.ReverseVX, Ball.ReverseVY]) <;> linarith
        rw [paddleContact_ball_eq]
        by_cases hp : (Breakout.CheckPaddleColision T b.beforePaddle.paddle
            b.beforePaddle.ball).1 = true
        · rw [(CheckPaddleColision_eq T _ _).1 hp]
          exact SetDir_regular T hT _ hb.1 hb.2.1 _
        · rw [(CheckPaddleColision_eq T _ _).2 (by simpa using hp)]
          exact hb

theorem run_regular (T : Trig) (hT : ∀ d : ℚ, -1 ≤ T.sin d ∧ T.sin d ≤ 1) (cs : List Cmd) :
    ∀ b : Breakout, b.ball.regular → (b.run T cs).ball.regular := by
  induction cs with
  | nil => intro b h; exact h
  | cons c cs ih =>
    intro b h
    apply ih
    cases c with
    | tick rx rd => exact MoveBall_regular T hT rx rd b h
    | left => exact h
    | right => exact h
    | shrink => exact h
    | unshrink => exact h

/-- C31: a ball of radius 2 with `v_y ≤ 3` and `y < 236` is not reported out
of bounds by `Ball.Move`.  For an oracle whose sine lies in [-1, 1] (as the
real sine does), the ball of every state reached from a fresh game has radius
2, speed 3 and `|v_y| ≤ 3`; so a tick that takes a life starts with the ball
at `y ≥ 236`, where its truncated `y` is at least 234, that is, where the
vertical condition `y + radius ≥ AREA_HEIGHT - 4` of the paddle test holds. -/
theorem C31_no_tunnelling (T : Trig) (hT : ∀ d : ℚ, -1 ≤ T.sin d ∧ T.sin d ≤ 1)
    (rx rd rx2 rd2 : Nat) (cs : List Cmd) (bl : Ball) :
    (bl.radius = 2 → bl.v_y ≤ 3 → bl.y < 236 → (bl.Move).2 = none) ∧
    ((NewBreakout T rx rd).run T cs).ball.radius = 2 ∧
    ((NewBreakout T rx rd).run T cs).ball.speed = 3 ∧
    |((NewBreakout T rx rd).run T cs).ball.v_y| ≤ 3 ∧
    (((NewBreakout T rx rd).run T cs).lifeLost (Cmd.tick rx2 rd2) = true →
      236 ≤ ((NewBreakout T rx rd).run T cs).ball.y ∧
      234 ≤ ((NewBreakout T rx rd).run T cs).ball.GetY ∧
      ((NewBreakout T rx rd).run T cs).ball.GetY + ((NewBreakout T rx rd).run T cs).ball.radius ≥
        AREA_HEIGHT - NewPaddle.height) := by
  obtain ⟨h1, h2, h3, h4⟩ := run_regular T hT cs (NewBreakout T rx rd)
    (NewBall_regular T hT rx rd)
  refine ⟨Move_no_signal bl, h1, h2, abs_le.mpr ⟨h3, h4⟩, ?_⟩
  intro hl
  simp only [Breakout.lifeLost, Bool.and_eq_true] at hl
  have hy : 236 ≤ ((NewBreakout T rx rd).run T cs).ball.y := by
    by_contra hcon
    have := Move_no_signal _ h1 h4 (not_le.mp hcon)
    rw [this] at hl
    simp at hl
  have hg : (236 : Int) ≤ ((NewBreakout T rx rd).run T cs).ball.GetY :=
    le_goInt _ 236 (by push_cast; exact hy)
  have hA : AREA_HEIGHT - NewPaddle.height = 236 := by decide
  rw [hA, h1]
  exact ⟨hy, by omega, by omega⟩

theorem C31_no_tunnelling_witness :
    missedBall.ball.y = 237 ∧ missedBall.lifeLost (Cmd.tick 0 0) = true ∧
    (lowBall.Move).2.isSome = true ∧
    ((sampleBall 100 235 0 3).Move).2 = none ∧
    |((NewBreakout sampleTrig 100 0).run sampleTrig [Cmd.tick 0 0, Cmd.left]).ball.v_y| ≤ 3 :=
  ⟨by decide!, by decide!, by decide!,
    (C31_no_tunnelling sampleTrig bhaskaraSin_bound 100 0 0 0 [] (sampleBall 100 235 0 3)).1
      (by decide!) (by decide!) (by decide!),
    (C31_no_tunnelling sampleTrig bhaskaraSin_bound 100 0 0 0 [Cmd.tick 0 0, Cmd.left]
      (sampleBall 100 235 0 3)).2.2.2.1⟩

/-! ## Conversion on 64 bits -/

theorem goInt64_eq (x : ℚ) (h1 : -(2 : ℚ) ^ 63 ≤ x) (h2 : x < (2 : ℚ) ^ 63) :
    goInt64 x = goInt x := by
  have a1 : -(2 : Int) ^ 63 ≤ goInt x := le_goInt x _ (by push_cast; exact h1)
  have a2 : goInt x < (2 : Int) ^ 63 := by
    by_contra hcon
    have h3 : (2 : Int) ^ 63 - 1 < goInt x := by omega
    have h4 := succ_le_of_lt_goInt x ((2 : Int) ^ 63 - 1) (by norm_num) h3
    push_cast at h4
    linarith
  unfold goInt64
  rw [if_pos ⟨a1, a2⟩]

theorem goInt64_eq_of_abs (x : ℚ) (h : |x| ≤ 2 ^ 62) : goInt64 x = goInt x := by
  obtain ⟨h1, h2⟩ := abs_le.mp h
  exact goInt64_eq x (by linarith) (by linarith)

theorem goInt64_intCast (n : Int) (h1 : -(2 : Int) ^ 63 ≤ n) (h2 : n < (2 : Int) ^ 63) :
    goInt64 (n : ℚ) = n := by
  rw [goInt64_eq _ (by exact_mod_cast h1) (by exact_mod_cast h2), goInt_intCast]

theorem bounceLeft64_eq (b : Ball) (h : goInt64 b.x = goInt b.x) :
    b.bounceLeft64 = b.bounceLeft := by
  unfold Ball.bounceLeft64 Ball.bounceLeft
  rw [h]

theorem bounceRight64_eq (b : Ball) (h : goInt64 b.x = goInt b.x) :
    b.bounceRight64 = b.bounceRight := by
  unfold Ball.bounceRight64 Ball.bounceRight
  rw [h]

theorem bounceTop64_eq (b : Ball) (h : goInt64 b.y = goInt b.y) :
    b.bounceTop64 = b.bounceTop := by
  unfold Ball.bounceTop64 Ball.bounceTop
  rw [h]

theorem bottom64_eq (b : Ball) (h : goInt64 b.y = goInt b.y) :
    b.bottom64 = b.bottom := by
  unfold Ball.bottom64 Ball.bottom
  rw [h]

/-- With the radius a small 64-bit integer and the advanced coordinates in
range, the conversions of `Ball.Move` are exact. -/
theorem Move64_eq (b : Ball) (hr : -(2 : Int) ^ 63 ≤ b.radius) (hr2 : b.radius < (2 : Int) ^ 62)
    (hx : |b.x + b.v_x| ≤ 2 ^ 62) (hy : |b.y + b.v_y| ≤ 2 ^ 62) :
    b.Move64 = b.Move := by
  have hM : b.Move = b.advance.bounceLeft.bounceRight.bounceTop.bottom := rfl
  have hM2 : b.Move64 = b.advance.bounceLeft64.bounceRight64.bounceTop64.bottom64 := rfl
  have a0 : b.advance.radius = b.radius := rfl
  have a1 : b.advance.x = b.x + b.v_x := rfl
  have a2 : b.advance.y = b.y + b.v_y := rfl
  have hR : goInt64 (b.radius : ℚ) = goInt (b.radius : ℚ) :=
    goInt64_eq _ (by exact_mod_cast hr) (by
      have : b.radius < (2 : Int) ^ 63 := by omega
      exact_mod_cast this)
  have e1 : b.advance.bounceLeft64 = b.advance.bounceLeft :=
    bounceLeft64_eq _ (by rw [a1]; exact goInt64_eq_of_abs _ hx)
  obtain ⟨l0, l1, -, hL⟩ := bounceLeft_cases b.advance
  have e2 : b.advance.bounceLeft.bounceRight64 = b.advance.bounceLeft.bounceRight := by
    apply bounceRight64_eq
    rcases hL with ⟨_, _, lx, _⟩ | ⟨_, lx, _⟩
    · rw [lx, a0]; exact hR
    · rw [lx, a1]; exact goInt64_eq_of_abs _ hx
  obtain ⟨r0, r1, -, -⟩ := bounceRight_cases b.advance.bounceLeft
  have e3 : b.advance.bounceLeft.bounceRight.bounceTop64 =
      b.advance.bounceLeft.bounceRight.bounceTop := by
    apply bounceTop64_eq
    rw [r1, l1, a2]
    exact goInt64_eq_of_abs _ hy
  obtain ⟨t0, -, -, hT⟩ := bounceTop_cases b.advance.bounceLeft.bounceRight
  have e4 : b.advance.bounceLeft.bounceRight.bounceTop.bottom64 =
      b.advance.bounceLeft.bounceRight.bounceTop.bottom := by
    apply bottom64_eq
    rcases hT with ⟨_, _, ty, _⟩ | ⟨_, ty, _⟩
    · rw [ty, r0, l0, a0]; exact hR
    · rw [ty, r1, l1, a2]; exact goInt64_eq_of_abs _ hy
  rw [hM, hM2, e1, e2, e3, e4]

/-- C14 (amended): for a ball whose radius is not negative and whose
diameter fits the arena (as radius 2 does) and whose advanced coordinates `x + vx`, `y + vy` are within the 64-bit
range (`≤ 2^62` in size), after `Ball.Move` the ball is not heading into a wall
it touches (truncated `x ≤ radius` gives `vx ≥ 0`, truncated
`x ≥ AREA_WIDTH - radius` gives `vx ≤ 0`, truncated `y ≤ radius` gives
`vy ≥ 0`), and when the advanced position has crossed the left, right or top
boundary while moving toward it, the coordinate is exactly `radius`,
`AREA_WIDTH - radius`, `radius` and that velocity component is negated. -/
theorem C14_walls_turn_ball (b : Ball) (hr : 0 ≤ b.radius)
    (hw : 2 * b.radius < AREA_WIDTH) (hh : 2 * b.radius < AREA_HEIGHT)
    (hx : |b.x + b.v_x| ≤ 2 ^ 62) (hy : |b.y + b.v_y| ≤ 2 ^ 62) :
    (goInt64 (b.Move64).1.x ≤ (b.Move64).1.radius → 0 ≤ (b.Move64).1.v_x) ∧
    (goInt64 (b.Move64).1.x ≥ AREA_WIDTH - (b.Move64).1.radius → (b.Move64).1.v_x ≤ 0) ∧
    (goInt64 (b.Move64).1.y ≤ (b.Move64).1.radius → 0 ≤ (b.Move64).1.v_y) ∧
    (goInt64 (b.x + b.v_x) ≤ b.radius → b.v_x < 0 →
      (b.Move64).1.x = (b.radius : ℚ) ∧ (b.Move64).1.v_x = -b.v_x) ∧
    (goInt64 (b.x + b.v_x) ≥ AREA_WIDTH - b.radius → 0 < b.v_x →
      (b.Move64).1.x = ((AREA_WIDTH - b.radius : Int) : ℚ) ∧ (b.Move64).1.v_x = -b.v_x) ∧
    (goInt64 (b.y + b.v_y) ≤ b.radius → b.v_y < 0 →
      (b.Move64).1.y = (b.radius : ℚ) ∧ (b.Move64).1.v_y = -b.v_y) := by
  have hA : AREA_WIDTH = 182 := rfl
  have hr2 : b.radius < (2 : Int) ^ 62 := by rw [hA] at hw; norm_num; omega
  have hr0 : -(2 : Int) ^ 63 ≤ b.radius := by norm_num; omega
  obtain ⟨w1, w2, w3, w4, w5, w6⟩ := Move_walls b hw hh
  have hrad : (b.Move).1.radius = b.radius := (Move_x_cases b).1
  have hR : ∀ n : Int, -(2 : Int) ^ 63 ≤ n → n < (2 : Int) ^ 62 →
      goInt64 (n : ℚ) = goInt (n : ℚ) := by
    intro n h1 h2
    exact goInt64_eq _ (by exact_mod_cast h1) (by
      have : n < (2 : Int) ^ 63 := by omega
      exact_mod_cast this)
  have gx : goInt64 (b.Move).1.x = goInt (b.Move).1.x := by
    rcases (Move_x_cases b).2 with ⟨_, _, _, e, _⟩ | ⟨_, _, _, e, _⟩ | ⟨_, _, _, e, _⟩ |
      ⟨_, _, e, _⟩
    · rw [e]; exact hR _ (by rw [hA]; norm_num; omega) (by rw [hA]; norm_num; omega)
    · rw [e]; exact hR _ hr0 hr2
    · rw [e]; exact hR _ (by rw [hA]; norm_num; omega) (by rw [hA]; norm_num; omega)
    · rw [e]; exact goInt64_eq_of_abs _ hx
  have hH : AREA_HEIGHT = 240 := rfl
  have gy : goInt64 (b.Move).1.y = goInt (b.Move).1.y := by
    rcases Move_y_cases b with ⟨_, _, _, _, e, _⟩ | ⟨_, _, _, _, e, _⟩ | ⟨_, _, _, _, e, _⟩ |
      ⟨_, _, _, _, e, _⟩ | ⟨_, _, _, e, _⟩
    · rw [e]; exact hR _ (by rw [hH]; norm_num; omega) (by rw [hH]; norm_num; omega)
    · rw [e]; exact hR _ hr0 hr2
    · rw [e]; exact hR _ (by rw [hH]; norm_num; omega) (by rw [hH]; norm_num; omega)
    · rw [e]; exact goInt64_eq_of_abs _ hy
    · rw [e]; exact goInt64_eq_of_abs _ hy
  rw [Move64_eq b hr0 hr2 hx hy, gx, gy, goInt64_eq_of_abs _ hx, goInt64_eq_of_abs _ hy]
  exact ⟨w1, w2, w3, w4, w5, w6⟩

theorem C14_walls_turn_ball_witness :
    goInt64 ((sampleBall 3 120 (-2) 0).x + (sampleBall 3 120 (-2) 0).v_x) ≤
      (sampleBall 3 120 (-2) 0).radius ∧
    ((sampleBall 3 120 (-2) 0).Move64).1.x = (((sampleBall 3 120 (-2) 0).radius : Int) : ℚ) ∧
    ((sampleBall 3 120 (-2) 0).Move64).1.v_x = -(sampleBall 3 120 (-2) 0).v_x :=
  ⟨by decide!,
    (C14_walls_turn_ball (sampleBall 3 120 (-2) 0) (by decide) (by decide) (by decide)
      (by decide!) (by decide!)).2.2.2.1 (by decide!) (by decide!)⟩

/-- C14, as stated for every ball state, fails for a velocity beyond the
64-bit range: a ball of radius 2 at `x = 100` with `vx = 10^19` advances to
`x = 10^19 + 100`, past the right boundary while moving toward it; the
conversion `int(b.x)` gives `-2^63`, so neither wall test fires and the
coordinate is not clamped to `AREA_WIDTH - radius` nor the velocity negated. -/
theorem C14_counterexample :
    hugeBall.radius = 2 ∧ hugeBall.x = 100 ∧ hugeBall.v_x = 10 ^ 19 ∧
    ((AREA_WIDTH - hugeBall.radius : Int) : ℚ) ≤ hugeBall.x + hugeBall.v_x ∧ 0 < hugeBall.v_x ∧
    goInt64 (hugeBall.x + hugeBall.v_x) = -(2 : Int) ^ 63 ∧
    (hugeBall.Move64).1.x = 10 ^ 19 + 100 ∧ (hugeBall.Move64).1.v_x = 10 ^ 19 ∧
    ¬ ((hugeBall.Move64).1.x = ((AREA_WIDTH - hugeBall.radius : Int) : ℚ) ∧
       (hugeBall.Move64).1.v_x = -hugeBall.v_x) := by
  decide!

/-! ## The arena region -/

/-- C32 (amended): `Ball.Move` keeps a ball inside the arena region for every
velocity whose advanced coordinates `x + vx`, `y + vy` are within the 64-bit
range (`≤ 2^62` in size; the velocities `SetDir` produces are at most 10 and
7): if `radius ≤ x ≤ AREA_WIDTH - radius` and
`radius ≤ y < AREA_HEIGHT - radius + 1` before the call, the same bounds hold
after it, with the same radius. -/
theorem C32_Move_preserves_arena (b : Ball) (hr : -(2 : Int) ^ 63 ≤ b.radius) (h : b.inArena)
    (hx : |b.x + b.v_x| ≤ 2 ^ 62) (hy : |b.y + b.v_y| ≤ 2 ^ 62) :
    (b.Move64).1.inArena ∧ (b.Move64).1.radius = b.radius := by
  have hr2 : b.radius < (2 : Int) ^ 62 := by
    have h1 : (b.radius : ℚ) ≤ ((AREA_WIDTH - b.radius : Int) : ℚ) := le_trans h.1 h.2.1
    have h2 : b.radius ≤ AREA_WIDTH - b.radius := by exact_mod_cast h1
    have hA : AREA_WIDTH = 182 := rfl
    rw [hA] at h2
    norm_num
    omega
  rw [Move64_eq b hr hr2 hx hy]
  obtain ⟨m0, m1, m2, m3, m4⟩ := Move_in_arena b h.1 h.2.1 h.2.2.1 h.2.2.2
  refine ⟨?_, m0⟩
  unfold Ball.inArena
  rw [m0]
  exact ⟨m1, m2, m3, m4⟩

theorem C32_Move_preserves_arena_witness :
    wildBall.v_x = 5000 ∧ wildBall.v_y = -7000 ∧ wildBall.inArena ∧
    (wildBall.Move64).1.x = 180 ∧ (wildBall.Move64).1.y = 2 ∧
    ((wildBall.Move64).1.inArena ∧ (wildBall.Move64).1.radius = wildBall.radius) :=
  ⟨by decide!, by decide!, by unfold Ball.inArena; decide!, by decide!, by decide!,
    C32_Move_preserves_arena wildBall (by decide) (by unfold Ball.inArena; decide!)
      (by decide!) (by decide!)⟩

/-- C32, as stated for every velocity, fails beyond the 64-bit range: a ball
of radius 2 at `(100, 120)`, inside the arena, with velocity `(10^19, 10^19)`
is left at `(10^19 + 100, 10^19 + 120)` without an error, because both
conversions `int(b.x)`, `int(b.y)` give `-2^63` and no wall test fires. -/
theorem C32_counterexample :
    hugeBall.inArena ∧ hugeBall.v_y = 10 ^ 19 ∧
    goInt64 (hugeBall.y + hugeBall.v_y) = -(2 : Int) ^ 63 ∧
    (hugeBall.Move64).1.x = 10 ^ 19 + 100 ∧ (hugeBall.Move64).1.y = 10 ^ 19 + 120 ∧
    (hugeBall.Move64).2 = none ∧ ¬ (hugeBall.Move64).1.inArena := by
  unfold Ball.inArena
  decide!

/-! ## `SetDir` on float64 values -/

theorem ofExact_cases (q : ℚ) :
    (q ≥ 2 ^ 1024 ∧ F64.ofExact q = .pinf) ∨ (q ≤ -2 ^ 1024 ∧ F64.ofExact q = .ninf) ∨
    (-2 ^ 1024 < q ∧ q < 2 ^ 1024 ∧ F64.ofExact q = .fin q) := by
  unfold F64.ofExact
  split_ifs with h1 h2
  · exact Or.inl ⟨h1, rfl⟩
  · exact Or.inr (Or.inl ⟨h2, rfl⟩)
  · exact Or.inr (Or.inr ⟨not_le.mp h2, not_le.mp h1, rfl⟩)

/-- The two comparisons of `SetDir` on one component clamp it. -/
theorem clamp64 (q c : ℚ) (hc : 0 < c) (hc2 : c < 2 ^ 1024) :
    (if F64.lt (if F64.gt (F64.ofExact q) (.fin c) then .fin c else F64.ofExact q) (.fin (-c))
      then F64.fin (-c)
      else (if F64.gt (F64.ofExact q) (.fin c) then .fin c else F64.ofExact q)) =
      .fin (max (-c) (min q c)) := by
  rcases ofExact_cases q with ⟨h, e⟩ | ⟨h, e⟩ | ⟨h1, h2, e⟩
  · rw [e]
    have : max (-c) (min q c) = c := by
      rw [min_eq_right (by linarith), max_eq_right (by linarith)]
    simp [F64.gt, F64.lt, this]
    intro h0
    linarith
  · rw [e]
    have : max (-c) (min q c) = -c := by
      rw [min_eq_left (by linarith), max_eq_left (by linarith)]
    simp [F64.gt, F64.lt, this]
  · rw [e]
    by_cases g1 : q > c
    · have : max (-c) (min q c) = c := by
        rw [min_eq_right (by linarith), max_eq_right (by linarith)]
      simp [F64.gt, F64.lt, this, g1]
      intro h0
      linarith
    · by_cases g2 : q < -c
      · have : max (-c) (min q c) = -c := by
          rw [min_eq_left (by linarith), max_eq_left (by linarith)]
        simp [F64.gt, F64.lt, this, g1, g2]
      · have : max (-c) (min q c) = q := by
          rw [min_eq_left (by linarith), max_eq_right (by linarith)]
        simp [F64.gt, F64.lt, this, g1, g2]

theorem cos64_fin (T : Trig) (d : ℚ) (h : |d * Pi64| < 2 ^ 1024) :
    T.cos64 (.fin d) = .fin (T.cos d) ∧ T.sin64 (.fin d) = .fin (T.sin d) := by
  obtain ⟨h1, h2⟩ := abs_lt.mp h
  have e : F64.mul (.fin d) (.fin Pi64) = .fin (d * Pi64) := by
    show F64.ofExact (d * Pi64) = _
    unfold F64.ofExact
    rw [if_neg (by linarith), if_neg (by linarith)]
  unfold Trig.cos64 Trig.sin64
  rw [e]
  exact ⟨rfl, rfl⟩

theorem SetDir64_v_x (T : Trig) (b : FBall) (dir : F64) :
    (b.SetDir T dir).v_x =
      if F64.lt (if F64.gt (F64.mul b.speed (T.cos64 dir)) (.fin 10) then .fin 10
          else F64.mul b.speed (T.cos64 dir)) (.fin (-10))
      then F64.fin (-10)
      else (if F64.gt (F64.mul b.speed (T.cos64 dir)) (.fin 10) then .fin 10
          else F64.mul b.speed (T.cos64 dir)) := by
  unfold FBall.SetDir
  dsimp only
  split_ifs <;> rfl

theorem SetDir64_v_y (T : Trig) (b : FBall) (dir : F64) :
    (b.SetDir T dir).v_y =
      if F64.lt (if F64.gt (F64.mul b.speed (T.sin64 dir)) (.fin (BRICK_HEIGHT : ℚ))
          then .fin (BRICK_HEIGHT : ℚ) else F64.mul b.speed (T.sin64 dir))
          (.fin (-(BRICK_HEIGHT : ℚ)))
      then F64.fin (-(BRICK_HEIGHT : ℚ))
      else (if F64.gt (F64.mul b.speed (T.sin64 dir)) (.fin (BRICK_HEIGHT : ℚ))
          then .fin (BRICK_HEIGHT : ℚ) else F64.mul b.speed (T.sin64 dir)) := by
  unfold FBall.SetDir
  dsimp only
  split_ifs <;> rfl

theorem SetDir64_fields (T : Trig) (b : FBall) (dir : F64) :
    (b.SetDir T dir).dir = dir ∧ (b.SetDir T dir).x = b.x ∧ (b.SetDir T dir).y = b.y ∧
    (b.SetDir T dir).radius = b.radius ∧ (b.SetDir T dir).speed = b.speed := by
  unfold FBall.SetDir
  dsimp only
  split_ifs <;> exact ⟨rfl, rfl, rfl, rfl, rfl⟩

/-- C15 (amended): for every finite speed and every finite direction `theta`
(degrees) whose product with `math.Pi` does not overflow, `SetDir` stores
`dir = theta` and sets `vx = clamp (speed * cos theta) (-10) 10` and
`vy = clamp (speed * sin theta) (-BRICK_HEIGHT) BRICK_HEIGHT`, so that
`|vx| ≤ 10` and `|vy| ≤ 7` afterwards, whatever the finite speed; position,
radius and speed are kept, and the velocity is the one `Ball.SetDir` computes
over the rationals. -/
theorem C15_SetDir_clamps (T : Trig) (b : FBall) (s theta : ℚ) (hs : b.speed = .fin s)
    (ht : |theta * Pi64| < 2 ^ 1024) :
    (b.SetDir T (.fin theta)).dir = .fin theta ∧
    (b.SetDir T (.fin theta)).v_x = .fin (max (-10) (min (s * T.cos theta) 10)) ∧
    (b.SetDir T (.fin theta)).v_y =
      .fin (max (-(BRICK_HEIGHT : ℚ)) (min (s * T.sin theta) (BRICK_HEIGHT : ℚ))) ∧
    F64.within (b.SetDir T (.fin theta)).v_x 10 = true ∧
    F64.within (b.SetDir T (.fin theta)).v_y 7 = true ∧
    (b.SetDir T (.fin theta)).x = b.x ∧ (b.SetDir T (.fin theta)).y = b.y ∧
    (b.SetDir T (.fin theta)).radius = b.radius ∧ (b.SetDir T (.fin theta)).speed = b.speed ∧
    (∀ c : Ball, c.speed = s →
      (b.SetDir T (.fin theta)).v_x = .fin (c.SetDir T theta).v_x ∧
      (b.SetDir T (.fin theta)).v_y = .fin (c.SetDir T theta).v_y) := by
  have hB : ((BRICK_HEIGHT : Int) : ℚ) = 7 := by
    have : BRICK_HEIGHT = 7 := rfl
    rw [this]; norm_num
  obtain ⟨hc, hsn⟩ := cos64_fin T theta ht
  have hx : (b.SetDir T (.fin theta)).v_x = .fin (max (-10) (min (s * T.cos theta) 10)) := by
    rw [SetDir64_v_x, hs, hc]
    exact clamp64 (s * T.cos theta) 10 (by norm_num) (by norm_num)
  have hy : (b.SetDir T (.fin theta)).v_y =
      .fin (max (-(BRICK_HEIGHT : ℚ)) (min (s * T.sin theta) (BRICK_HEIGHT : ℚ))) := by
    rw [SetDir64_v_y, hs, hsn, hB]
    exact clamp64 (s * T.sin theta) 7 (by norm_num) (by norm_num)
  obtain ⟨f1, f2, f3, f4, f5⟩ := SetDir64_fields T b (.fin theta)
  refine ⟨f1, hx, hy, ?_, ?_, f2, f3, f4, f5, ?_⟩
  · rw [hx]
    simp only [F64.within, decide_eq_true_eq]
    exact ⟨le_max_left _ _, max_le (by norm_num) (min_le_right _ _)⟩
  · rw [hy, hB]
    simp only [F64.within, decide_eq_true_eq]
    exact ⟨le_max_left _ _, max_le (by norm_num) (min_le_right _ _)⟩
  · intro c hcs
    obtain ⟨_, g1, g2, _⟩ := SetDir_clamp T c theta
    rw [hx, hy, g1, g2, hcs]
    exact ⟨rfl, rfl⟩

theorem C15_SetDir_clamps_witness :
    (fastBall64.SetDir sampleTrig (.fin 0)).v_x = .fin 10 ∧
    (fastBall64.SetDir sampleTrig (.fin 90)).v_y = .fin 7 ∧
    (fastBall64.SetDir sampleTrig (.fin 180)).v_x = .fin (-10) ∧
    (fastBall64.SetDir sampleTrig (.fin 270)).v_y = .fin (-7) ∧
    F64.within (fastBall64.SetDir sampleTrig (.fin 0)).v_x 10 = true ∧
    F64.within (fastBall64.SetDir sampleTrig (.fin 90)).v_y 7 = true ∧
    F64.within (fastBall64.SetDir sampleTrig (.fin 180)).v_x 10 = true ∧
    F64.within (fastBall64.SetDir sampleTrig (.fin 270)).v_y 7 = true :=
  ⟨by decide!, by decide!, by decide!, by decide!,
    (C15_SetDir_clamps sampleTrig fastBall64 20 0 rfl (by decide!)).2.2.2.1,
    (C15_SetDir_clamps sampleTrig fastBall64 20 90 rfl (by decide!)).2.2.2.2.1,
    (C15_SetDir_clamps sampleTrig fastBall64 20 180 rfl (by decide!)).2.2.2.1,
    (C15_SetDir_clamps sampleTrig fastBall64 20 270 rfl (by decide!)).2.2.2.2.1⟩

/-- C15, as stated for every speed and every direction, fails on values that
are not finite: `SetDir(NaN)` and `SetDir(+Inf)` leave `vx = vy = NaN`, a
finite direction of `10^308` degrees does the same because
`dir*math.Pi` overflows, and with speed `+Inf` the direction 0 leaves
`vy = Inf * 0 = NaN`; no comparison with NaN is true, so none of the four
tests clamps and `|vx| ≤ 10`, `|vy| ≤ 7` do not hold. -/
theorem C15_counterexample :
    (fastBall64.SetDir sampleTrig .nan).v_x = .nan ∧
    (fastBall64.SetDir sampleTrig .nan).v_y = .nan ∧
    F64.within (fastBall64.SetDir sampleTrig .nan).v_x 10 = false ∧
    F64.within (fastBall64.SetDir sampleTrig .nan).v_y 7 = false ∧
    (fastBall64.SetDir sampleTrig .pinf).v_x = .nan ∧
    (fastBall64.SetDir sampleTrig (.fin (10 ^ 308))).v_x = .nan ∧
    ({ fastBall64 with speed := .pinf }.SetDir sampleTrig (.fin 0)).v_x = .fin 10 ∧
    ({ fastBall64 with speed := .pinf }.SetDir sampleTrig (.fin 0)).v_y = .nan ∧
    F64.within ({ fastBall64 with speed := .pinf }.SetDir sampleTrig (.fin 0)).v_y 7 = false := by
  decide!

/-! ## Frame of the brick test -/

theorem CheckColisionCall_state (b : Breakout) (br : Brick) (bl : Ball) :
    (b.CheckColisionCall br bl).2 = { engine := b, brick := br, ball := bl } := by
  unfold Breakout.CheckColisionCall
  cases hc : br.cleared
  · simp [Brick.IsClearedCall, hc, Brick.GetXCall, Brick.GetYCall, Brick.GetWidthCall,
      Brick.GetHeightCall, Ball.GetXCall, Ball.GetYCall, Ball.GetRadiusCall]
  · simp [Brick.IsClearedCall, hc]

theorem CheckColisionCall_flags (b : Breakout) (br : Brick) (bl : Ball) :
    (b.CheckColisionCall br bl).1 = b.CheckColision br bl := by
  unfold Breakout.CheckColisionCall Breakout.CheckColision
  cases hc : br.cleared
  · simp only [Brick.IsClearedCall, Brick.IsCleared, hc, Bool.false_eq_true, if_false]
    rfl
  · simp [Brick.IsClearedCall, Brick.IsCleared, hc]

/-- C25: a call of `CheckColision` leaves the engine, the brick and the ball
as they were, also when it raises a flag: the brick keeps its cleared flag and
rectangle, the ball is unchanged, and the engine keeps score, level and grid;
its flags are those of `CheckColision` and depend only on the fields read.  In
the brick loop of `MoveBall` an uncleared brick that the test does not flag
leaves the slot and the loop state as they were, and a brick it flags is
replaced by `SetCleared true` of itself, which changes the flag and nothing
else of the brick: the marking is done by `MoveBall`. -/
theorem C25_CheckColision_reads_only (b b2 : Breakout) (br br2 : Brick) (bl bl2 : Ball)
    (s : Scan) :
    (b.CheckColisionCall br bl).2 = { engine := b, brick := br, ball := bl } ∧
    (b.CheckColisionCall br bl).1 = b.CheckColision br bl ∧
    ((b.CheckColisionCall br bl).2.brick.cleared = br.cleared ∧
      (b.CheckColisionCall br bl).2.brick.x = br.x ∧
      (b.CheckColisionCall br bl).2.brick.y = br.y ∧
      (b.CheckColisionCall br bl).2.brick.width = br.width ∧
      (b.CheckColisionCall br bl).2.brick.height = br.height ∧
      (b.CheckColisionCall br bl).2.ball = bl ∧
      (b.CheckColisionCall br bl).2.engine.ball = b.ball ∧
      (b.CheckColisionCall br bl).2.engine.score = b.score ∧
      (b.CheckColisionCall br bl).2.engine.level = b.level ∧
      (b.CheckColisionCall br bl).2.engine.bricks = b.bricks) ∧
    (b2.ball.v_x = b.ball.v_x → b2.ball.v_y = b.ball.v_y →
      br2.cleared = br.cleared → br2.x = br.x → br2.y = br.y →
      br2.width = br.width → br2.height = br.height →
      bl2.GetX = bl.GetX → bl2.GetY = bl.GetY → bl2.radius = bl.radius →
      b2.CheckColision br2 bl2 = b.CheckColision br bl) ∧
    (br.cleared = false → s.xrev = false → s.yrev = false →
      (b.hits br = false → b.scanCell s (some br) = (s, some br)) ∧
      (b.hits br = true →
        (b.scanCell s (some br)).2 = some (br.SetCleared true) ∧
        (b.scanCell s (some br)).1.score = s.score + br.GetPoints * b.level)) ∧
    ((br.SetCleared true).cleared = true ∧ (br.SetCleared true).x = br.x ∧
      (br.SetCleared true).y = br.y ∧ (br.SetCleared true).width = br.width ∧
      (br.SetCleared true).height = br.height ∧ (br.SetCleared true).row = br.row ∧
      (br.SetCleared true).col = br.col) := by
  have hst := CheckColisionCall_state b br bl
  refine ⟨hst, CheckColisionCall_flags b br bl, ?_, CheckColision_reads b b2 br br2 bl bl2, ?_,
    rfl, rfl, rfl, rfl, rfl, rfl, rfl⟩
  · rw [hst]
    exact ⟨rfl, rfl, rfl, rfl, rfl, rfl, rfl, rfl, rfl, rfl⟩
  · intro hc hx hy
    refine ⟨?_, ?_⟩
    · intro hh
      rw [scanCell_clean b s (some br) hx hy (by simp [Breakout.noHit, hc, hh])]
      simp [clearedInRow, hc]
    · intro hh
      rw [scanCell_hit b s br hx hy hc hh]
      exact ⟨rfl, rfl⟩

theorem C25_CheckColision_reads_only_witness :
    (hitState.afterMove.CheckColisionCall (NewBrick 1 1) hitState.afterMove.ball).1 =
      (true, false) ∧
    (hitState.afterMove.CheckColisionCall (NewBrick 1 1) hitState.afterMove.ball).2.brick.cleared =
      false ∧
    (hitState.afterMove.CheckColisionCall (NewBrick 1 1) hitState.afterMove.ball).2 =
      { engine := hitState.afterMove, brick := NewBrick 1 1, ball := hitState.afterMove.ball } ∧
    (hitState.afterMove.scanCell { cleared := 0, xrev := false, yrev := false, score := 0 }
      (some (NewBrick 1 1))).2 = some ((NewBrick 1 1).SetCleared true) :=
  ⟨by decide!, by decide!,
    (C25_CheckColision_reads_only hitState.afterMove hitState (NewBrick 1 1) (NewBrick 1 1)
      hitState.afterMove.ball hitState.ball
      { cleared := 0, xrev := false, yrev := false, score := 0 }).1,
    (((C25_CheckColision_reads_only hitState.afterMove hitState (NewBrick 1 1) (NewBrick 1 1)
      hitState.afterMove.ball hitState.ball
      { cleared := 0, xrev := false, yrev := false, score := 0 }).2.2.2.2.1
      (by decide!) rfl rfl).2 (by decide!)).1⟩

/-! ## Snapshot records -/

theorem activeRecords_eq (g : List (List (Option Brick))) :
    activeRecords g =
      g.flatten.filterMap fun c =>
        match c with
        | some br =>
          if br.cleared = false then
            some { X := br.x, Y := br.y, Width := br.width, Height := br.height,
                   Color := br.GetColor }
          else none
        | none => none := by
  unfold activeRecords
  congr 1

/-- C20: for an engine whose grid has 8 rows of 14 slots, `GetState` returns
a snapshot whose `Bricks` are, in row-major order, the records
`(x, y, width, height, colour)` of the bricks whose cleared flag is false
(every record carries the position, size and colour of an uncleared brick of
the grid, and no cleared brick contributes one), of length 112 minus the
number of cleared bricks when every slot holds a brick; `Level`, `Score`,
`Live`, `FrameReward`, `Done` and the ball and paddle entries equal the
engine's fields and `Width`, `Height` are 182, 240. -/
theorem C20_GetState_snapshot (b : Breakout) (hs : gridShape b.bricks = true) :
    ∃ st, b.GetState = some st ∧
      st.Bricks = activeRecords b.bricks ∧
      (st.Bricks =
        b.bricks.flatten.filterMap fun c =>
          match c with
          | some br =>
            if br.cleared = false then
              some { X := br.x, Y := br.y, Width := br.width, Height := br.height,
                     Color := br.GetColor }
            else none
          | none => none) ∧
      (noNil b.bricks = true → (st.Bricks.length : Int) = 112 - clearedInGrid b.bricks) ∧
      (∀ r ∈ st.Bricks, ∃ row ∈ b.bricks, ∃ br,
        some br ∈ row ∧ br.cleared = false ∧ r = br.GetState ∧
        r.X = br.x ∧ r.Y = br.y ∧ r.Width = br.width ∧ r.Height = br.height ∧
        r.Color = br.GetColor) ∧
      st.Level = b.level ∧ st.Score = b.score ∧ st.Live = b.live ∧
      st.FrameReward = b.frameReward ∧ st.Done = b.gameOver ∧
      st.Width = 182 ∧ st.Height = 240 ∧
      st.BallX = b.ball.GetX ∧ st.BallY = b.ball.GetY ∧ st.BallRadius = b.ball.radius ∧
      st.PaddleX = b.paddle.x ∧ st.PaddleWidth = b.paddle.width ∧
      st.PaddleHeight = b.paddle.height := by
  refine ⟨_, GetState_of_shape b hs, rfl, activeRecords_eq b.bricks, ?_, ?_, rfl, rfl, rfl, rfl,
    rfl, rfl, rfl, rfl, rfl, rfl, rfl, rfl, rfl⟩
  · intro hn
    show ((activeRecords b.bricks).length : Int) = 112 - clearedInGrid b.bricks
    rw [length_activeRecords b.bricks hn, length_flatten_of_shape b.bricks hs]
    norm_num
  · intro r hr
    obtain ⟨row, hrow, br, hbr, hcl, e⟩ := mem_activeRecords b.bricks r hr
    refine ⟨row, hrow, br, hbr, hcl, e, ?_⟩
    rw [e]
    exact ⟨rfl, rfl, rfl, rfl, rfl⟩

theorem C20_GetState_snapshot_witness :
    gridShape (hitState.MoveBall sampleTrig 0 0).bricks = true ∧
    noNil (hitState.MoveBall sampleTrig 0 0).bricks = true ∧
    clearedInGrid (hitState.MoveBall sampleTrig 0 0).bricks = 1 ∧
    ∃ st, (hitState.MoveBall sampleTrig 0 0).GetState = some st ∧
      st.Bricks = activeRecords (hitState.MoveBall sampleTrig 0 0).bricks ∧
      (st.Bricks.length : Int) = 111 ∧ st.Score = 1 ∧ st.Width = 182 ∧ st.Height = 240 ∧
      st.Bricks.head? =
        some { X := 0, Y := 81, Width := 13, Height := 7, Color := "yellow" } ∧
      st.Bricks[14]? =
        some { X := 0, Y := 74, Width := 13, Height := 7, Color := "yellow" } ∧
      st.Bricks[15]? =
        some { X := 26, Y := 74, Width := 13, Height := 7, Color := "yellow" } ∧
      st.Bricks.getLast? =
        some { X := 169, Y := 32, Width := 13, Height := 7, Color := "red" } := by
  obtain ⟨st, h1, h2, _, h3, _, _, h5, _, _, _, h9, h10, _⟩ :=
    C20_GetState_snapshot (hitState.MoveBall sampleTrig 0 0) (by decide!)
  have hc : clearedInGrid (hitState.MoveBall sampleTrig 0 0).bricks = 1 := by decide!
  refine ⟨by decide!, by decide!, hc, st, h1, h2, ?_, ?_, h9, h10, ?_, ?_, ?_, ?_⟩
  · rw [h3 (by decide!), hc]; rfl
  · rw [h5]; decide!
  · rw [h2]; decide!
  · rw [h2]; decide!
  · rw [h2]; decide!
  · rw [h2]; decide!

end BreakoutGo
